import Mathlib

/-
  Verification development for the suite-crafter project generator.

  The definitions below are a shallow embedding of the TypeScript sources:
    - src/lib/types.ts            (configuration model, zod schema, valid combinations)
    - src/lib/folderTree.ts       (path planner `generateFolderTree`, content generator
                                   `generateFiles` and its per-artifact template functions)
    - src/components/wizard/FolderTree.tsx        (tree builder `buildTree`)
    - src/components/wizard/steps/StepLanguage.tsx (`handleLanguageChange`)
    - the StepBasics component (`handleNameChange` project-name slug normalization)

  JavaScript strings are modeled as Lean `String` (Unicode code points; all generated
  text is ASCII so this matches UTF-16 code-unit semantics).  `Array.prototype.sort`
  is a stable comparison sort and is modeled by `List.insertionSort`, which is also
  stable, hence extensionally identical on every comparator used here.
-/

namespace SuiteCrafter

/-- Language enum from types.ts: z.enum(['typescript', 'java', 'python']). -/
inductive Language where
  | typescript
  | java
  | python
deriving DecidableEq, BEq, Inhabited

/-- BuildTool enum from types.ts. -/
inductive BuildTool where
  | npm
  | pnpm
  | maven
  | gradle
  | pip
  | poetry
deriving DecidableEq, BEq, Inhabited

/-- UIFramework enum from types.ts. -/
inductive UIFramework where
  | playwright
  | selenium
deriving DecidableEq, BEq, Inhabited

/-- APIFramework enum from types.ts ('playwright-api', 'axios', 'rest-assured', 'requests'). -/
inductive APIFramework where
  | playwrightApi
  | axios
  | restAssured
  | requests
deriving DecidableEq, BEq, Inhabited

/-- TestRunner enum from types.ts ('playwright-test', 'junit', 'testng', 'pytest'). -/
inductive TestRunner where
  | playwrightTest
  | junit
  | testng
  | pytest
deriving DecidableEq, BEq, Inhabited

/-- ReportingOption enum from types.ts ('allure', 'html', 'junit-xml', 'pytest-html', 'surefire'). -/
inductive ReportingOption where
  | allure
  | html
  | junitXml
  | pytestHtml
  | surefire
deriving DecidableEq, BEq, Inhabited

/-- The string value of a Language (the zod enum values are strings in JS). -/
def languageStr : Language → String
  | .typescript => "typescript"
  | .java => "java"
  | .python => "python"

/-- The string value of a BuildTool. -/
def buildToolStr : BuildTool → String
  | .npm => "npm"
  | .pnpm => "pnpm"
  | .maven => "maven"
  | .gradle => "gradle"
  | .pip => "pip"
  | .poetry => "poetry"

/-- ProjectConfig from types.ts (the parsed shape of ProjectConfigSchema).
`description` and `author` are `.optional()` in the schema, `uiFramework` and
`apiFramework` likewise; they are modeled as `Option`. -/
structure ProjectConfig where
  projectName : String
  description : Option String
  author : Option String
  initGit : Bool
  includeUI : Bool
  includeAPI : Bool
  language : Language
  buildTool : BuildTool
  uiFramework : Option UIFramework
  apiFramework : Option APIFramework
  testRunner : TestRunner
  reporting : List ReportingOption
  includeEnvConfig : Bool
  includeCI : Bool
  includeDocker : Bool

/-- The per-language option lists of `validCombinations` in types.ts. -/
structure Combos where
  buildTools : List BuildTool
  uiFrameworks : List UIFramework
  apiFrameworks : List APIFramework
  testRunners : List TestRunner
  reporting : List ReportingOption

/-- validCombinations from types.ts. -/
def validCombinations : Language → Combos
  | .typescript =>
    { buildTools := [.npm, .pnpm]
      uiFrameworks := [.playwright]
      apiFrameworks := [.playwrightApi, .axios]
      testRunners := [.playwrightTest]
      reporting := [.html, .junitXml] }
  | .java =>
    { buildTools := [.maven, .gradle]
      uiFrameworks := [.selenium]
      apiFrameworks := [.restAssured]
      testRunners := [.junit, .testng]
      reporting := [.allure, .surefire, .junitXml] }
  | .python =>
    { buildTools := [.pip, .poetry]
      uiFrameworks := [.playwright, .selenium]
      apiFrameworks := [.requests]
      testRunners := [.pytest]
      reporting := [.pytestHtml, .junitXml, .allure] }

/-- Code-point comparison of characters (JS string comparison is by code unit;
all strings involved are ASCII where the two coincide). -/
def charLe (a b : Char) : Bool := a.val ≤ b.val

/-- Lexicographic comparison of character lists. -/
def charListLe : List Char → List Char → Bool
  | [], _ => true
  | _ :: _, [] => false
  | a :: as, b :: bs => if a = b then charListLe as bs else charLe a b

/-- Lexicographic string comparison, the default `Array.prototype.sort` order in JS
(code-unit comparison; modeled on code points, identical on the ASCII paths here). -/
def strLe (a b : String) : Bool := charListLe a.data b.data

/-- `strLe` as a decidable relation, used with `List.insertionSort`. -/
def strLE (a b : String) : Prop := strLe a b = true

instance : DecidableRel strLE := fun a b => by unfold strLE; infer_instance

/-- generateFolderTree from src/lib/folderTree.ts.  The sequence of `paths.push`
calls becomes list concatenation (conditional pushes become conditional sublists),
and the final `paths.sort()` (default lexicographic string sort, stable) becomes
`List.insertionSort strLE`. -/
def generateFolderTree (config : ProjectConfig) : List String :=
  let projectName := config.projectName
  let paths : List String :=
    [projectName ++ "/", projectName ++ "/README.md", projectName ++ "/.env.example"]
    ++ (if config.initGit then [projectName ++ "/.gitignore"] else [])
    ++ (if config.language = Language.typescript then
          [projectName ++ "/package.json", projectName ++ "/tsconfig.json",
           projectName ++ "/playwright.config.ts",
           projectName ++ "/src/", projectName ++ "/src/utils/",
           projectName ++ "/src/utils/config.ts", projectName ++ "/src/utils/helpers.ts"]
          ++ (if config.includeUI then
                [projectName ++ "/src/pages/", projectName ++ "/src/pages/BasePage.ts",
                 projectName ++ "/src/pages/LoginPage.ts", projectName ++ "/src/fixtures/",
                 projectName ++ "/src/fixtures/base.fixture.ts"] else [])
          ++ [projectName ++ "/tests/"]
          ++ (if config.includeUI then
                [projectName ++ "/tests/ui/", projectName ++ "/tests/ui/login.spec.ts",
                 projectName ++ "/tests/ui/home.spec.ts"] else [])
          ++ (if config.includeAPI then
                [projectName ++ "/tests/api/", projectName ++ "/tests/api/users.spec.ts",
                 projectName ++ "/tests/api/health.spec.ts"] else [])
          ++ [projectName ++ "/config/", projectName ++ "/config/dev.json",
              projectName ++ "/config/stage.json", projectName ++ "/config/prod.json",
              projectName ++ "/scripts/", projectName ++ "/scripts/run-tests.sh"]
        else [])
    ++ (if config.language = Language.java then
          (if config.buildTool = BuildTool.maven then [projectName ++ "/pom.xml"]
           else [projectName ++ "/build.gradle", projectName ++ "/settings.gradle"])
          ++ [projectName ++ "/src/", projectName ++ "/src/test/",
              projectName ++ "/src/test/java/", projectName ++ "/src/test/java/com/",
              projectName ++ "/src/test/java/com/automation/",
              projectName ++ "/src/test/java/com/automation/base/",
              projectName ++ "/src/test/java/com/automation/base/BaseTest.java",
              projectName ++ "/src/test/java/com/automation/utils/",
              projectName ++ "/src/test/java/com/automation/utils/ConfigReader.java",
              projectName ++ "/src/test/java/com/automation/utils/TestUtils.java"]
          ++ (if config.includeUI then
                [projectName ++ "/src/test/java/com/automation/utils/WebDriverFactory.java",
                 projectName ++ "/src/test/java/com/automation/pages/",
                 projectName ++ "/src/test/java/com/automation/pages/BasePage.java",
                 projectName ++ "/src/test/java/com/automation/pages/LoginPage.java",
                 projectName ++ "/src/test/java/com/automation/pages/HomePage.java",
                 projectName ++ "/src/test/java/com/automation/tests/",
                 projectName ++ "/src/test/java/com/automation/tests/LoginTest.java"] else [])
          ++ (if config.includeAPI then
                [projectName ++ "/src/test/java/com/automation/api/",
                 projectName ++ "/src/test/java/com/automation/api/BaseApiClient.java",
                 projectName ++ "/src/test/java/com/automation/api/UsersApiTest.java",
                 projectName ++ "/src/test/java/com/automation/api/PostsApiTest.java"] else [])
          ++ [projectName ++ "/src/test/resources/",
              projectName ++ "/src/test/resources/config.properties",
              projectName ++ "/src/test/resources/log4j2.xml"]
        else [])
    ++ (if config.language = Language.python then
          [projectName ++ "/requirements.txt"]
          ++ (if config.buildTool = BuildTool.poetry then [projectName ++ "/pyproject.toml"] else [])
          ++ [projectName ++ "/pytest.ini", projectName ++ "/conftest.py",
              projectName ++ "/src/", projectName ++ "/src/__init__.py",
              projectName ++ "/src/utils/", projectName ++ "/src/utils/__init__.py",
              projectName ++ "/src/utils/config.py", projectName ++ "/src/utils/api_client.py"]
          ++ (if config.includeUI then
                [projectName ++ "/src/pages/", projectName ++ "/src/pages/__init__.py",
                 projectName ++ "/src/pages/base_page.py",
                 projectName ++ "/src/pages/login_page.py"] else [])
          ++ [projectName ++ "/tests/", projectName ++ "/tests/__init__.py"]
          ++ (if config.includeUI then
                [projectName ++ "/tests/ui/", projectName ++ "/tests/ui/__init__.py",
                 projectName ++ "/tests/ui/test_login.py"] else [])
          ++ (if config.includeAPI then
                [projectName ++ "/tests/api/", projectName ++ "/tests/api/__init__.py",
                 projectName ++ "/tests/api/test_users.py",
                 projectName ++ "/tests/api/test_posts.py"] else [])
        else [])
    ++ (if config.includeCI then
          [projectName ++ "/.github/", projectName ++ "/.github/workflows/",
           projectName ++ "/.github/workflows/tests.yml"] else [])
    ++ (if config.includeDocker then
          [projectName ++ "/Dockerfile", projectName ++ "/docker-compose.yml"] else [])
  paths.insertionSort strLE

/-- Models the JS falsy-or idiom `opt || default` on an optional string field
(`undefined` and the empty string both select the default). -/
def jsOr (o : Option String) (d : String) : String :=
  match o with
  | some s => if s = "" then d else s
  | none => d

/-- Template constant transcribed from `generateTsBasePage` in src/src/lib/folderTree.ts. -/
def generateTsBasePage : String :=
  "import \x7b Page, Locator \x7d from '@playwright/test';\n\nexport abstract class BasePage \x7b\n  protected page: Page;\n\n  constructor(page: Page) \x7b\n    this.page = page;\n  \x7d\n\n  async navigate(path: string = '/'): Promise<void> \x7b\n    await this.page.goto(path);\n  \x7d\n\n  async waitForPageLoad(): Promise<void> \x7b\n    await this.page.waitForLoadState('networkidle');\n  \x7d\n\n  protected getLocator(selector: string): Locator \x7b\n    return this.page.locator(selector);\n  \x7d\n\n  async takeScreenshot(name: string): Promise<Buffer> \x7b\n    return await this.page.screenshot(\x7b path: `screenshots/$\x7bname\x7d.png` \x7d);\n  \x7d\n\x7d\n"

/-- Template constant transcribed from `generateTsLoginPage` in src/src/lib/folderTree.ts. -/
def generateTsLoginPage : String :=
  "import \x7b Page, Locator, expect \x7d from '@playwright/test';\nimport \x7b BasePage \x7d from './BasePage';\n\nexport class LoginPage extends BasePage \x7b\n  private readonly usernameInput: Locator;\n  private readonly passwordInput: Locator;\n  private readonly submitButton: Locator;\n  private readonly errorMessage: Locator;\n\n  constructor(page: Page) \x7b\n    super(page);\n    this.usernameInput = page.locator('[data-testid=\"username\"]');\n    this.passwordInput = page.locator('[data-testid=\"password\"]');\n    this.submitButton = page.locator('[data-testid=\"submit\"]');\n    this.errorMessage = page.locator('[data-testid=\"error-message\"]');\n  \x7d\n\n  async login(username: string, password: string): Promise<void> \x7b\n    await this.usernameInput.fill(username);\n    await this.passwordInput.fill(password);\n    await this.submitButton.click();\n  \x7d\n\n  async expectErrorMessage(message: string): Promise<void> \x7b\n    await expect(this.errorMessage).toContainText(message);\n  \x7d\n\n  async expectLoginSuccess(): Promise<void> \x7b\n    await expect(this.page).toHaveURL(/.*dashboard/);\n  \x7d\n\x7d\n"

/-- Template constant transcribed from `generateTsLoginSpec` in src/src/lib/folderTree.ts. -/
def generateTsLoginSpec : String :=
  "import \x7b test, expect \x7d from '@playwright/test';\nimport \x7b LoginPage \x7d from '../../src/pages/LoginPage';\n\ntest.describe('Login Page Tests', () => \x7b\n  let loginPage: LoginPage;\n\n  test.beforeEach(async (\x7b page \x7d) => \x7b\n    loginPage = new LoginPage(page);\n    await loginPage.navigate('/login');\n  \x7d);\n\n  test('should display login form', async (\x7b page \x7d) => \x7b\n    await expect(page.locator('[data-testid=\"username\"]')).toBeVisible();\n    await expect(page.locator('[data-testid=\"password\"]')).toBeVisible();\n    await expect(page.locator('[data-testid=\"submit\"]')).toBeVisible();\n  \x7d);\n\n  test('should show error for invalid credentials', async () => \x7b\n    await loginPage.login('invalid@email.com', 'wrongpassword');\n    await loginPage.expectErrorMessage('Invalid credentials');\n  \x7d);\n\n  test('should login successfully with valid credentials', async () => \x7b\n    await loginPage.login('test@example.com', 'password123');\n    await loginPage.expectLoginSuccess();\n  \x7d);\n\x7d);\n"

/-- Template constant transcribed from `generateTsApiSpec` in src/src/lib/folderTree.ts. -/
def generateTsApiSpec : String :=
  "import \x7b test, expect \x7d from '@playwright/test';\n\ntest.describe('Users API Tests', () => \x7b\n  const baseURL = process.env.API_BASE_URL || 'https://jsonplaceholder.typicode.com';\n\n  test('GET /users - should return list of users', async (\x7b request \x7d) => \x7b\n    const response = await request.get(`$\x7bbaseURL\x7d/users`);\n    \n    expect(response.ok()).toBeTruthy();\n    expect(response.status()).toBe(200);\n    \n    const users = await response.json();\n    expect(Array.isArray(users)).toBeTruthy();\n    expect(users.length).toBeGreaterThan(0);\n  \x7d);\n\n  test('GET /users/1 - should return single user', async (\x7b request \x7d) => \x7b\n    const response = await request.get(`$\x7bbaseURL\x7d/users/1`);\n    \n    expect(response.ok()).toBeTruthy();\n    const user = await response.json();\n    expect(user).toHaveProperty('id', 1);\n    expect(user).toHaveProperty('name');\n    expect(user).toHaveProperty('email');\n  \x7d);\n\n  test('POST /users - should create new user', async (\x7b request \x7d) => \x7b\n    const newUser = \x7b\n      name: 'Test User',\n      username: 'testuser',\n      email: 'test@example.com',\n    \x7d;\n\n    const response = await request.post(`$\x7bbaseURL\x7d/users`, \x7b\n      data: newUser,\n    \x7d);\n\n    expect(response.ok()).toBeTruthy();\n    expect(response.status()).toBe(201);\n    \n    const createdUser = await response.json();\n    expect(createdUser).toHaveProperty('id');\n    expect(createdUser.name).toBe(newUser.name);\n  \x7d);\n\n  test('DELETE /users/1 - should delete user', async (\x7b request \x7d) => \x7b\n    const response = await request.delete(`$\x7bbaseURL\x7d/users/1`);\n    expect(response.ok()).toBeTruthy();\n  \x7d);\n\x7d);\n"

/-- Template constant transcribed from `generateTsUtils` in src/src/lib/folderTree.ts. -/
def generateTsUtils : String :=
  "import dotenv from 'dotenv';\nimport * as fs from 'fs';\nimport * as path from 'path';\n\ndotenv.config();\n\ninterface Config \x7b\n  baseUrl: string;\n  apiBaseUrl: string;\n  timeout: number;\n  retries: number;\n  headless: boolean;\n\x7d\n\nexport function loadConfig(env: string = 'dev'): Config \x7b\n  const configPath = path.join(__dirname, '../../config', `$\x7benv\x7d.json`);\n  \n  if (fs.existsSync(configPath)) \x7b\n    const fileConfig = JSON.parse(fs.readFileSync(configPath, 'utf-8'));\n    return \x7b\n      baseUrl: process.env.BASE_URL || fileConfig.baseUrl,\n      apiBaseUrl: process.env.API_BASE_URL || fileConfig.apiBaseUrl,\n      timeout: parseInt(process.env.TIMEOUT || fileConfig.timeout || '30000'),\n      retries: parseInt(process.env.RETRIES || fileConfig.retries || '0'),\n      headless: process.env.HEADLESS !== 'false',\n    \x7d;\n  \x7d\n\n  return \x7b\n    baseUrl: process.env.BASE_URL || 'https://example.com',\n    apiBaseUrl: process.env.API_BASE_URL || 'https://api.example.com',\n    timeout: 30000,\n    retries: 0,\n    headless: true,\n  \x7d;\n\x7d\n\nexport function sleep(ms: number): Promise<void> \x7b\n  return new Promise(resolve => setTimeout(resolve, ms));\n\x7d\n\nexport function generateRandomEmail(): string \x7b\n  return `test.$\x7bDate.now()\x7d@example.com`;\n\x7d\n"

/-- Template constant transcribed from `generateEnvExample` in src/src/lib/folderTree.ts. -/
def generateEnvExample : String :=
  "# Base URLs\nBASE_URL=https://example.com\nAPI_BASE_URL=https://api.example.com\n\n# Test Configuration\nTIMEOUT=30000\nRETRIES=0\nHEADLESS=true\n\n# CI/CD\nCI=false\n"

/-- Template constant transcribed from `generateRunScript` in src/src/lib/folderTree.ts. -/
def generateRunScript : String :=
  "#!/bin/bash\n\n# Run all tests\nrun_all() \x7b\n    npm test\n\x7d\n\n# Run UI tests only\nrun_ui() \x7b\n    npm run test:ui\n\x7d\n\n# Run API tests only\nrun_api() \x7b\n    npm run test:api\n\x7d\n\n# Run in headed mode\nrun_headed() \x7b\n    npm run test:headed\n\x7d\n\n# Show report\nshow_report() \x7b\n    npm run report\n\x7d\n\ncase \"$1\" in\n    all)\n        run_all\n        ;;\n    ui)\n        run_ui\n        ;;\n    api)\n        run_api\n        ;;\n    headed)\n        run_headed\n        ;;\n    report)\n        show_report\n        ;;\n    *)\n        echo \"Usage: $0 \x7ball|ui|api|headed|report\x7d\"\n        exit 1\n        ;;\nesac\n"

/-- Template constant transcribed from `generateTsFixture` in src/src/lib/folderTree.ts. -/
def generateTsFixture : String :=
  "import \x7b test as base \x7d from '@playwright/test';\nimport \x7b LoginPage \x7d from '../pages/LoginPage';\n\ntype Fixtures = \x7b\n  loginPage: LoginPage;\n\x7d;\n\nexport const test = base.extend<Fixtures>(\x7b\n  loginPage: async (\x7b page \x7d, use) => \x7b\n    const loginPage = new LoginPage(page);\n    await use(loginPage);\n  \x7d,\n\x7d);\n\nexport \x7b expect \x7d from '@playwright/test';\n"

/-- Template constant transcribed from `generateTsHelpers` in src/src/lib/folderTree.ts. -/
def generateTsHelpers : String :=
  "/**\n * Utility helper functions for tests\n */\n\nexport function generateRandomString(length: number = 10): string \x7b\n  const chars = 'abcdefghijklmnopqrstuvwxyz0123456789';\n  let result = '';\n  for (let i = 0; i < length; i++) \x7b\n    result += chars.charAt(Math.floor(Math.random() * chars.length));\n  \x7d\n  return result;\n\x7d\n\nexport function formatDate(date: Date): string \x7b\n  return date.toISOString().split('T')[0];\n\x7d\n\nexport async function retry<T>(\n  fn: () => Promise<T>,\n  maxAttempts: number = 3,\n  delayMs: number = 1000\n): Promise<T> \x7b\n  let lastError: Error | undefined;\n  \n  for (let attempt = 1; attempt <= maxAttempts; attempt++) \x7b\n    try \x7b\n      return await fn();\n    \x7d catch (error) \x7b\n      lastError = error as Error;\n      if (attempt < maxAttempts) \x7b\n        await new Promise(resolve => setTimeout(resolve, delayMs));\n      \x7d\n    \x7d\n  \x7d\n  \n  throw lastError;\n\x7d\n"

/-- Template constant transcribed from `generateTsHomeSpec` in src/src/lib/folderTree.ts. -/
def generateTsHomeSpec : String :=
  "import \x7b test, expect \x7d from '@playwright/test';\n\ntest.describe('Home Page Tests', () => \x7b\n  test.beforeEach(async (\x7b page \x7d) => \x7b\n    await page.goto('/');\n  \x7d);\n\n  test('should load the home page', async (\x7b page \x7d) => \x7b\n    await expect(page).toHaveTitle(/Example/);\n  \x7d);\n\n  test('should have main navigation', async (\x7b page \x7d) => \x7b\n    const nav = page.locator('nav');\n    await expect(nav).toBeVisible();\n  \x7d);\n\n  test('should display hero section', async (\x7b page \x7d) => \x7b\n    const hero = page.locator('[data-testid=\"hero\"]').or(page.locator('h1').first());\n    await expect(hero).toBeVisible();\n  \x7d);\n\x7d);\n"

/-- Template constant transcribed from `generateTsHealthSpec` in src/src/lib/folderTree.ts. -/
def generateTsHealthSpec : String :=
  "import \x7b test, expect \x7d from '@playwright/test';\n\ntest.describe('Health Check API Tests', () => \x7b\n  const baseURL = process.env.API_BASE_URL || 'https://jsonplaceholder.typicode.com';\n\n  test('API should be reachable', async (\x7b request \x7d) => \x7b\n    const response = await request.get(`$\x7bbaseURL\x7d/posts/1`);\n    expect(response.ok()).toBeTruthy();\n  \x7d);\n\n  test('API should return valid JSON', async (\x7b request \x7d) => \x7b\n    const response = await request.get(`$\x7bbaseURL\x7d/posts/1`);\n    const contentType = response.headers()['content-type'];\n    expect(contentType).toContain('application/json');\n  \x7d);\n\n  test('API should handle not found gracefully', async (\x7b request \x7d) => \x7b\n    const response = await request.get(`$\x7bbaseURL\x7d/posts/999999`);\n    expect(response.status()).toBe(404);\n  \x7d);\n\x7d);\n"

/-- Template constant transcribed from `generateJavaConfigReader` in src/src/lib/folderTree.ts. -/
def generateJavaConfigReader : String :=
  "package com.automation.utils;\n\nimport java.io.FileInputStream;\nimport java.io.IOException;\nimport java.util.Properties;\nimport org.apache.logging.log4j.LogManager;\nimport org.apache.logging.log4j.Logger;\n\n/**\n * Configuration reader that loads properties from config.properties\n * and supports environment variable overrides.\n */\npublic class ConfigReader \x7b\n\n    private static final Logger logger = LogManager.getLogger(ConfigReader.class);\n    private final Properties properties;\n\n    public ConfigReader() \x7b\n        properties = new Properties();\n        loadProperties();\n    \x7d\n\n    private void loadProperties() \x7b\n        try (FileInputStream fis = new FileInputStream(\"src/test/resources/config.properties\")) \x7b\n            properties.load(fis);\n            logger.info(\"Configuration loaded successfully\");\n        \x7d catch (IOException e) \x7b\n            logger.warn(\"Could not load config.properties: \x7b\x7d\", e.getMessage());\n        \x7d\n    \x7d\n\n    /**\n     * Get property value with environment variable override support.\n     * Environment variables take precedence over properties file.\n     */\n    public String getProperty(String key) \x7b\n        // Convert property key to env var format (e.g., base.url -> BASE_URL)\n        String envKey = key.toUpperCase().replace(\".\", \"_\");\n        String envValue = System.getenv(envKey);\n        \n        if (envValue != null && !envValue.isEmpty()) \x7b\n            return envValue;\n        \x7d\n        return properties.getProperty(key);\n    \x7d\n\n    /**\n     * Get property value with default fallback.\n     */\n    public String getProperty(String key, String defaultValue) \x7b\n        String value = getProperty(key);\n        return value != null ? value : defaultValue;\n    \x7d\n\n    /**\n     * Get property as integer.\n     */\n    public int getIntProperty(String key, int defaultValue) \x7b\n        String value = getProperty(key);\n        try \x7b\n            return value != null ? Integer.parseInt(value) : defaultValue;\n        \x7d catch (NumberFormatException e) \x7b\n            return defaultValue;\n        \x7d\n    \x7d\n\n    /**\n     * Get property as boolean.\n     */\n    public boolean getBooleanProperty(String key, boolean defaultValue) \x7b\n        String value = getProperty(key);\n        return value != null ? Boolean.parseBoolean(value) : defaultValue;\n    \x7d\n\x7d\n"

/-- Template constant transcribed from `generateJavaWebDriverFactory` in src/src/lib/folderTree.ts. -/
def generateJavaWebDriverFactory : String :=
  "package com.automation.utils;\n\nimport io.github.bonigarcia.wdm.WebDriverManager;\nimport org.openqa.selenium.WebDriver;\nimport org.openqa.selenium.chrome.ChromeDriver;\nimport org.openqa.selenium.chrome.ChromeOptions;\nimport org.openqa.selenium.firefox.FirefoxDriver;\nimport org.openqa.selenium.firefox.FirefoxOptions;\nimport org.openqa.selenium.edge.EdgeDriver;\nimport org.openqa.selenium.edge.EdgeOptions;\nimport org.apache.logging.log4j.LogManager;\nimport org.apache.logging.log4j.Logger;\n\nimport java.time.Duration;\n\n/**\n * Factory class for creating WebDriver instances.\n * Supports Chrome, Firefox, and Edge browsers.\n */\npublic class WebDriverFactory \x7b\n\n    private static final Logger logger = LogManager.getLogger(WebDriverFactory.class);\n    private static final int DEFAULT_TIMEOUT = 10;\n\n    private WebDriverFactory() \x7b\n        // Prevent instantiation\n    \x7d\n\n    /**\n     * Create a WebDriver instance for the specified browser.\n     */\n    public static WebDriver createDriver(String browser, boolean headless) \x7b\n        WebDriver driver;\n        \n        switch (browser.toLowerCase()) \x7b\n            case \"firefox\":\n                driver = createFirefoxDriver(headless);\n                break;\n            case \"edge\":\n                driver = createEdgeDriver(headless);\n                break;\n            case \"chrome\":\n            default:\n                driver = createChromeDriver(headless);\n                break;\n        \x7d\n        \n        configureDriver(driver);\n        return driver;\n    \x7d\n\n    private static WebDriver createChromeDriver(boolean headless) \x7b\n        logger.info(\"Initializing Chrome driver (headless: \x7b\x7d)\", headless);\n        WebDriverManager.chromedriver().setup();\n        \n        ChromeOptions options = new ChromeOptions();\n        if (headless) \x7b\n            options.addArguments(\"--headless=new\");\n        \x7d\n        options.addArguments(\"--no-sandbox\");\n        options.addArguments(\"--disable-dev-shm-usage\");\n        options.addArguments(\"--disable-gpu\");\n        options.addArguments(\"--window-size=1920,1080\");\n        options.addArguments(\"--remote-allow-origins=*\");\n        \n        return new ChromeDriver(options);\n    \x7d\n\n    private static WebDriver createFirefoxDriver(boolean headless) \x7b\n        logger.info(\"Initializing Firefox driver (headless: \x7b\x7d)\", headless);\n        WebDriverManager.firefoxdriver().setup();\n        \n        FirefoxOptions options = new FirefoxOptions();\n        if (headless) \x7b\n            options.addArguments(\"--headless\");\n        \x7d\n        options.addArguments(\"--width=1920\");\n        options.addArguments(\"--height=1080\");\n        \n        return new FirefoxDriver(options);\n    \x7d\n\n    private static WebDriver createEdgeDriver(boolean headless) \x7b\n        logger.info(\"Initializing Edge driver (headless: \x7b\x7d)\", headless);\n        WebDriverManager.edgedriver().setup();\n        \n        EdgeOptions options = new EdgeOptions();\n        if (headless) \x7b\n            options.addArguments(\"--headless=new\");\n        \x7d\n        options.addArguments(\"--no-sandbox\");\n        options.addArguments(\"--disable-dev-shm-usage\");\n        \n        return new EdgeDriver(options);\n    \x7d\n\n    private static void configureDriver(WebDriver driver) \x7b\n        driver.manage().timeouts().implicitlyWait(Duration.ofSeconds(DEFAULT_TIMEOUT));\n        driver.manage().timeouts().pageLoadTimeout(Duration.ofSeconds(30));\n        driver.manage().timeouts().scriptTimeout(Duration.ofSeconds(30));\n    \x7d\n\x7d\n"

/-- Template constant transcribed from `generateJavaBasePage` in src/src/lib/folderTree.ts. -/
def generateJavaBasePage : String :=
  "package com.automation.pages;\n\nimport org.openqa.selenium.By;\nimport org.openqa.selenium.WebDriver;\nimport org.openqa.selenium.WebElement;\nimport org.openqa.selenium.support.ui.ExpectedConditions;\nimport org.openqa.selenium.support.ui.WebDriverWait;\nimport org.openqa.selenium.support.ui.Select;\nimport org.openqa.selenium.JavascriptExecutor;\nimport org.apache.logging.log4j.LogManager;\nimport org.apache.logging.log4j.Logger;\n\nimport java.time.Duration;\nimport java.util.List;\n\n/**\n * Base page object class providing common web interactions.\n * All page objects should extend this class.\n */\npublic abstract class BasePage \x7b\n\n    protected static final Logger logger = LogManager.getLogger(BasePage.class);\n    protected final WebDriver driver;\n    protected final WebDriverWait wait;\n    private static final int DEFAULT_TIMEOUT = 10;\n\n    public BasePage(WebDriver driver) \x7b\n        this.driver = driver;\n        this.wait = new WebDriverWait(driver, Duration.ofSeconds(DEFAULT_TIMEOUT));\n    \x7d\n\n    // ============ Wait Methods ============\n\n    protected WebElement waitForElement(By locator) \x7b\n        logger.debug(\"Waiting for element: \x7b\x7d\", locator);\n        return wait.until(ExpectedConditions.visibilityOfElementLocated(locator));\n    \x7d\n\n    protected WebElement waitForClickable(By locator) \x7b\n        logger.debug(\"Waiting for clickable element: \x7b\x7d\", locator);\n        return wait.until(ExpectedConditions.elementToBeClickable(locator));\n    \x7d\n\n    protected List<WebElement> waitForElements(By locator) \x7b\n        wait.until(ExpectedConditions.presenceOfAllElementsLocatedBy(locator));\n        return driver.findElements(locator);\n    \x7d\n\n    // ============ Interaction Methods ============\n\n    protected void click(By locator) \x7b\n        logger.info(\"Clicking element: \x7b\x7d\", locator);\n        waitForClickable(locator).click();\n    \x7d\n\n    protected void type(By locator, String text) \x7b\n        logger.info(\"Typing '\x7b\x7d' into element: \x7b\x7d\", text, locator);\n        WebElement element = waitForElement(locator);\n        element.clear();\n        element.sendKeys(text);\n    \x7d\n\n    protected void clearAndType(By locator, String text) \x7b\n        WebElement element = waitForElement(locator);\n        element.clear();\n        element.sendKeys(text);\n    \x7d\n\n    protected String getText(By locator) \x7b\n        String text = waitForElement(locator).getText();\n        logger.debug(\"Got text '\x7b\x7d' from element: \x7b\x7d\", text, locator);\n        return text;\n    \x7d\n\n    protected String getAttribute(By locator, String attribute) \x7b\n        return waitForElement(locator).getAttribute(attribute);\n    \x7d\n\n    protected boolean isDisplayed(By locator) \x7b\n        try \x7b\n            return driver.findElement(locator).isDisplayed();\n        \x7d catch (Exception e) \x7b\n            return false;\n        \x7d\n    \x7d\n\n    protected boolean isEnabled(By locator) \x7b\n        return waitForElement(locator).isEnabled();\n    \x7d\n\n    // ============ Select Methods ============\n\n    protected void selectByVisibleText(By locator, String text) \x7b\n        logger.info(\"Selecting '\x7b\x7d' from dropdown: \x7b\x7d\", text, locator);\n        Select select = new Select(waitForElement(locator));\n        select.selectByVisibleText(text);\n    \x7d\n\n    protected void selectByValue(By locator, String value) \x7b\n        Select select = new Select(waitForElement(locator));\n        select.selectByValue(value);\n    \x7d\n\n    protected void selectByIndex(By locator, int index) \x7b\n        Select select = new Select(waitForElement(locator));\n        select.selectByIndex(index);\n    \x7d\n\n    // ============ JavaScript Methods ============\n\n    protected void scrollToElement(By locator) \x7b\n        WebElement element = waitForElement(locator);\n        ((JavascriptExecutor) driver).executeScript(\"arguments[0].scrollIntoView(true);\", element);\n    \x7d\n\n    protected void clickWithJS(By locator) \x7b\n        WebElement element = waitForElement(locator);\n        ((JavascriptExecutor) driver).executeScript(\"arguments[0].click();\", element);\n    \x7d\n\n    // ============ Navigation Methods ============\n\n    protected void navigateTo(String url) \x7b\n        logger.info(\"Navigating to: \x7b\x7d\", url);\n        driver.get(url);\n    \x7d\n\n    protected String getCurrentUrl() \x7b\n        return driver.getCurrentUrl();\n    \x7d\n\n    protected String getTitle() \x7b\n        return driver.getTitle();\n    \x7d\n\n    protected void refreshPage() \x7b\n        driver.navigate().refresh();\n    \x7d\n\x7d\n"

/-- Template constant transcribed from `generateJavaLoginPage` in src/src/lib/folderTree.ts. -/
def generateJavaLoginPage : String :=
  "package com.automation.pages;\n\nimport org.openqa.selenium.By;\nimport org.openqa.selenium.WebDriver;\n\n/**\n * Page Object for the Login Page.\n * Encapsulates all login page interactions.\n */\npublic class LoginPage extends BasePage \x7b\n\n    // ============ Locators ============\n    private final By usernameField = By.cssSelector(\"[data-testid='username']\");\n    private final By passwordField = By.cssSelector(\"[data-testid='password']\");\n    private final By submitButton = By.cssSelector(\"[data-testid='submit']\");\n    private final By errorMessage = By.cssSelector(\"[data-testid='error-message']\");\n    private final By forgotPasswordLink = By.cssSelector(\"[data-testid='forgot-password']\");\n    private final By rememberMeCheckbox = By.cssSelector(\"[data-testid='remember-me']\");\n\n    public LoginPage(WebDriver driver) \x7b\n        super(driver);\n    \x7d\n\n    // ============ Actions ============\n\n    /**\n     * Enter username into the username field.\n     */\n    public LoginPage enterUsername(String username) \x7b\n        type(usernameField, username);\n        return this;\n    \x7d\n\n    /**\n     * Enter password into the password field.\n     */\n    public LoginPage enterPassword(String password) \x7b\n        type(passwordField, password);\n        return this;\n    \x7d\n\n    /**\n     * Click the submit/login button.\n     */\n    public void clickSubmit() \x7b\n        click(submitButton);\n    \x7d\n\n    /**\n     * Perform complete login with username and password.\n     */\n    public void login(String username, String password) \x7b\n        logger.info(\"Attempting login with username: \x7b\x7d\", username);\n        enterUsername(username);\n        enterPassword(password);\n        clickSubmit();\n    \x7d\n\n    /**\n     * Check the \"Remember Me\" checkbox.\n     */\n    public LoginPage checkRememberMe() \x7b\n        click(rememberMeCheckbox);\n        return this;\n    \x7d\n\n    /**\n     * Click \"Forgot Password\" link.\n     */\n    public void clickForgotPassword() \x7b\n        click(forgotPasswordLink);\n    \x7d\n\n    // ============ Verifications ============\n\n    /**\n     * Get the error message text.\n     */\n    public String getErrorMessage() \x7b\n        return getText(errorMessage);\n    \x7d\n\n    /**\n     * Check if error message is displayed.\n     */\n    public boolean isErrorDisplayed() \x7b\n        return isDisplayed(errorMessage);\n    \x7d\n\n    /**\n     * Check if login was successful by verifying URL contains dashboard.\n     */\n    public boolean isLoginSuccessful() \x7b\n        return getCurrentUrl().contains(\"dashboard\");\n    \x7d\n\n    /**\n     * Check if username field is displayed.\n     */\n    public boolean isUsernameFieldDisplayed() \x7b\n        return isDisplayed(usernameField);\n    \x7d\n\n    /**\n     * Check if password field is displayed.\n     */\n    public boolean isPasswordFieldDisplayed() \x7b\n        return isDisplayed(passwordField);\n    \x7d\n\n    /**\n     * Check if submit button is enabled.\n     */\n    public boolean isSubmitButtonEnabled() \x7b\n        return isEnabled(submitButton);\n    \x7d\n\x7d\n"

/-- Template constant transcribed from `generateJavaHomePage` in src/src/lib/folderTree.ts. -/
def generateJavaHomePage : String :=
  "package com.automation.pages;\n\nimport org.openqa.selenium.By;\nimport org.openqa.selenium.WebDriver;\n\n/**\n * Page Object for the Home/Dashboard Page.\n */\npublic class HomePage extends BasePage \x7b\n\n    // ============ Locators ============\n    private final By welcomeMessage = By.cssSelector(\"[data-testid='welcome-message']\");\n    private final By userMenu = By.cssSelector(\"[data-testid='user-menu']\");\n    private final By logoutButton = By.cssSelector(\"[data-testid='logout']\");\n    private final By navigationMenu = By.cssSelector(\"nav\");\n\n    public HomePage(WebDriver driver) \x7b\n        super(driver);\n    \x7d\n\n    // ============ Actions ============\n\n    /**\n     * Click on user menu to open dropdown.\n     */\n    public HomePage openUserMenu() \x7b\n        click(userMenu);\n        return this;\n    \x7d\n\n    /**\n     * Perform logout.\n     */\n    public void logout() \x7b\n        openUserMenu();\n        click(logoutButton);\n    \x7d\n\n    // ============ Verifications ============\n\n    /**\n     * Get welcome message text.\n     */\n    public String getWelcomeMessage() \x7b\n        return getText(welcomeMessage);\n    \x7d\n\n    /**\n     * Check if navigation menu is displayed.\n     */\n    public boolean isNavigationDisplayed() \x7b\n        return isDisplayed(navigationMenu);\n    \x7d\n\n    /**\n     * Check if user is on the home page.\n     */\n    public boolean isOnHomePage() \x7b\n        return getCurrentUrl().contains(\"dashboard\") || getCurrentUrl().contains(\"home\");\n    \x7d\n\x7d\n"

/-- Template constant transcribed from `generateJavaLoginTest` in src/src/lib/folderTree.ts. -/
def generateJavaLoginTest : String :=
  "package com.automation.tests;\n\nimport com.automation.base.BaseTest;\nimport com.automation.pages.LoginPage;\nimport org.junit.jupiter.api.BeforeEach;\nimport org.junit.jupiter.api.Test;\nimport org.junit.jupiter.api.DisplayName;\nimport org.junit.jupiter.api.Tag;\n\nimport static org.assertj.core.api.Assertions.*;\n\n/**\n * Test class for Login functionality.\n */\n@Tag(\"ui\")\n@Tag(\"login\")\npublic class LoginTest extends BaseTest \x7b\n\n    private LoginPage loginPage;\n\n    @BeforeEach\n    public void setUpPage() \x7b\n        loginPage = new LoginPage(driver);\n        driver.get(config.getProperty(\"baseUrl\") + \"/login\");\n    \x7d\n\n    @Test\n    @DisplayName(\"Login form should be visible\")\n    @Tag(\"smoke\")\n    public void testLoginFormIsVisible() \x7b\n        assertThat(loginPage.isUsernameFieldDisplayed())\n            .as(\"Username field should be visible\")\n            .isTrue();\n        \n        assertThat(loginPage.isPasswordFieldDisplayed())\n            .as(\"Password field should be visible\")\n            .isTrue();\n        \n        assertThat(loginPage.isSubmitButtonEnabled())\n            .as(\"Submit button should be enabled\")\n            .isTrue();\n    \x7d\n\n    @Test\n    @DisplayName(\"Should show error for invalid credentials\")\n    public void testInvalidCredentialsShowError() \x7b\n        loginPage.login(\"invalid@email.com\", \"wrongpassword\");\n        \n        assertThat(loginPage.isErrorDisplayed())\n            .as(\"Error message should be displayed\")\n            .isTrue();\n        \n        assertThat(loginPage.getErrorMessage())\n            .as(\"Error message should indicate invalid credentials\")\n            .containsIgnoringCase(\"invalid\");\n    \x7d\n\n    @Test\n    @DisplayName(\"Should show error for empty username\")\n    public void testEmptyUsernameShowsError() \x7b\n        loginPage.enterPassword(\"somepassword\");\n        loginPage.clickSubmit();\n        \n        assertThat(loginPage.isErrorDisplayed())\n            .as(\"Error should be shown for empty username\")\n            .isTrue();\n    \x7d\n\n    @Test\n    @DisplayName(\"Should show error for empty password\")\n    public void testEmptyPasswordShowsError() \x7b\n        loginPage.enterUsername(\"test@example.com\");\n        loginPage.clickSubmit();\n        \n        assertThat(loginPage.isErrorDisplayed())\n            .as(\"Error should be shown for empty password\")\n            .isTrue();\n    \x7d\n\n    @Test\n    @DisplayName(\"Should login successfully with valid credentials\")\n    @Tag(\"smoke\")\n    public void testValidCredentialsLogin() \x7b\n        String username = config.getProperty(\"testUsername\", \"test@example.com\");\n        String password = config.getProperty(\"testPassword\", \"password123\");\n        \n        loginPage.login(username, password);\n        \n        assertThat(loginPage.isLoginSuccessful())\n            .as(\"Should navigate to dashboard after successful login\")\n            .isTrue();\n    \x7d\n\x7d\n"

/-- Template constant transcribed from `generateJavaBaseApiClient` in src/src/lib/folderTree.ts. -/
def generateJavaBaseApiClient : String :=
  "package com.automation.api;\n\nimport io.restassured.RestAssured;\nimport io.restassured.http.ContentType;\nimport io.restassured.response.Response;\nimport io.restassured.specification.RequestSpecification;\nimport org.apache.logging.log4j.LogManager;\nimport org.apache.logging.log4j.Logger;\n\nimport java.util.Map;\n\n/**\n * Base API client providing common REST operations.\n * All API test classes should use this client.\n */\npublic class BaseApiClient \x7b\n\n    protected static final Logger logger = LogManager.getLogger(BaseApiClient.class);\n    protected final RequestSpecification requestSpec;\n    protected final String baseUrl;\n\n    public BaseApiClient() \x7b\n        this.baseUrl = System.getenv().getOrDefault(\"API_BASE_URL\", \"https://jsonplaceholder.typicode.com\");\n        RestAssured.baseURI = baseUrl;\n        \n        this.requestSpec = RestAssured.given()\n            .contentType(ContentType.JSON)\n            .accept(ContentType.JSON)\n            .log().ifValidationFails();\n        \n        logger.info(\"API Client initialized with base URL: \x7b\x7d\", baseUrl);\n    \x7d\n\n    public BaseApiClient(String baseUrl) \x7b\n        this.baseUrl = baseUrl;\n        RestAssured.baseURI = baseUrl;\n        \n        this.requestSpec = RestAssured.given()\n            .contentType(ContentType.JSON)\n            .accept(ContentType.JSON)\n            .log().ifValidationFails();\n    \x7d\n\n    // ============ HTTP Methods ============\n\n    public Response get(String endpoint) \x7b\n        logger.info(\"GET \x7b\x7d\", endpoint);\n        return requestSpec.get(endpoint);\n    \x7d\n\n    public Response get(String endpoint, Map<String, ?> queryParams) \x7b\n        logger.info(\"GET \x7b\x7d with params: \x7b\x7d\", endpoint, queryParams);\n        return requestSpec.queryParams(queryParams).get(endpoint);\n    \x7d\n\n    public Response post(String endpoint, Object body) \x7b\n        logger.info(\"POST \x7b\x7d with body: \x7b\x7d\", endpoint, body);\n        return requestSpec.body(body).post(endpoint);\n    \x7d\n\n    public Response put(String endpoint, Object body) \x7b\n        logger.info(\"PUT \x7b\x7d with body: \x7b\x7d\", endpoint, body);\n        return requestSpec.body(body).put(endpoint);\n    \x7d\n\n    public Response patch(String endpoint, Object body) \x7b\n        logger.info(\"PATCH \x7b\x7d with body: \x7b\x7d\", endpoint, body);\n        return requestSpec.body(body).patch(endpoint);\n    \x7d\n\n    public Response delete(String endpoint) \x7b\n        logger.info(\"DELETE \x7b\x7d\", endpoint);\n        return requestSpec.delete(endpoint);\n    \x7d\n\n    // ============ Helper Methods ============\n\n    public RequestSpecification withAuth(String token) \x7b\n        return requestSpec.header(\"Authorization\", \"Bearer \" + token);\n    \x7d\n\n    public RequestSpecification withHeaders(Map<String, String> headers) \x7b\n        return requestSpec.headers(headers);\n    \x7d\n\x7d\n"

/-- Template constant transcribed from `generateJavaUsersApiTest` in src/src/lib/folderTree.ts. -/
def generateJavaUsersApiTest : String :=
  "package com.automation.api;\n\nimport io.restassured.response.Response;\nimport org.junit.jupiter.api.BeforeEach;\nimport org.junit.jupiter.api.Test;\nimport org.junit.jupiter.api.DisplayName;\nimport org.junit.jupiter.api.Tag;\nimport org.junit.jupiter.api.Nested;\n\nimport java.util.HashMap;\nimport java.util.Map;\n\nimport static org.assertj.core.api.Assertions.*;\nimport static org.hamcrest.Matchers.*;\n\n/**\n * API tests for Users endpoints.\n */\n@Tag(\"api\")\n@Tag(\"users\")\npublic class UsersApiTest \x7b\n\n    private BaseApiClient apiClient;\n\n    @BeforeEach\n    public void setUp() \x7b\n        apiClient = new BaseApiClient();\n    \x7d\n\n    @Nested\n    @DisplayName(\"GET /users\")\n    class GetUsers \x7b\n\n        @Test\n        @DisplayName(\"Should return list of users\")\n        @Tag(\"smoke\")\n        public void testGetAllUsers() \x7b\n            Response response = apiClient.get(\"/users\");\n            \n            assertThat(response.getStatusCode())\n                .as(\"Status code should be 200\")\n                .isEqualTo(200);\n            \n            assertThat(response.jsonPath().getList(\"$\"))\n                .as(\"Should return a non-empty list\")\n                .isNotEmpty();\n        \x7d\n\n        @Test\n        @DisplayName(\"Should return users with correct structure\")\n        public void testUsersHaveCorrectStructure() \x7b\n            Response response = apiClient.get(\"/users\");\n            \n            response.then()\n                .body(\"[0].id\", notNullValue())\n                .body(\"[0].name\", notNullValue())\n                .body(\"[0].email\", notNullValue())\n                .body(\"[0].username\", notNullValue());\n        \x7d\n    \x7d\n\n    @Nested\n    @DisplayName(\"GET /users/\x7bid\x7d\")\n    class GetUserById \x7b\n\n        @Test\n        @DisplayName(\"Should return single user by ID\")\n        @Tag(\"smoke\")\n        public void testGetUserById() \x7b\n            Response response = apiClient.get(\"/users/1\");\n            \n            assertThat(response.getStatusCode()).isEqualTo(200);\n            assertThat(response.jsonPath().getInt(\"id\")).isEqualTo(1);\n            assertThat(response.jsonPath().getString(\"name\")).isNotEmpty();\n            assertThat(response.jsonPath().getString(\"email\")).contains(\"@\");\n        \x7d\n\n        @Test\n        @DisplayName(\"Should return 404 for non-existent user\")\n        public void testGetNonExistentUser() \x7b\n            Response response = apiClient.get(\"/users/999999\");\n            \n            assertThat(response.getStatusCode()).isEqualTo(404);\n        \x7d\n    \x7d\n\n    @Nested\n    @DisplayName(\"POST /users\")\n    class CreateUser \x7b\n\n        @Test\n        @DisplayName(\"Should create new user\")\n        @Tag(\"smoke\")\n        public void testCreateUser() \x7b\n            Map<String, Object> newUser = new HashMap<>();\n            newUser.put(\"name\", \"Test User\");\n            newUser.put(\"username\", \"testuser\");\n            newUser.put(\"email\", \"test@example.com\");\n            newUser.put(\"phone\", \"1-234-567-8900\");\n\n            Response response = apiClient.post(\"/users\", newUser);\n            \n            assertThat(response.getStatusCode()).isEqualTo(201);\n            assertThat(response.jsonPath().getInt(\"id\")).isPositive();\n            assertThat(response.jsonPath().getString(\"name\")).isEqualTo(\"Test User\");\n            assertThat(response.jsonPath().getString(\"email\")).isEqualTo(\"test@example.com\");\n        \x7d\n\n        @Test\n        @DisplayName(\"Should create user with all fields\")\n        public void testCreateUserWithAllFields() \x7b\n            Map<String, Object> address = new HashMap<>();\n            address.put(\"street\", \"123 Test St\");\n            address.put(\"city\", \"Test City\");\n            address.put(\"zipcode\", \"12345\");\n\n            Map<String, Object> newUser = new HashMap<>();\n            newUser.put(\"name\", \"Complete User\");\n            newUser.put(\"username\", \"completeuser\");\n            newUser.put(\"email\", \"complete@example.com\");\n            newUser.put(\"address\", address);\n\n            Response response = apiClient.post(\"/users\", newUser);\n            \n            assertThat(response.getStatusCode()).isEqualTo(201);\n            assertThat(response.jsonPath().getString(\"name\")).isEqualTo(\"Complete User\");\n        \x7d\n    \x7d\n\n    @Nested\n    @DisplayName(\"PUT /users/\x7bid\x7d\")\n    class UpdateUser \x7b\n\n        @Test\n        @DisplayName(\"Should update existing user\")\n        public void testUpdateUser() \x7b\n            Map<String, Object> updatedUser = new HashMap<>();\n            updatedUser.put(\"name\", \"Updated Name\");\n            updatedUser.put(\"email\", \"updated@example.com\");\n\n            Response response = apiClient.put(\"/users/1\", updatedUser);\n            \n            assertThat(response.getStatusCode()).isEqualTo(200);\n            assertThat(response.jsonPath().getString(\"name\")).isEqualTo(\"Updated Name\");\n        \x7d\n    \x7d\n\n    @Nested\n    @DisplayName(\"DELETE /users/\x7bid\x7d\")\n    class DeleteUser \x7b\n\n        @Test\n        @DisplayName(\"Should delete existing user\")\n        public void testDeleteUser() \x7b\n            Response response = apiClient.delete(\"/users/1\");\n            \n            assertThat(response.getStatusCode()).isEqualTo(200);\n        \x7d\n    \x7d\n\x7d\n"

/-- Template constant transcribed from `generateJavaPostsApiTest` in src/src/lib/folderTree.ts. -/
def generateJavaPostsApiTest : String :=
  "package com.automation.api;\n\nimport io.restassured.response.Response;\nimport org.junit.jupiter.api.BeforeEach;\nimport org.junit.jupiter.api.Test;\nimport org.junit.jupiter.api.DisplayName;\nimport org.junit.jupiter.api.Tag;\n\nimport java.util.HashMap;\nimport java.util.Map;\n\nimport static org.assertj.core.api.Assertions.*;\n\n/**\n * API tests for Posts endpoints.\n */\n@Tag(\"api\")\n@Tag(\"posts\")\npublic class PostsApiTest \x7b\n\n    private BaseApiClient apiClient;\n\n    @BeforeEach\n    public void setUp() \x7b\n        apiClient = new BaseApiClient();\n    \x7d\n\n    @Test\n    @DisplayName(\"GET /posts - Should return list of posts\")\n    @Tag(\"smoke\")\n    public void testGetAllPosts() \x7b\n        Response response = apiClient.get(\"/posts\");\n        \n        assertThat(response.getStatusCode()).isEqualTo(200);\n        assertThat(response.jsonPath().getList(\"$\")).hasSizeGreaterThan(0);\n    \x7d\n\n    @Test\n    @DisplayName(\"GET /posts/1 - Should return single post\")\n    public void testGetPostById() \x7b\n        Response response = apiClient.get(\"/posts/1\");\n        \n        assertThat(response.getStatusCode()).isEqualTo(200);\n        assertThat(response.jsonPath().getInt(\"id\")).isEqualTo(1);\n        assertThat(response.jsonPath().getInt(\"userId\")).isPositive();\n        assertThat(response.jsonPath().getString(\"title\")).isNotEmpty();\n        assertThat(response.jsonPath().getString(\"body\")).isNotEmpty();\n    \x7d\n\n    @Test\n    @DisplayName(\"GET /posts?userId=1 - Should filter posts by user\")\n    public void testGetPostsByUser() \x7b\n        Map<String, Integer> params = new HashMap<>();\n        params.put(\"userId\", 1);\n        \n        Response response = apiClient.get(\"/posts\", params);\n        \n        assertThat(response.getStatusCode()).isEqualTo(200);\n        assertThat(response.jsonPath().getList(\"$\")).isNotEmpty();\n        \n        // Verify all returned posts belong to userId 1\n        response.jsonPath().getList(\"userId\", Integer.class)\n            .forEach(userId -> assertThat(userId).isEqualTo(1));\n    \x7d\n\n    @Test\n    @DisplayName(\"POST /posts - Should create new post\")\n    public void testCreatePost() \x7b\n        Map<String, Object> newPost = new HashMap<>();\n        newPost.put(\"title\", \"Test Post Title\");\n        newPost.put(\"body\", \"This is the body of the test post.\");\n        newPost.put(\"userId\", 1);\n\n        Response response = apiClient.post(\"/posts\", newPost);\n        \n        assertThat(response.getStatusCode()).isEqualTo(201);\n        assertThat(response.jsonPath().getInt(\"id\")).isPositive();\n        assertThat(response.jsonPath().getString(\"title\")).isEqualTo(\"Test Post Title\");\n    \x7d\n\x7d\n"

/-- Template constant transcribed from `generateJavaConfigProperties` in src/src/lib/folderTree.ts. -/
def generateJavaConfigProperties : String :=
  "# ============================================\n# Test Configuration Properties\n# ============================================\n\n# Base URLs\nbaseUrl=https://example.com\napiBaseUrl=https://api.example.com\n\n# Browser Configuration\nbrowser=chrome\nheadless=true\n\n# Timeouts (in seconds)\nimplicitWait=10\npageLoadTimeout=30\nscriptTimeout=30\n\n# Test Credentials (override with environment variables in CI)\ntestUsername=test@example.com\ntestPassword=password123\n\n# Retry Configuration\nmaxRetries=2\nretryDelayMs=1000\n"

/-- Template constant transcribed from `generateJavaLog4j` in src/src/lib/folderTree.ts. -/
def generateJavaLog4j : String :=
  "<?xml version=\"1.0\" encoding=\"UTF-8\"?>\n<Configuration status=\"WARN\">\n    <Properties>\n        <Property name=\"LOG_PATTERN\">%d\x7byyyy-MM-dd HH:mm:ss.SSS\x7d [%t] %-5level %logger\x7b36\x7d - %msg%n</Property>\n        <Property name=\"LOG_DIR\">target/logs</Property>\n    </Properties>\n\n    <Appenders>\n        <!-- Console Appender -->\n        <Console name=\"Console\" target=\"SYSTEM_OUT\">\n            <PatternLayout pattern=\"$\x7bLOG_PATTERN\x7d\"/>\n        </Console>\n\n        <!-- File Appender -->\n        <RollingFile name=\"FileAppender\" \n                     fileName=\"$\x7bLOG_DIR\x7d/test-automation.log\"\n                     filePattern=\"$\x7bLOG_DIR\x7d/test-automation-%d\x7byyyy-MM-dd\x7d-%i.log.gz\">\n            <PatternLayout pattern=\"$\x7bLOG_PATTERN\x7d\"/>\n            <Policies>\n                <TimeBasedTriggeringPolicy interval=\"1\"/>\n                <SizeBasedTriggeringPolicy size=\"10MB\"/>\n            </Policies>\n            <DefaultRolloverStrategy max=\"10\"/>\n        </RollingFile>\n    </Appenders>\n\n    <Loggers>\n        <!-- Application Logger -->\n        <Logger name=\"com.automation\" level=\"DEBUG\" additivity=\"false\">\n            <AppenderRef ref=\"Console\"/>\n            <AppenderRef ref=\"FileAppender\"/>\n        </Logger>\n\n        <!-- Selenium Logger - reduce noise -->\n        <Logger name=\"org.openqa.selenium\" level=\"WARN\"/>\n        \n        <!-- REST Assured Logger -->\n        <Logger name=\"io.restassured\" level=\"WARN\"/>\n\n        <!-- Root Logger -->\n        <Root level=\"INFO\">\n            <AppenderRef ref=\"Console\"/>\n            <AppenderRef ref=\"FileAppender\"/>\n        </Root>\n    </Loggers>\n</Configuration>\n"

/-- Template constant transcribed from `generateJavaTestUtils` in src/src/lib/folderTree.ts. -/
def generateJavaTestUtils : String :=
  "package com.automation.utils;\n\nimport org.openqa.selenium.OutputType;\nimport org.openqa.selenium.TakesScreenshot;\nimport org.openqa.selenium.WebDriver;\nimport org.apache.logging.log4j.LogManager;\nimport org.apache.logging.log4j.Logger;\n\nimport java.io.File;\nimport java.io.IOException;\nimport java.nio.file.Files;\nimport java.nio.file.Path;\nimport java.nio.file.Paths;\nimport java.time.LocalDateTime;\nimport java.time.format.DateTimeFormatter;\nimport java.util.Random;\n\n/**\n * Utility class providing common test helper methods.\n */\npublic class TestUtils \x7b\n\n    private static final Logger logger = LogManager.getLogger(TestUtils.class);\n    private static final Random random = new Random();\n\n    private TestUtils() \x7b\n        // Prevent instantiation\n    \x7d\n\n    /**\n     * Take a screenshot and save to specified directory.\n     */\n    public static String takeScreenshot(WebDriver driver, String testName) \x7b\n        try \x7b\n            File screenshot = ((TakesScreenshot) driver).getScreenshotAs(OutputType.FILE);\n            String timestamp = LocalDateTime.now().format(DateTimeFormatter.ofPattern(\"yyyyMMdd_HHmmss\"));\n            String fileName = String.format(\"%s_%s.png\", testName, timestamp);\n            \n            Path screenshotDir = Paths.get(\"target\", \"screenshots\");\n            Files.createDirectories(screenshotDir);\n            \n            Path destination = screenshotDir.resolve(fileName);\n            Files.copy(screenshot.toPath(), destination);\n            \n            logger.info(\"Screenshot saved: \x7b\x7d\", destination);\n            return destination.toString();\n        \x7d catch (IOException e) \x7b\n            logger.error(\"Failed to save screenshot: \x7b\x7d\", e.getMessage());\n            return null;\n        \x7d\n    \x7d\n\n    /**\n     * Generate a random email address.\n     */\n    public static String generateRandomEmail() \x7b\n        return String.format(\"test.%d@example.com\", System.currentTimeMillis());\n    \x7d\n\n    /**\n     * Generate a random string of specified length.\n     */\n    public static String generateRandomString(int length) \x7b\n        String chars = \"abcdefghijklmnopqrstuvwxyz0123456789\";\n        StringBuilder sb = new StringBuilder(length);\n        for (int i = 0; i < length; i++) \x7b\n            sb.append(chars.charAt(random.nextInt(chars.length())));\n        \x7d\n        return sb.toString();\n    \x7d\n\n    /**\n     * Wait for specified milliseconds.\n     */\n    public static void sleep(long milliseconds) \x7b\n        try \x7b\n            Thread.sleep(milliseconds);\n        \x7d catch (InterruptedException e) \x7b\n            Thread.currentThread().interrupt();\n        \x7d\n    \x7d\n\n    /**\n     * Get current timestamp as formatted string.\n     */\n    public static String getTimestamp() \x7b\n        return LocalDateTime.now().format(DateTimeFormatter.ofPattern(\"yyyy-MM-dd HH:mm:ss\"));\n    \x7d\n\x7d\n"

/-- Template constant transcribed from `generatePythonPytestIni` in src/src/lib/folderTree.ts. -/
def generatePythonPytestIni : String :=
  "[pytest]\ntestpaths = tests\npython_files = test_*.py\npython_classes = Test*\npython_functions = test_*\naddopts = -v --tb=short --html=reports/report.html --self-contained-html\nmarkers =\n    ui: UI tests\n    api: API tests  \n    smoke: Smoke tests\n    regression: Regression tests\nfilterwarnings =\n    ignore::DeprecationWarning\n"

/-- Template constant transcribed from `generatePythonConfig` in src/src/lib/folderTree.ts. -/
def generatePythonConfig : String :=
  "\"\"\"\nConfiguration management module.\n\"\"\"\nimport os\nfrom dataclasses import dataclass\nfrom typing import Optional\nfrom dotenv import load_dotenv\n\nload_dotenv()\n\n\n@dataclass\nclass Config:\n    \"\"\"Test configuration settings.\"\"\"\n    base_url: str\n    api_base_url: str\n    timeout: int\n    headless: bool\n    browser: str\n    retries: int\n    \n    @classmethod\n    def from_env(cls, env: str = \"dev\") -> \"Config\":\n        \"\"\"Load configuration from environment variables.\"\"\"\n        return cls(\n            base_url=os.getenv(\"BASE_URL\", \"https://example.com\"),\n            api_base_url=os.getenv(\"API_BASE_URL\", \"https://api.example.com\"),\n            timeout=int(os.getenv(\"TIMEOUT\", \"30000\")),\n            headless=os.getenv(\"HEADLESS\", \"true\").lower() == \"true\",\n            browser=os.getenv(\"BROWSER\", \"chromium\"),\n            retries=int(os.getenv(\"RETRIES\", \"0\")),\n        )\n\n\n# Default config instance\nconfig = Config.from_env()\n\n\ndef get_config(env: Optional[str] = None) -> Config:\n    \"\"\"Get configuration for specified environment.\"\"\"\n    return Config.from_env(env or os.getenv(\"ENV\", \"dev\"))\n"

/-- Template constant transcribed from `generatePythonApiClient` in src/src/lib/folderTree.ts. -/
def generatePythonApiClient : String :=
  "\"\"\"\nBase API client for making HTTP requests.\n\"\"\"\nimport requests\nfrom typing import Any, Dict, Optional\nimport logging\nimport os\n\nlogger = logging.getLogger(__name__)\n\n\nclass BaseApiClient:\n    \"\"\"\n    Base API client providing common REST operations.\n    All API clients should inherit from this class.\n    \"\"\"\n\n    def __init__(self, base_url: Optional[str] = None):\n        self.base_url = base_url or os.getenv(\n            \"API_BASE_URL\", \"https://jsonplaceholder.typicode.com\"\n        )\n        self.session = requests.Session()\n        self.session.headers.update(\x7b\n            \"Content-Type\": \"application/json\",\n            \"Accept\": \"application/json\",\n        \x7d)\n        logger.info(f\"API Client initialized with base URL: \x7bself.base_url\x7d\")\n\n    # ============ HTTP Methods ============\n\n    def get(\n        self,\n        endpoint: str,\n        params: Optional[Dict[str, Any]] = None,\n        headers: Optional[Dict[str, str]] = None,\n    ) -> requests.Response:\n        \"\"\"Send GET request.\"\"\"\n        url = f\"\x7bself.base_url\x7d\x7bendpoint\x7d\"\n        logger.info(f\"GET \x7burl\x7d\")\n        return self.session.get(url, params=params, headers=headers)\n\n    def post(\n        self,\n        endpoint: str,\n        data: Optional[Dict[str, Any]] = None,\n        json: Optional[Dict[str, Any]] = None,\n        headers: Optional[Dict[str, str]] = None,\n    ) -> requests.Response:\n        \"\"\"Send POST request.\"\"\"\n        url = f\"\x7bself.base_url\x7d\x7bendpoint\x7d\"\n        logger.info(f\"POST \x7burl\x7d\")\n        return self.session.post(url, data=data, json=json, headers=headers)\n\n    def put(\n        self,\n        endpoint: str,\n        data: Optional[Dict[str, Any]] = None,\n        json: Optional[Dict[str, Any]] = None,\n        headers: Optional[Dict[str, str]] = None,\n    ) -> requests.Response:\n        \"\"\"Send PUT request.\"\"\"\n        url = f\"\x7bself.base_url\x7d\x7bendpoint\x7d\"\n        logger.info(f\"PUT \x7burl\x7d\")\n        return self.session.put(url, data=data, json=json, headers=headers)\n\n    def patch(\n        self,\n        endpoint: str,\n        data: Optional[Dict[str, Any]] = None,\n        json: Optional[Dict[str, Any]] = None,\n        headers: Optional[Dict[str, str]] = None,\n    ) -> requests.Response:\n        \"\"\"Send PATCH request.\"\"\"\n        url = f\"\x7bself.base_url\x7d\x7bendpoint\x7d\"\n        logger.info(f\"PATCH \x7burl\x7d\")\n        return self.session.patch(url, data=data, json=json, headers=headers)\n\n    def delete(\n        self,\n        endpoint: str,\n        headers: Optional[Dict[str, str]] = None,\n    ) -> requests.Response:\n        \"\"\"Send DELETE request.\"\"\"\n        url = f\"\x7bself.base_url\x7d\x7bendpoint\x7d\"\n        logger.info(f\"DELETE \x7burl\x7d\")\n        return self.session.delete(url, headers=headers)\n\n    # ============ Helper Methods ============\n\n    def set_auth_token(self, token: str) -> None:\n        \"\"\"Set authorization bearer token.\"\"\"\n        self.session.headers[\"Authorization\"] = f\"Bearer \x7btoken\x7d\"\n\n    def set_headers(self, headers: Dict[str, str]) -> None:\n        \"\"\"Update session headers.\"\"\"\n        self.session.headers.update(headers)\n\n    def close(self) -> None:\n        \"\"\"Close the session.\"\"\"\n        self.session.close()\n"

/-- Template constant transcribed from `generatePythonUsersApiTest` in src/src/lib/folderTree.ts. -/
def generatePythonUsersApiTest : String :=
  "\"\"\"\nUsers API tests.\n\"\"\"\nimport pytest\nfrom src.utils.api_client import BaseApiClient\n\n\n@pytest.mark.api\nclass TestUsersApi:\n    \"\"\"Test class for Users API endpoints.\"\"\"\n\n    @pytest.fixture(autouse=True)\n    def setup(self, api_base_url):\n        \"\"\"Set up API client for each test.\"\"\"\n        self.api = BaseApiClient(api_base_url)\n\n    def teardown_method(self):\n        \"\"\"Clean up after each test.\"\"\"\n        self.api.close()\n\n    @pytest.mark.smoke\n    def test_get_all_users(self):\n        \"\"\"Test GET /users returns list of users.\"\"\"\n        response = self.api.get(\"/users\")\n        \n        assert response.status_code == 200, \\\n            f\"Expected 200, got \x7bresponse.status_code\x7d\"\n        \n        users = response.json()\n        assert isinstance(users, list), \"Response should be a list\"\n        assert len(users) > 0, \"Should return at least one user\"\n\n    def test_users_have_correct_structure(self):\n        \"\"\"Test that users have required fields.\"\"\"\n        response = self.api.get(\"/users\")\n        users = response.json()\n        \n        required_fields = [\"id\", \"name\", \"email\", \"username\"]\n        first_user = users[0]\n        \n        for field in required_fields:\n            assert field in first_user, f\"User should have '\x7bfield\x7d' field\"\n\n    @pytest.mark.smoke\n    def test_get_user_by_id(self):\n        \"\"\"Test GET /users/\x7bid\x7d returns single user.\"\"\"\n        response = self.api.get(\"/users/1\")\n        \n        assert response.status_code == 200\n        user = response.json()\n        assert user[\"id\"] == 1\n        assert \"name\" in user\n        assert \"@\" in user[\"email\"]\n\n    def test_get_non_existent_user(self):\n        \"\"\"Test GET /users/\x7bid\x7d returns 404 for non-existent user.\"\"\"\n        response = self.api.get(\"/users/999999\")\n        \n        assert response.status_code == 404\n\n    @pytest.mark.smoke\n    def test_create_user(self):\n        \"\"\"Test POST /users creates new user.\"\"\"\n        new_user = \x7b\n            \"name\": \"Test User\",\n            \"username\": \"testuser\",\n            \"email\": \"test@example.com\",\n            \"phone\": \"1-234-567-8900\",\n        \x7d\n        \n        response = self.api.post(\"/users\", json=new_user)\n        \n        assert response.status_code == 201\n        created_user = response.json()\n        assert \"id\" in created_user\n        assert created_user[\"name\"] == new_user[\"name\"]\n        assert created_user[\"email\"] == new_user[\"email\"]\n\n    def test_update_user(self):\n        \"\"\"Test PUT /users/\x7bid\x7d updates existing user.\"\"\"\n        updated_data = \x7b\n            \"name\": \"Updated Name\",\n            \"email\": \"updated@example.com\",\n        \x7d\n        \n        response = self.api.put(\"/users/1\", json=updated_data)\n        \n        assert response.status_code == 200\n        user = response.json()\n        assert user[\"name\"] == updated_data[\"name\"]\n\n    def test_delete_user(self):\n        \"\"\"Test DELETE /users/\x7bid\x7d deletes user.\"\"\"\n        response = self.api.delete(\"/users/1\")\n        \n        assert response.status_code == 200\n"

/-- Template constant transcribed from `generatePythonPostsApiTest` in src/src/lib/folderTree.ts. -/
def generatePythonPostsApiTest : String :=
  "\"\"\"\nPosts API tests.\n\"\"\"\nimport pytest\nfrom src.utils.api_client import BaseApiClient\n\n\n@pytest.mark.api\nclass TestPostsApi:\n    \"\"\"Test class for Posts API endpoints.\"\"\"\n\n    @pytest.fixture(autouse=True)\n    def setup(self, api_base_url):\n        \"\"\"Set up API client for each test.\"\"\"\n        self.api = BaseApiClient(api_base_url)\n\n    def teardown_method(self):\n        \"\"\"Clean up after each test.\"\"\"\n        self.api.close()\n\n    @pytest.mark.smoke\n    def test_get_all_posts(self):\n        \"\"\"Test GET /posts returns list of posts.\"\"\"\n        response = self.api.get(\"/posts\")\n        \n        assert response.status_code == 200\n        posts = response.json()\n        assert len(posts) > 0, \"Should return posts\"\n\n    def test_get_post_by_id(self):\n        \"\"\"Test GET /posts/\x7bid\x7d returns single post.\"\"\"\n        response = self.api.get(\"/posts/1\")\n        \n        assert response.status_code == 200\n        post = response.json()\n        assert post[\"id\"] == 1\n        assert \"title\" in post\n        assert \"body\" in post\n        assert \"userId\" in post\n\n    def test_filter_posts_by_user(self):\n        \"\"\"Test GET /posts with userId filter.\"\"\"\n        response = self.api.get(\"/posts\", params=\x7b\"userId\": 1\x7d)\n        \n        assert response.status_code == 200\n        posts = response.json()\n        assert all(post[\"userId\"] == 1 for post in posts), \\\n            \"All posts should belong to userId 1\"\n\n    def test_create_post(self):\n        \"\"\"Test POST /posts creates new post.\"\"\"\n        new_post = \x7b\n            \"title\": \"Test Post Title\",\n            \"body\": \"This is the body of the test post.\",\n            \"userId\": 1,\n        \x7d\n        \n        response = self.api.post(\"/posts\", json=new_post)\n        \n        assert response.status_code == 201\n        created_post = response.json()\n        assert \"id\" in created_post\n        assert created_post[\"title\"] == new_post[\"title\"]\n"

/-- Template constant transcribed from `generatePythonInit` in src/src/lib/folderTree.ts. -/
def generatePythonInit : String :=
  "\"\"\"\nPackage initialization.\n\"\"\"\n"

/-- Template constant transcribed from `generatePlaywrightConfig` in src/src/lib/folderTree.ts. -/
def generatePlaywrightConfig (config : ProjectConfig) : String :=
  "import \x7b defineConfig, devices \x7d from '@playwright/test';\nimport dotenv from 'dotenv';\n\ndotenv.config();\n\nexport default defineConfig(\x7b\n  testDir: './tests',\n  fullyParallel: true,\n  forbidOnly: !!process.env.CI,\n  retries: process.env.CI ? 2 : 0,\n  workers: process.env.CI ? 1 : undefined,\n  reporter: [\n    ['html', \x7b open: 'never' \x7d],\n    ['junit', \x7b outputFile: 'test-results/junit.xml' \x7d],\n  ],\n  use: \x7b\n    baseURL: process.env.BASE_URL || 'https://example.com',\n    trace: 'on-first-retry',\n    screenshot: 'only-on-failure',\n    video: 'on-first-retry',\n  \x7d,\n  projects: [\n    \x7b\n      name: 'chromium',\n      use: \x7b ...devices['Desktop Chrome'] \x7d,\n    \x7d,\n  ],\n\x7d);\n"

/-- Template constant transcribed from `generateDockerCompose` in src/src/lib/folderTree.ts. -/
def generateDockerCompose (config : ProjectConfig) : String :=
  "version: '3.8'\n\nservices:\n  tests:\n    build: .\n    environment:\n      - CI=true\n      - HEADLESS=true\n      - BASE_URL=$\x7bBASE_URL:-https://example.com\x7d\n    volumes:\n      - ./test-results:/app/test-results\n      - ./playwright-report:/app/playwright-report\n"


/-- JSON string escaping of one character, as performed by `JSON.stringify` on the
dynamic metadata strings (quote, backslash and common control characters; other
characters are emitted unchanged). -/
def jsonEscapeChar (c : Char) : String :=
  if c = '"' then "\\\""
  else if c = '\\' then "\\\\"
  else if c = '\n' then "\\n"
  else if c = '\t' then "\\t"
  else if c = '\r' then "\\r"
  else String.mk [c]

/-- A JSON string literal for `s`, as produced by `JSON.stringify`. -/
def jsonStr (s : String) : String :=
  "\"" ++ String.join (s.data.map jsonEscapeChar) ++ "\""

/-- generateTypeScriptPackageJson from folderTree.ts: the exact text of
`JSON.stringify({name, version, description, author, scripts, devDependencies}, null, 2)`
with the conditionally inserted `test:api` script and `axios` dependency. -/
def generateTypeScriptPackageJson (config : ProjectConfig) : String :=
  "\x7b\n  \"name\": " ++ jsonStr config.projectName
  ++ ",\n  \"version\": \"1.0.0\",\n  \"description\": "
  ++ jsonStr (jsOr config.description "Automation test framework")
  ++ ",\n  \"author\": " ++ jsonStr (jsOr config.author "")
  ++ ",\n  \"scripts\": \x7b\n    \"test\": \"npx playwright test\",\n    \"test:ui\": \"npx playwright test tests/ui\",\n    \"test:headed\": \"npx playwright test --headed\",\n    \"test:debug\": \"npx playwright test --debug\",\n    \"report\": \"npx playwright show-report\""
  ++ (if config.includeAPI then ",\n    \"test:api\": \"npx playwright test tests/api\"" else "")
  ++ "\n  \x7d,\n  \"devDependencies\": \x7b\n    \"@playwright/test\": \"^1.40.0\",\n    \"dotenv\": \"^16.3.1\""
  ++ (if config.apiFramework = some APIFramework.axios then ",\n    \"axios\": \"^1.6.0\"" else "")
  ++ "\n  \x7d\n\x7d"

/-- generateTsConfig from folderTree.ts: the exact text of the constant
`JSON.stringify` result. -/
def generateTsConfig : String :=
  "\x7b\n  \"compilerOptions\": \x7b\n    \"target\": \"ES2020\",\n    \"module\": \"commonjs\",\n    \"strict\": true,\n    \"esModuleInterop\": true,\n    \"skipLibCheck\": true,\n    \"forceConsistentCasingInFileNames\": true,\n    \"baseUrl\": \".\",\n    \"paths\": \x7b\n      \"@/*\": [\n        \"src/*\"\n      ]\n    \x7d\n  \x7d,\n  \"include\": [\n    \"src/**/*\",\n    \"tests/**/*\"\n  ],\n  \"exclude\": [\n    \"node_modules\"\n  ]\n\x7d"

/-- generateConfigJson from folderTree.ts (JSON.stringify with env-dependent base
URLs and retries, with the `baseUrls[env]?.base || default` fallback). -/
def generateConfigJson (env : String) : String :=
  let base : Option (String × String) :=
    if env = "dev" then some ("https://dev.example.com", "https://api.dev.example.com")
    else if env = "stage" then some ("https://stage.example.com", "https://api.stage.example.com")
    else if env = "prod" then some ("https://example.com", "https://api.example.com")
    else none
  "\x7b\n  \"baseUrl\": \""
  ++ (match base with | some p => p.1 | none => "https://example.com")
  ++ "\",\n  \"apiBaseUrl\": \""
  ++ (match base with | some p => p.2 | none => "https://api.example.com")
  ++ "\",\n  \"timeout\": 30000,\n  \"retries\": "
  ++ (if env = "prod" then "2" else "0")
  ++ "\n\x7d"

/-- generateGitignore from folderTree.ts (takes the language string value). -/
def generateGitignore (language : String) : String :=
  let common := "# Dependencies\nnode_modules/\n.pnpm-store/\n\n# Test Results\ntest-results/\nplaywright-report/\nallure-results/\nallure-report/\n\n# Environment\n.env\n.env.local\n.env.*.local\n\n# IDE\n.idea/\n.vscode/\n*.swp\n*.swo\n\n# OS\n.DS_Store\nThumbs.db\n\n# Logs\n*.log\nnpm-debug.log*\n"
  if language = "java" then
    common ++ "\n# Java\ntarget/\n*.class\n*.jar\n*.war\n.gradle/\nbuild/\n"
  else if language = "python" then
    common ++ "\n# Python\n__pycache__/\n*.py[cod]\n*$py.class\n.pytest_cache/\n.venv/\nvenv/\n*.egg-info/\ndist/\n"
  else
    common

/-- generateReadme from folderTree.ts: install/test commands recomputed from
language and buildTool, with UI/API/Docker conditional sections. -/
def generateReadme (config : ProjectConfig) : String :=
  let projectName := config.projectName
  let language := config.language
  let includeUI := config.includeUI
  let includeAPI := config.includeAPI
  let buildTool := config.buildTool
  let includeDocker := config.includeDocker
  let installCmd : String :=
    if language = Language.typescript then
      (if buildTool = BuildTool.pnpm then "pnpm install" else "npm install")
    else if language = Language.java then
      (if buildTool = BuildTool.maven then "mvn clean install -DskipTests" else "./gradlew build -x test")
    else if language = Language.python then
      (if buildTool = BuildTool.poetry then "poetry install" else "pip install -r requirements.txt")
    else ""
  let testCmd : String :=
    if language = Language.typescript then
      (if buildTool = BuildTool.pnpm then "pnpm test" else "npm test")
    else if language = Language.java then
      (if buildTool = BuildTool.maven then "mvn test" else "./gradlew test")
    else if language = Language.python then "pytest"
    else ""
  "# " ++ projectName ++ "\n\n"
  ++ jsOr config.description "Automation test framework generated by SuiteMate"
  ++ "\n\n## Prerequisites\n\n"
  ++ (if language = Language.typescript then "- Node.js 18+ and npm/pnpm" else "")
  ++ "\n"
  ++ (if language = Language.java then "- Java 17+ and Maven/Gradle" else "")
  ++ "\n"
  ++ (if language = Language.python then "- Python 3.9+ and pip/poetry" else "")
  ++ "\n"
  ++ (if includeUI then "- Chrome browser installed" else "")
  ++ "\n\n## Installation\n\n```bash\n"
  ++ installCmd ++ "\n"
  ++ (if language = Language.typescript ∧ includeUI then "npx playwright install" else "")
  ++ "\n```\n\n## Configuration\n\n1. Copy `.env.example` to `.env`\n2. Update the values as needed\n\n## Running Tests\n\n### Run all tests\n```bash\n"
  ++ testCmd
  ++ "\n```\n\n"
  ++ (if includeUI then
        "### Run UI tests only\n```bash\n"
        ++ (if language = Language.typescript then "npm run test:ui" else testCmd ++ " -Dgroups=ui")
        ++ "\n```"
      else "")
  ++ "\n\n"
  ++ (if includeAPI then
        "### Run API tests only\n```bash\n"
        ++ (if language = Language.typescript then "npm run test:api" else testCmd ++ " -Dgroups=api")
        ++ "\n```"
      else "")
  ++ "\n\n### Run in headed mode (UI tests)\n```bash\n"
  ++ (if language = Language.typescript then "npm run test:headed" else testCmd ++ " -Dheadless=false")
  ++ "\n```\n\n## Reports\n\n"
  ++ (if language = Language.typescript then "View HTML report:\n```bash\nnpm run report\n```" else "")
  ++ "\n\n"
  ++ (if language = Language.java then "Surefire reports: `target/surefire-reports/`" else "")
  ++ "\n\n## Project Structure\n\n```\n"
  ++ projectName
  ++ "/\n├── "
  ++ (if language = Language.typescript then "src/" else "src/test/")
  ++ "\n│   ├── "
  ++ (if includeUI then (if language = Language.typescript then "pages/" else "java/com/automation/pages/") else "")
  ++ "\n│   └── "
  ++ (if language = Language.typescript then "utils/" else "java/com/automation/utils/")
  ++ "\n├── tests/\n│   "
  ++ (if includeUI then "├── ui/" else "")
  ++ "\n│   "
  ++ (if includeAPI then "└── api/" else "")
  ++ "\n└── config/\n```\n\n"
  ++ (if includeDocker then "## Docker\n\nBuild and run tests in Docker:\n```bash\ndocker-compose up --build\n```" else "")
  ++ "\n\n## Environment Configuration\n\nConfiguration files are in the `config/` directory:\n- `dev.json` - Development environment\n- `stage.json` - Staging environment  \n- `prod.json` - Production environment\n\n---\nGenerated by [SuiteMate](https://suitemate.dev)\n"

/-- generateGitHubWorkflow from folderTree.ts: one workflow text per language;
every branch contains a test-execution step and an artifact-upload step guarded
by `if: always()`. -/
def generateGitHubWorkflow (config : ProjectConfig) : String :=
  if config.language = Language.typescript then
    "name: Tests\n\non:\n  push:\n    branches: [main, develop]\n  pull_request:\n    branches: [main]\n\njobs:\n  test:\n    runs-on: ubuntu-latest\n    \n    steps:\n      - uses: actions/checkout@v4\n      \n      - name: Setup Node.js\n        uses: actions/setup-node@v4\n        with:\n          node-version: '20'\n          cache: '"
    ++ buildToolStr config.buildTool
    ++ "'\n      \n      - name: Install dependencies\n        run: "
    ++ buildToolStr config.buildTool
    ++ " install\n      \n"
    ++ (if config.includeUI then "      - name: Install Playwright browsers\n        run: npx playwright install --with-deps chromium\n" else "")
    ++ "      - name: Run tests\n        run: "
    ++ buildToolStr config.buildTool
    ++ " test\n      \n      - name: Upload test results\n        if: always()\n        uses: actions/upload-artifact@v4\n        with:\n          name: test-results\n          path: |\n            playwright-report/\n            test-results/\n"
  else if config.language = Language.java then
    "name: Tests\n\non:\n  push:\n    branches: [main, develop]\n  pull_request:\n    branches: [main]\n\njobs:\n  test:\n    runs-on: ubuntu-latest\n    \n    steps:\n      - uses: actions/checkout@v4\n      \n      - name: Setup Java\n        uses: actions/setup-java@v4\n        with:\n          java-version: '17'\n          distribution: 'temurin'\n          cache: '"
    ++ buildToolStr config.buildTool
    ++ "'\n      \n      - name: Run tests\n        run: "
    ++ (if buildToolStr config.buildTool = "maven" then "mvn test" else "./gradlew test")
    ++ "\n      \n      - name: Upload test results\n        if: always()\n        uses: actions/upload-artifact@v4\n        with:\n          name: test-results\n          path: target/surefire-reports/\n"
  else
    "name: Tests\n\non:\n  push:\n    branches: [main, develop]\n  pull_request:\n    branches: [main]\n\njobs:\n  test:\n    runs-on: ubuntu-latest\n    \n    steps:\n      - uses: actions/checkout@v4\n      \n      - name: Setup Python\n        uses: actions/setup-python@v5\n        with:\n          python-version: '3.11'\n          cache: 'pip'\n      \n      - name: Install dependencies\n        run: pip install -r requirements.txt\n      \n      - name: Run tests\n        run: pytest --junitxml=test-results/junit.xml\n      \n      - name: Upload test results\n        if: always()\n        uses: actions/upload-artifact@v4\n        with:\n          name: test-results\n          path: test-results/\n"

/-- generateDockerfile from folderTree.ts: one Dockerfile per language. -/
def generateDockerfile (config : ProjectConfig) : String :=
  let language := config.language
  if language = Language.typescript then
    "FROM mcr.microsoft.com/playwright:v1.40.0-jammy\n\nWORKDIR /app\n\nCOPY package*.json ./\nRUN npm ci\n\nCOPY . .\n\nCMD [\"npm\", \"test\"]\n"
  else if language = Language.java then
    "FROM maven:3.9-eclipse-temurin-17\n\nWORKDIR /app\n\nCOPY pom.xml ./\nRUN mvn dependency:go-offline\n\nCOPY . .\n\nCMD [\"mvn\", \"test\"]\n"
  else
    "FROM python:3.11-slim\n\nWORKDIR /app\n\nRUN apt-get update && apt-get install -y \\\n    chromium \\\n    chromium-driver \\\n    && rm -rf /var/lib/apt/lists/*\n\nCOPY requirements.txt ./\nRUN pip install --no-cache-dir -r requirements.txt\n\nCOPY . .\n\nENV HEADLESS=true\n\nCMD [\"pytest\"]\n"

/-- generateJavaPom from folderTree.ts, with selenium / rest-assured / allure
dependency blocks inserted according to the configuration. -/
def generateJavaPom (config : ProjectConfig) : String :=
  let includeAllure := config.reporting.contains ReportingOption.allure
  "<?xml version=\"1.0\" encoding=\"UTF-8\"?>\n<project xmlns=\"http://maven.apache.org/POM/4.0.0\"\n         xmlns:xsi=\"http://www.w3.org/2001/XMLSchema-instance\"\n         xsi:schemaLocation=\"http://maven.apache.org/POM/4.0.0 http://maven.apache.org/xsd/maven-4.0.0.xsd\">\n    <modelVersion>4.0.0</modelVersion>\n\n    <groupId>com.automation</groupId>\n    <artifactId>"
  ++ config.projectName
  ++ "</artifactId>\n    <version>1.0.0</version>\n    <packaging>jar</packaging>\n\n    <name>"
  ++ config.projectName
  ++ "</name>\n    <description>"
  ++ jsOr config.description "Automation test framework"
  ++ "</description>\n\n    <properties>\n        <maven.compiler.source>17</maven.compiler.source>\n        <maven.compiler.target>17</maven.compiler.target>\n        <project.build.sourceEncoding>UTF-8</project.build.sourceEncoding>\n        <selenium.version>4.15.0</selenium.version>\n        <webdrivermanager.version>5.6.2</webdrivermanager.version>\n        <junit.version>5.10.1</junit.version>\n        <restassured.version>5.3.2</restassured.version>\n        <log4j.version>2.22.0</log4j.version>\n        <allure.version>2.24.0</allure.version>\n        <aspectj.version>1.9.20.1</aspectj.version>\n    </properties>\n\n    <dependencies>\n        <!-- JUnit 5 -->\n        <dependency>\n            <groupId>org.junit.jupiter</groupId>\n            <artifactId>junit-jupiter</artifactId>\n            <version>$\x7bjunit.version\x7d</version>\n            <scope>test</scope>\n        </dependency>\n        <dependency>\n            <groupId>org.junit.jupiter</groupId>\n            <artifactId>junit-jupiter-params</artifactId>\n            <version>$\x7bjunit.version\x7d</version>\n            <scope>test</scope>\n        </dependency>\n\n"
  ++ (if config.includeUI then "        <!-- Selenium WebDriver -->\n        <dependency>\n            <groupId>org.seleniumhq.selenium</groupId>\n            <artifactId>selenium-java</artifactId>\n            <version>$\x7bselenium.version\x7d</version>\n        </dependency>\n\n        <!-- WebDriverManager for automatic driver management -->\n        <dependency>\n            <groupId>io.github.bonigarcia</groupId>\n            <artifactId>webdrivermanager</artifactId>\n            <version>$\x7bwebdrivermanager.version\x7d</version>\n        </dependency>\n" else "")
  ++ "\n"
  ++ (if config.includeAPI then "        <!-- REST Assured for API Testing -->\n        <dependency>\n            <groupId>io.rest-assured</groupId>\n            <artifactId>rest-assured</artifactId>\n            <version>$\x7brestassured.version\x7d</version>\n            <scope>test</scope>\n        </dependency>\n        <dependency>\n            <groupId>io.rest-assured</groupId>\n            <artifactId>json-path</artifactId>\n            <version>$\x7brestassured.version\x7d</version>\n            <scope>test</scope>\n        </dependency>\n        <dependency>\n            <groupId>io.rest-assured</groupId>\n            <artifactId>json-schema-validator</artifactId>\n            <version>$\x7brestassured.version\x7d</version>\n            <scope>test</scope>\n        </dependency>\n" else "")
  ++ "\n"
  ++ (if includeAllure then "        <!-- Allure Reporting -->\n        <dependency>\n            <groupId>io.qameta.allure</groupId>\n            <artifactId>allure-junit5</artifactId>\n            <version>$\x7ballure.version\x7d</version>\n            <scope>test</scope>\n        </dependency>\n" else "")
  ++ "\n        <!-- Logging -->\n        <dependency>\n            <groupId>org.apache.logging.log4j</groupId>\n            <artifactId>log4j-core</artifactId>\n            <version>$\x7blog4j.version\x7d</version>\n        </dependency>\n        <dependency>\n            <groupId>org.apache.logging.log4j</groupId>\n            <artifactId>log4j-api</artifactId>\n            <version>$\x7blog4j.version\x7d</version>\n        </dependency>\n\n        <!-- AssertJ for fluent assertions -->\n        <dependency>\n            <groupId>org.assertj</groupId>\n            <artifactId>assertj-core</artifactId>\n            <version>3.24.2</version>\n            <scope>test</scope>\n        </dependency>\n    </dependencies>\n\n    <build>\n        <plugins>\n            <plugin>\n                <groupId>org.apache.maven.plugins</groupId>\n                <artifactId>maven-compiler-plugin</artifactId>\n                <version>3.11.0</version>\n                <configuration>\n                    <source>17</source>\n                    <target>17</target>\n                </configuration>\n            </plugin>\n            <plugin>\n                <groupId>org.apache.maven.plugins</groupId>\n                <artifactId>maven-surefire-plugin</artifactId>\n                <version>3.2.2</version>\n                <configuration>\n                    <testFailureIgnore>false</testFailureIgnore>\n                    <argLine>\n                        -javaagent:\"$\x7bsettings.localRepository\x7d/org/aspectj/aspectjweaver/$\x7baspectj.version\x7d/aspectjweaver-$\x7baspectj.version\x7d.jar\"\n                    </argLine>\n                    <systemPropertyVariables>\n                        <allure.results.directory>$\x7bproject.build.directory\x7d/allure-results</allure.results.directory>\n                    </systemPropertyVariables>\n                </configuration>\n                <dependencies>\n                    <dependency>\n                        <groupId>org.aspectj</groupId>\n                        <artifactId>aspectjweaver</artifactId>\n                        <version>$\x7baspectj.version\x7d</version>\n                    </dependency>\n                </dependencies>\n            </plugin>\n"
  ++ (if includeAllure then "            <plugin>\n                <groupId>io.qameta.allure</groupId>\n                <artifactId>allure-maven</artifactId>\n                <version>2.12.0</version>\n                <configuration>\n                    <reportVersion>$\x7ballure.version\x7d</reportVersion>\n                </configuration>\n            </plugin>\n" else "")
  ++ "\n        </plugins>\n    </build>\n</project>\n"

/-- generateJavaBaseTest from folderTree.ts, with WebDriver setup only when
includeUI is set. -/
def generateJavaBaseTest (config : ProjectConfig) : String :=
  "package com.automation.base;\n\nimport org.junit.jupiter.api.AfterEach;\nimport org.junit.jupiter.api.BeforeEach;\nimport org.apache.logging.log4j.LogManager;\nimport org.apache.logging.log4j.Logger;\n"
  ++ (if config.includeUI then "import org.openqa.selenium.WebDriver;\nimport com.automation.utils.WebDriverFactory;\nimport com.automation.utils.ConfigReader;" else "import com.automation.utils.ConfigReader;")
  ++ "\n\n/**\n * Base test class providing common setup and teardown functionality.\n * All test classes should extend this class.\n */\npublic abstract class BaseTest \x7b\n\n    protected static final Logger logger = LogManager.getLogger(BaseTest.class);\n    protected ConfigReader config;\n"
  ++ (if config.includeUI then "    protected WebDriver driver;" else "")
  ++ "\n\n    @BeforeEach\n    public void setUp() \x7b\n        logger.info(\"Setting up test...\");\n        config = new ConfigReader();\n"
  ++ (if config.includeUI then "        \n        String browser = config.getProperty(\"browser\", \"chrome\");\n        boolean headless = Boolean.parseBoolean(config.getProperty(\"headless\", \"true\"));\n        \n        driver = WebDriverFactory.createDriver(browser, headless);\n        driver.manage().window().maximize();\n        \n        String baseUrl = config.getProperty(\"baseUrl\", \"https://example.com\");\n        driver.get(baseUrl);\n        logger.info(\"Navigated to: \x7b\x7d\", baseUrl);" else "")
  ++ "\n    \x7d\n\n    @AfterEach\n    public void tearDown() \x7b\n        logger.info(\"Tearing down test...\");\n"
  ++ (if config.includeUI then "        if (driver != null) \x7b\n            driver.quit();\n            logger.info(\"Browser closed\");\n        \x7d" else "")
  ++ "\n    \x7d\n\x7d\n"

/-- generatePythonPyprojectToml from folderTree.ts. -/
def generatePythonPyprojectToml (config : ProjectConfig) : String :=
  let isSelenium := config.uiFramework = some UIFramework.selenium
  "[tool.poetry]\nname = \""
  ++ config.projectName
  ++ "\"\nversion = \"1.0.0\"\ndescription = \""
  ++ jsOr config.description "Automation test framework"
  ++ "\"\nauthors = [\""
  ++ jsOr config.author "Test Automation Team"
  ++ "\"]\nreadme = \"README.md\"\n\n[tool.poetry.dependencies]\npython = \"^3.9\"\npytest = \"^7.4.0\"\npytest-html = \"^4.1.0\"\npytest-xdist = \"^3.5.0\"\npython-dotenv = \"^1.0.0\"\nrequests = \"^2.31.0\"\n"
  ++ (if config.includeUI then
        (if isSelenium then "selenium = \"^4.15.0\"\nwebdriver-manager = \"^4.0.0\"" else "playwright = \"^1.40.0\"")
      else "")
  ++ "\n\n[tool.poetry.group.dev.dependencies]\nblack = \"^23.0.0\"\nflake8 = \"^6.0.0\"\nmypy = \"^1.7.0\"\n\n[build-system]\nrequires = [\"poetry-core\"]\nbuild-backend = \"poetry.core.masonry.api\"\n\n[tool.pytest.ini_options]\ntestpaths = [\"tests\"]\npython_files = [\"test_*.py\"]\npython_classes = [\"Test*\"]\npython_functions = [\"test_*\"]\naddopts = \"-v --tb=short\"\nmarkers = [\n    \"ui: UI tests\",\n    \"api: API tests\",\n    \"smoke: Smoke tests\",\n]\n"

/-- generatePythonRequirements from folderTree.ts. -/
def generatePythonRequirements (config : ProjectConfig) : String :=
  let isSelenium := config.uiFramework = some UIFramework.selenium
  "# Core Testing\npytest>=7.4.0\npytest-html>=4.1.0\npytest-xdist>=3.5.0\n\n# Environment\npython-dotenv>=1.0.0\n\n# API Testing\nrequests>=2.31.0\n\n"
  ++ (if config.includeUI then
        (if isSelenium then "# UI Testing (Selenium)\nselenium>=4.15.0\nwebdriver-manager>=4.0.0"
         else "# UI Testing (Playwright)\nplaywright>=1.40.0")
      else "")
  ++ "\n\n# Utilities\nFaker>=22.0.0\n\n# Linting/Formatting (dev)\nblack>=23.0.0\nflake8>=6.0.0\nmypy>=1.7.0\n"

/-- generatePythonConftest from folderTree.ts (a Selenium variant when
uiFramework is selenium and includeUI, otherwise the Playwright variant with
conditional browser fixtures). -/
def generatePythonConftest (config : ProjectConfig) : String :=
  let isSelenium := config.uiFramework = some UIFramework.selenium
  if isSelenium ∧ config.includeUI then
    "\"\"\"\nPytest configuration and fixtures for Selenium.\n\"\"\"\nimport pytest\nimport os\nfrom dotenv import load_dotenv\nfrom selenium import webdriver\nfrom selenium.webdriver.chrome.service import Service\nfrom selenium.webdriver.chrome.options import Options\nfrom webdriver_manager.chrome import ChromeDriverManager\n\n# Load environment variables\nload_dotenv()\n\n\ndef pytest_configure(config):\n    \"\"\"Configure pytest with custom markers and settings.\"\"\"\n    config.addinivalue_line(\"markers\", \"ui: UI tests\")\n    config.addinivalue_line(\"markers\", \"api: API tests\")\n    config.addinivalue_line(\"markers\", \"smoke: Smoke tests\")\n    config.addinivalue_line(\"markers\", \"regression: Regression tests\")\n\n\ndef pytest_html_report_title(report):\n    \"\"\"Customize HTML report title.\"\"\"\n    report.title = \""
    ++ config.projectName
    ++ " Test Report\"\n\n\n@pytest.fixture(scope=\"session\")\ndef base_url():\n    \"\"\"Get base URL from environment.\"\"\"\n    return os.getenv(\"BASE_URL\", \"https://example.com\")\n\n\n@pytest.fixture(scope=\"session\")\ndef api_base_url():\n    \"\"\"Get API base URL from environment.\"\"\"\n    return os.getenv(\"API_BASE_URL\", \"https://jsonplaceholder.typicode.com\")\n\n\n@pytest.fixture(scope=\"function\")\ndef driver(base_url):\n    \"\"\"Create WebDriver instance for each test.\"\"\"\n    chrome_options = Options()\n    \n    if os.getenv(\"HEADLESS\", \"true\").lower() == \"true\":\n        chrome_options.add_argument(\"--headless=new\")\n    \n    chrome_options.add_argument(\"--no-sandbox\")\n    chrome_options.add_argument(\"--disable-dev-shm-usage\")\n    chrome_options.add_argument(\"--window-size=1920,1080\")\n    \n    service = Service(ChromeDriverManager().install())\n    driver = webdriver.Chrome(service=service, options=chrome_options)\n    driver.implicitly_wait(10)\n    driver.get(base_url)\n    \n    yield driver\n    \n    driver.quit()\n\n\n@pytest.fixture(scope=\"session\")\ndef api_session():\n    \"\"\"Create requests session for API tests.\"\"\"\n    import requests\n    session = requests.Session()\n    session.headers.update(\x7b\n        \"Content-Type\": \"application/json\",\n        \"Accept\": \"application/json\",\n    \x7d)\n    yield session\n    session.close()\n"
  else
    "\"\"\"\nPytest configuration and fixtures.\n\"\"\"\nimport pytest\nimport os\nfrom dotenv import load_dotenv\n"
    ++ (if config.includeUI then "from playwright.sync_api import sync_playwright, Browser, Page, BrowserContext" else "")
    ++ "\n\n# Load environment variables\nload_dotenv()\n\n\ndef pytest_configure(config):\n    \"\"\"Configure pytest with custom markers and settings.\"\"\"\n    config.addinivalue_line(\"markers\", \"ui: UI tests\")\n    config.addinivalue_line(\"markers\", \"api: API tests\")\n    config.addinivalue_line(\"markers\", \"smoke: Smoke tests\")\n    config.addinivalue_line(\"markers\", \"regression: Regression tests\")\n\n\ndef pytest_html_report_title(report):\n    \"\"\"Customize HTML report title.\"\"\"\n    report.title = \""
    ++ config.projectName
    ++ " Test Report\"\n\n\n@pytest.fixture(scope=\"session\")\ndef base_url():\n    \"\"\"Get base URL from environment.\"\"\"\n    return os.getenv(\"BASE_URL\", \"https://example.com\")\n\n\n@pytest.fixture(scope=\"session\")\ndef api_base_url():\n    \"\"\"Get API base URL from environment.\"\"\"\n    return os.getenv(\"API_BASE_URL\", \"https://jsonplaceholder.typicode.com\")\n\n"
    ++ (if config.includeUI then "\n@pytest.fixture(scope=\"session\")\ndef browser():\n    \"\"\"Create browser instance for the test session.\"\"\"\n    with sync_playwright() as p:\n        browser = p.chromium.launch(\n            headless=os.getenv(\"HEADLESS\", \"true\").lower() == \"true\"\n        )\n        yield browser\n        browser.close()\n\n\n@pytest.fixture(scope=\"function\")\ndef context(browser: Browser):\n    \"\"\"Create new browser context for each test.\"\"\"\n    context = browser.new_context(\n        viewport=\x7b\"width\": 1920, \"height\": 1080\x7d,\n        record_video_dir=\"test-results/videos\" if os.getenv(\"RECORD_VIDEO\") else None,\n    )\n    yield context\n    context.close()\n\n\n@pytest.fixture(scope=\"function\")\ndef page(context: BrowserContext, base_url: str):\n    \"\"\"Create new page for each test.\"\"\"\n    page = context.new_page()\n    page.set_default_timeout(30000)\n    page.goto(base_url)\n    yield page\n    page.close()\n" else "")
    ++ "\n\n@pytest.fixture(scope=\"session\")\ndef api_session():\n    \"\"\"Create requests session for API tests.\"\"\"\n    import requests\n    session = requests.Session()\n    session.headers.update(\x7b\n        \"Content-Type\": \"application/json\",\n        \"Accept\": \"application/json\",\n    \x7d)\n    yield session\n    session.close()\n"

/-- generatePythonBasePage from folderTree.ts: a Selenium variant or a
Playwright variant, selected by the configured UI framework. -/
def generatePythonBasePage (config : ProjectConfig) : String :=
  let isSelenium := config.uiFramework = some UIFramework.selenium
  if isSelenium then
    "\"\"\"\nBase page object class providing common web interactions for Selenium.\n\"\"\"\nfrom selenium.webdriver.remote.webdriver import WebDriver\nfrom selenium.webdriver.remote.webelement import WebElement\nfrom selenium.webdriver.common.by import By\nfrom selenium.webdriver.support.ui import WebDriverWait\nfrom selenium.webdriver.support import expected_conditions as EC\nfrom selenium.webdriver.support.ui import Select\nfrom typing import Optional, List\nimport logging\n\nlogger = logging.getLogger(__name__)\n\n\nclass BasePage:\n    \"\"\"\n    Base page object class for Selenium.\n    All page objects should inherit from this class.\n    \"\"\"\n\n    def __init__(self, driver: WebDriver):\n        self.driver = driver\n        self.wait = WebDriverWait(driver, 10)\n\n    # ============ Navigation ============\n\n    def navigate(self, url: str) -> None:\n        \"\"\"Navigate to a URL.\"\"\"\n        logger.info(f\"Navigating to: \x7burl\x7d\")\n        self.driver.get(url)\n\n    def get_current_url(self) -> str:\n        \"\"\"Get current page URL.\"\"\"\n        return self.driver.current_url\n\n    def reload(self) -> None:\n        \"\"\"Reload the current page.\"\"\"\n        self.driver.refresh()\n\n    # ============ Wait Methods ============\n\n    def wait_for_element(self, locator: tuple, timeout: int = 10) -> WebElement:\n        \"\"\"Wait for element to be visible.\"\"\"\n        wait = WebDriverWait(self.driver, timeout)\n        return wait.until(EC.visibility_of_element_located(locator))\n\n    def wait_for_clickable(self, locator: tuple, timeout: int = 10) -> WebElement:\n        \"\"\"Wait for element to be clickable.\"\"\"\n        wait = WebDriverWait(self.driver, timeout)\n        return wait.until(EC.element_to_be_clickable(locator))\n\n    def wait_for_url_contains(self, text: str, timeout: int = 10) -> bool:\n        \"\"\"Wait for URL to contain text.\"\"\"\n        wait = WebDriverWait(self.driver, timeout)\n        return wait.until(EC.url_contains(text))\n\n    # ============ Interaction Methods ============\n\n    def click(self, locator: tuple) -> None:\n        \"\"\"Click on an element.\"\"\"\n        logger.debug(f\"Clicking: \x7blocator\x7d\")\n        element = self.wait_for_clickable(locator)\n        element.click()\n\n    def fill(self, locator: tuple, text: str) -> None:\n        \"\"\"Fill text into an input field.\"\"\"\n        logger.debug(f\"Filling '\x7btext\x7d' into: \x7blocator\x7d\")\n        element = self.wait_for_element(locator)\n        element.clear()\n        element.send_keys(text)\n\n    def clear(self, locator: tuple) -> None:\n        \"\"\"Clear an input field.\"\"\"\n        element = self.wait_for_element(locator)\n        element.clear()\n\n    def select_option(self, locator: tuple, value: str) -> None:\n        \"\"\"Select option from dropdown by value.\"\"\"\n        element = self.wait_for_element(locator)\n        Select(element).select_by_value(value)\n\n    # ============ Element State ============\n\n    def is_visible(self, locator: tuple) -> bool:\n        \"\"\"Check if element is visible.\"\"\"\n        try:\n            element = self.driver.find_element(*locator)\n            return element.is_displayed()\n        except Exception:\n            return False\n\n    def is_enabled(self, locator: tuple) -> bool:\n        \"\"\"Check if element is enabled.\"\"\"\n        try:\n            element = self.driver.find_element(*locator)\n            return element.is_enabled()\n        except Exception:\n            return False\n\n    def get_text(self, locator: tuple) -> str:\n        \"\"\"Get text content of element.\"\"\"\n        element = self.wait_for_element(locator)\n        return element.text\n\n    def get_attribute(self, locator: tuple, attribute: str) -> Optional[str]:\n        \"\"\"Get attribute value of element.\"\"\"\n        element = self.wait_for_element(locator)\n        return element.get_attribute(attribute)\n\n    # ============ Screenshots ============\n\n    def take_screenshot(self, name: str) -> bool:\n        \"\"\"Take a screenshot.\"\"\"\n        return self.driver.save_screenshot(f\"screenshots/\x7bname\x7d.png\")\n"
  else
    "\"\"\"\nBase page object class providing common web interactions.\n\"\"\"\nfrom playwright.sync_api import Page, Locator, expect\nfrom typing import Optional\nimport logging\n\nlogger = logging.getLogger(__name__)\n\n\nclass BasePage:\n    \"\"\"\n    Base page object class.\n    All page objects should inherit from this class.\n    \"\"\"\n\n    def __init__(self, page: Page):\n        self.page = page\n\n    # ============ Navigation ============\n\n    def navigate(self, path: str = \"/\") -> None:\n        \"\"\"Navigate to a specific path.\"\"\"\n        logger.info(f\"Navigating to: \x7bpath\x7d\")\n        self.page.goto(path)\n\n    def get_current_url(self) -> str:\n        \"\"\"Get current page URL.\"\"\"\n        return self.page.url\n\n    def reload(self) -> None:\n        \"\"\"Reload the current page.\"\"\"\n        self.page.reload()\n\n    # ============ Wait Methods ============\n\n    def wait_for_element(self, selector: str, timeout: int = 10000) -> Locator:\n        \"\"\"Wait for element to be visible.\"\"\"\n        locator = self.page.locator(selector)\n        locator.wait_for(state=\"visible\", timeout=timeout)\n        return locator\n\n    def wait_for_url(self, url_pattern: str, timeout: int = 10000) -> None:\n        \"\"\"Wait for URL to match pattern.\"\"\"\n        self.page.wait_for_url(url_pattern, timeout=timeout)\n\n    def wait_for_load_state(self, state: str = \"networkidle\") -> None:\n        \"\"\"Wait for page load state.\"\"\"\n        self.page.wait_for_load_state(state)\n\n    # ============ Interaction Methods ============\n\n    def click(self, selector: str) -> None:\n        \"\"\"Click on an element.\"\"\"\n        logger.debug(f\"Clicking: \x7bselector\x7d\")\n        self.page.click(selector)\n\n    def fill(self, selector: str, text: str) -> None:\n        \"\"\"Fill text into an input field.\"\"\"\n        logger.debug(f\"Filling '\x7btext\x7d' into: \x7bselector\x7d\")\n        self.page.fill(selector, text)\n\n    def type_text(self, selector: str, text: str, delay: int = 50) -> None:\n        \"\"\"Type text character by character.\"\"\"\n        self.page.type(selector, text, delay=delay)\n\n    def clear(self, selector: str) -> None:\n        \"\"\"Clear an input field.\"\"\"\n        self.page.fill(selector, \"\")\n\n    def select_option(self, selector: str, value: str) -> None:\n        \"\"\"Select option from dropdown.\"\"\"\n        self.page.select_option(selector, value)\n\n    def check(self, selector: str) -> None:\n        \"\"\"Check a checkbox.\"\"\"\n        self.page.check(selector)\n\n    def uncheck(self, selector: str) -> None:\n        \"\"\"Uncheck a checkbox.\"\"\"\n        self.page.uncheck(selector)\n\n    # ============ Element State ============\n\n    def is_visible(self, selector: str) -> bool:\n        \"\"\"Check if element is visible.\"\"\"\n        return self.page.locator(selector).is_visible()\n\n    def is_enabled(self, selector: str) -> bool:\n        \"\"\"Check if element is enabled.\"\"\"\n        return self.page.locator(selector).is_enabled()\n\n    def get_text(self, selector: str) -> str:\n        \"\"\"Get text content of element.\"\"\"\n        return self.page.locator(selector).text_content() or \"\"\n\n    def get_input_value(self, selector: str) -> str:\n        \"\"\"Get value of input field.\"\"\"\n        return self.page.locator(selector).input_value()\n\n    def get_attribute(self, selector: str, attribute: str) -> Optional[str]:\n        \"\"\"Get attribute value of element.\"\"\"\n        return self.page.locator(selector).get_attribute(attribute)\n\n    # ============ Assertions ============\n\n    def expect_visible(self, selector: str) -> None:\n        \"\"\"Assert element is visible.\"\"\"\n        expect(self.page.locator(selector)).to_be_visible()\n\n    def expect_hidden(self, selector: str) -> None:\n        \"\"\"Assert element is hidden.\"\"\"\n        expect(self.page.locator(selector)).to_be_hidden()\n\n    def expect_text(self, selector: str, text: str) -> None:\n        \"\"\"Assert element contains text.\"\"\"\n        expect(self.page.locator(selector)).to_contain_text(text)\n\n    def expect_url(self, url_pattern: str) -> None:\n        \"\"\"Assert current URL matches pattern.\"\"\"\n        expect(self.page).to_have_url(url_pattern)\n\n    # ============ Screenshots ============\n\n    def take_screenshot(self, name: str) -> bytes:\n        \"\"\"Take a screenshot.\"\"\"\n        return self.page.screenshot(path=f\"screenshots/\x7bname\x7d.png\")\n"

/-- generatePythonLoginPage from folderTree.ts (Selenium or Playwright variant). -/
def generatePythonLoginPage (config : ProjectConfig) : String :=
  let isSelenium := config.uiFramework = some UIFramework.selenium
  if isSelenium then
    "\"\"\"\nLogin page object for Selenium.\n\"\"\"\nfrom selenium.webdriver.remote.webdriver import WebDriver\nfrom selenium.webdriver.common.by import By\nfrom src.pages.base_page import BasePage\nimport logging\n\nlogger = logging.getLogger(__name__)\n\n\nclass LoginPage(BasePage):\n    \"\"\"\n    Page object for the Login page (Selenium).\n    \"\"\"\n\n    # Locators (By.CSS_SELECTOR)\n    USERNAME_INPUT = (By.CSS_SELECTOR, '[data-testid=\"username\"]')\n    PASSWORD_INPUT = (By.CSS_SELECTOR, '[data-testid=\"password\"]')\n    SUBMIT_BUTTON = (By.CSS_SELECTOR, '[data-testid=\"submit\"]')\n    ERROR_MESSAGE = (By.CSS_SELECTOR, '[data-testid=\"error-message\"]')\n    REMEMBER_ME_CHECKBOX = (By.CSS_SELECTOR, '[data-testid=\"remember-me\"]')\n    FORGOT_PASSWORD_LINK = (By.CSS_SELECTOR, '[data-testid=\"forgot-password\"]')\n\n    def __init__(self, driver: WebDriver):\n        super().__init__(driver)\n\n    # ============ Actions ============\n\n    def enter_username(self, username: str) -> \"LoginPage\":\n        \"\"\"Enter username.\"\"\"\n        logger.info(f\"Entering username: \x7busername\x7d\")\n        self.fill(self.USERNAME_INPUT, username)\n        return self\n\n    def enter_password(self, password: str) -> \"LoginPage\":\n        \"\"\"Enter password.\"\"\"\n        logger.info(\"Entering password\")\n        self.fill(self.PASSWORD_INPUT, password)\n        return self\n\n    def click_submit(self) -> None:\n        \"\"\"Click the submit button.\"\"\"\n        logger.info(\"Clicking submit button\")\n        self.click(self.SUBMIT_BUTTON)\n\n    def login(self, username: str, password: str) -> None:\n        \"\"\"Perform complete login flow.\"\"\"\n        logger.info(f\"Logging in as: \x7busername\x7d\")\n        self.enter_username(username)\n        self.enter_password(password)\n        self.click_submit()\n\n    # ============ Validations ============\n\n    def is_username_field_displayed(self) -> bool:\n        \"\"\"Check if username field is visible.\"\"\"\n        return self.is_visible(self.USERNAME_INPUT)\n\n    def is_password_field_displayed(self) -> bool:\n        \"\"\"Check if password field is visible.\"\"\"\n        return self.is_visible(self.PASSWORD_INPUT)\n\n    def is_submit_button_enabled(self) -> bool:\n        \"\"\"Check if submit button is enabled.\"\"\"\n        return self.is_enabled(self.SUBMIT_BUTTON)\n\n    def is_error_displayed(self) -> bool:\n        \"\"\"Check if error message is displayed.\"\"\"\n        return self.is_visible(self.ERROR_MESSAGE)\n\n    def get_error_message(self) -> str:\n        \"\"\"Get error message text.\"\"\"\n        return self.get_text(self.ERROR_MESSAGE)\n\n    def is_login_successful(self) -> bool:\n        \"\"\"Check if login was successful (redirected to dashboard).\"\"\"\n        return \"dashboard\" in self.get_current_url() or \"home\" in self.get_current_url()\n"
  else
    "\"\"\"\nLogin page object.\n\"\"\"\nfrom playwright.sync_api import Page, expect\nfrom src.pages.base_page import BasePage\nimport logging\n\nlogger = logging.getLogger(__name__)\n\n\nclass LoginPage(BasePage):\n    \"\"\"\n    Page object for the Login page.\n    \"\"\"\n\n    # Selectors\n    USERNAME_INPUT = '[data-testid=\"username\"]'\n    PASSWORD_INPUT = '[data-testid=\"password\"]'\n    SUBMIT_BUTTON = '[data-testid=\"submit\"]'\n    ERROR_MESSAGE = '[data-testid=\"error-message\"]'\n    REMEMBER_ME_CHECKBOX = '[data-testid=\"remember-me\"]'\n    FORGOT_PASSWORD_LINK = '[data-testid=\"forgot-password\"]'\n\n    def __init__(self, page: Page):\n        super().__init__(page)\n\n    # ============ Actions ============\n\n    def enter_username(self, username: str) -> \"LoginPage\":\n        \"\"\"Enter username.\"\"\"\n        logger.info(f\"Entering username: \x7busername\x7d\")\n        self.fill(self.USERNAME_INPUT, username)\n        return self\n\n    def enter_password(self, password: str) -> \"LoginPage\":\n        \"\"\"Enter password.\"\"\"\n        logger.info(\"Entering password\")\n        self.fill(self.PASSWORD_INPUT, password)\n        return self\n\n    def click_submit(self) -> None:\n        \"\"\"Click the submit button.\"\"\"\n        logger.info(\"Clicking submit button\")\n        self.click(self.SUBMIT_BUTTON)\n\n    def login(self, username: str, password: str) -> None:\n        \"\"\"Perform complete login flow.\"\"\"\n        logger.info(f\"Logging in as: \x7busername\x7d\")\n        self.enter_username(username)\n        self.enter_password(password)\n        self.click_submit()\n\n    def check_remember_me(self) -> \"LoginPage\":\n        \"\"\"Check the remember me checkbox.\"\"\"\n        self.check(self.REMEMBER_ME_CHECKBOX)\n        return self\n\n    def click_forgot_password(self) -> None:\n        \"\"\"Click forgot password link.\"\"\"\n        self.click(self.FORGOT_PASSWORD_LINK)\n\n    # ============ Validations ============\n\n    def is_username_field_displayed(self) -> bool:\n        \"\"\"Check if username field is visible.\"\"\"\n        return self.is_visible(self.USERNAME_INPUT)\n\n    def is_password_field_displayed(self) -> bool:\n        \"\"\"Check if password field is visible.\"\"\"\n        return self.is_visible(self.PASSWORD_INPUT)\n\n    def is_submit_button_enabled(self) -> bool:\n        \"\"\"Check if submit button is enabled.\"\"\"\n        return self.is_enabled(self.SUBMIT_BUTTON)\n\n    def is_error_displayed(self) -> bool:\n        \"\"\"Check if error message is displayed.\"\"\"\n        return self.is_visible(self.ERROR_MESSAGE)\n\n    def get_error_message(self) -> str:\n        \"\"\"Get error message text.\"\"\"\n        return self.get_text(self.ERROR_MESSAGE)\n\n    def is_login_successful(self) -> bool:\n        \"\"\"Check if login was successful (redirected to dashboard).\"\"\"\n        return \"dashboard\" in self.get_current_url() or \"home\" in self.get_current_url()\n\n    # ============ Assertions ============\n\n    def expect_error_message(self, message: str) -> None:\n        \"\"\"Assert error message contains text.\"\"\"\n        self.expect_text(self.ERROR_MESSAGE, message)\n\n    def expect_login_success(self) -> None:\n        \"\"\"Assert successful login (URL contains dashboard).\"\"\"\n        expect(self.page).to_have_url(r\".*dashboard.*\")\n"

/-- generatePythonLoginTest from folderTree.ts (Selenium or Playwright variant). -/
def generatePythonLoginTest (config : ProjectConfig) : String :=
  let isSelenium := config.uiFramework = some UIFramework.selenium
  if isSelenium then
    "\"\"\"\nLogin page UI tests for Selenium.\n\"\"\"\nimport pytest\nfrom src.pages.login_page import LoginPage\n\n\n@pytest.mark.ui\nclass TestLogin:\n    \"\"\"Test class for Login functionality.\"\"\"\n\n    @pytest.fixture(autouse=True)\n    def setup(self, driver, base_url):\n        \"\"\"Set up login page for each test.\"\"\"\n        self.login_page = LoginPage(driver)\n        driver.get(f\"\x7bbase_url\x7d/login\")\n\n    @pytest.mark.smoke\n    def test_login_form_is_visible(self):\n        \"\"\"Test that login form elements are visible.\"\"\"\n        assert self.login_page.is_username_field_displayed(), \\\n            \"Username field should be visible\"\n        assert self.login_page.is_password_field_displayed(), \\\n            \"Password field should be visible\"\n        assert self.login_page.is_submit_button_enabled(), \\\n            \"Submit button should be enabled\"\n\n    def test_invalid_credentials_shows_error(self):\n        \"\"\"Test that invalid credentials show error message.\"\"\"\n        self.login_page.login(\"invalid@email.com\", \"wrongpassword\")\n        \n        assert self.login_page.is_error_displayed(), \\\n            \"Error message should be displayed\"\n        error_text = self.login_page.get_error_message().lower()\n        assert \"invalid\" in error_text or \"incorrect\" in error_text, \\\n            \"Error should mention invalid credentials\"\n\n    def test_empty_username_shows_error(self):\n        \"\"\"Test that empty username shows error.\"\"\"\n        self.login_page.enter_password(\"somepassword\")\n        self.login_page.click_submit()\n        \n        assert self.login_page.is_error_displayed(), \\\n            \"Error should be shown for empty username\"\n\n    @pytest.mark.smoke\n    def test_valid_credentials_login(self):\n        \"\"\"Test successful login with valid credentials.\"\"\"\n        self.login_page.login(\"test@example.com\", \"password123\")\n        \n        assert self.login_page.is_login_successful(), \\\n            \"Should navigate to dashboard after successful login\"\n"
  else
    "\"\"\"\nLogin page UI tests.\n\"\"\"\nimport pytest\nfrom src.pages.login_page import LoginPage\n\n\n@pytest.mark.ui\nclass TestLogin:\n    \"\"\"Test class for Login functionality.\"\"\"\n\n    @pytest.fixture(autouse=True)\n    def setup(self, page, base_url):\n        \"\"\"Set up login page for each test.\"\"\"\n        self.login_page = LoginPage(page)\n        page.goto(f\"\x7bbase_url\x7d/login\")\n\n    @pytest.mark.smoke\n    def test_login_form_is_visible(self):\n        \"\"\"Test that login form elements are visible.\"\"\"\n        assert self.login_page.is_username_field_displayed(), \\\n            \"Username field should be visible\"\n        assert self.login_page.is_password_field_displayed(), \\\n            \"Password field should be visible\"\n        assert self.login_page.is_submit_button_enabled(), \\\n            \"Submit button should be enabled\"\n\n    def test_invalid_credentials_shows_error(self):\n        \"\"\"Test that invalid credentials show error message.\"\"\"\n        self.login_page.login(\"invalid@email.com\", \"wrongpassword\")\n        \n        assert self.login_page.is_error_displayed(), \\\n            \"Error message should be displayed\"\n        error_text = self.login_page.get_error_message().lower()\n        assert \"invalid\" in error_text or \"incorrect\" in error_text, \\\n            \"Error should mention invalid credentials\"\n\n    def test_empty_username_shows_error(self):\n        \"\"\"Test that empty username shows error.\"\"\"\n        self.login_page.enter_password(\"somepassword\")\n        self.login_page.click_submit()\n        \n        assert self.login_page.is_error_displayed(), \\\n            \"Error should be shown for empty username\"\n\n    def test_empty_password_shows_error(self):\n        \"\"\"Test that empty password shows error.\"\"\"\n        self.login_page.enter_username(\"test@example.com\")\n        self.login_page.click_submit()\n        \n        assert self.login_page.is_error_displayed(), \\\n            \"Error should be shown for empty password\"\n\n    @pytest.mark.smoke\n    def test_valid_credentials_login(self):\n        \"\"\"Test successful login with valid credentials.\"\"\"\n        # Use test credentials from environment or defaults\n        self.login_page.login(\"test@example.com\", \"password123\")\n        \n        assert self.login_page.is_login_successful(), \\\n            \"Should navigate to dashboard after successful login\"\n"

/-- A (path, content) pair, the FileEntry interface of folderTree.ts. -/
structure FileEntry where
  path : String
  content : String

/-- generateFiles from folderTree.ts (the main content generator): the sequence
of `files.push({path, content})` calls becomes list concatenation, with the same
conditionals as the source. -/
def generateFiles (config : ProjectConfig) : List FileEntry :=
  let projectName := config.projectName
  [⟨projectName ++ "/README.md", generateReadme config⟩,
   ⟨projectName ++ "/.env.example", generateEnvExample⟩]
  ++ (if config.initGit then
        [⟨projectName ++ "/.gitignore", generateGitignore (languageStr config.language)⟩] else [])
  ++ (if config.language = Language.typescript then
        [⟨projectName ++ "/package.json", generateTypeScriptPackageJson config⟩,
         ⟨projectName ++ "/tsconfig.json", generateTsConfig⟩,
         ⟨projectName ++ "/playwright.config.ts", generatePlaywrightConfig config⟩,
         ⟨projectName ++ "/src/utils/config.ts", generateTsUtils⟩,
         ⟨projectName ++ "/src/utils/helpers.ts", generateTsHelpers⟩]
        ++ (if config.includeUI then
              [⟨projectName ++ "/src/pages/BasePage.ts", generateTsBasePage⟩,
               ⟨projectName ++ "/src/pages/LoginPage.ts", generateTsLoginPage⟩,
               ⟨projectName ++ "/src/fixtures/base.fixture.ts", generateTsFixture⟩,
               ⟨projectName ++ "/tests/ui/login.spec.ts", generateTsLoginSpec⟩,
               ⟨projectName ++ "/tests/ui/home.spec.ts", generateTsHomeSpec⟩] else [])
        ++ (if config.includeAPI then
              [⟨projectName ++ "/tests/api/users.spec.ts", generateTsApiSpec⟩,
               ⟨projectName ++ "/tests/api/health.spec.ts", generateTsHealthSpec⟩] else [])
        ++ [⟨projectName ++ "/config/dev.json", generateConfigJson "dev"⟩,
            ⟨projectName ++ "/config/stage.json", generateConfigJson "stage"⟩,
            ⟨projectName ++ "/config/prod.json", generateConfigJson "prod"⟩,
            ⟨projectName ++ "/scripts/run-tests.sh", generateRunScript⟩]
      else [])
  ++ (if config.language = Language.java then
        [⟨projectName ++ "/pom.xml", generateJavaPom config⟩,
         ⟨projectName ++ "/src/test/java/com/automation/base/BaseTest.java", generateJavaBaseTest config⟩,
         ⟨projectName ++ "/src/test/java/com/automation/utils/ConfigReader.java", generateJavaConfigReader⟩,
         ⟨projectName ++ "/src/test/java/com/automation/utils/TestUtils.java", generateJavaTestUtils⟩]
        ++ (if config.includeUI then
              [⟨projectName ++ "/src/test/java/com/automation/utils/WebDriverFactory.java", generateJavaWebDriverFactory⟩,
               ⟨projectName ++ "/src/test/java/com/automation/pages/BasePage.java", generateJavaBasePage⟩,
               ⟨projectName ++ "/src/test/java/com/automation/pages/LoginPage.java", generateJavaLoginPage⟩,
               ⟨projectName ++ "/src/test/java/com/automation/pages/HomePage.java", generateJavaHomePage⟩,
               ⟨projectName ++ "/src/test/java/com/automation/tests/LoginTest.java", generateJavaLoginTest⟩] else [])
        ++ (if config.includeAPI then
              [⟨projectName ++ "/src/test/java/com/automation/api/BaseApiClient.java", generateJavaBaseApiClient⟩,
               ⟨projectName ++ "/src/test/java/com/automation/api/UsersApiTest.java", generateJavaUsersApiTest⟩,
               ⟨projectName ++ "/src/test/java/com/automation/api/PostsApiTest.java", generateJavaPostsApiTest⟩] else [])
        ++ [⟨projectName ++ "/src/test/resources/config.properties", generateJavaConfigProperties⟩,
            ⟨projectName ++ "/src/test/resources/log4j2.xml", generateJavaLog4j⟩]
      else [])
  ++ (if config.language = Language.python then
        [⟨projectName ++ "/requirements.txt", generatePythonRequirements config⟩]
        ++ (if config.buildTool = BuildTool.poetry then
              [⟨projectName ++ "/pyproject.toml", generatePythonPyprojectToml config⟩] else [])
        ++ [⟨projectName ++ "/pytest.ini", generatePythonPytestIni⟩,
            ⟨projectName ++ "/conftest.py", generatePythonConftest config⟩,
            ⟨projectName ++ "/src/__init__.py", generatePythonInit⟩,
            ⟨projectName ++ "/src/utils/__init__.py", generatePythonInit⟩,
            ⟨projectName ++ "/src/utils/config.py", generatePythonConfig⟩,
            ⟨projectName ++ "/src/utils/api_client.py", generatePythonApiClient⟩]
        ++ (if config.includeUI then
              [⟨projectName ++ "/src/pages/__init__.py", generatePythonInit⟩,
               ⟨projectName ++ "/src/pages/base_page.py", generatePythonBasePage config⟩,
               ⟨projectName ++ "/src/pages/login_page.py", generatePythonLoginPage config⟩] else [])
        ++ [⟨projectName ++ "/tests/__init__.py", generatePythonInit⟩]
        ++ (if config.includeUI then
              [⟨projectName ++ "/tests/ui/__init__.py", generatePythonInit⟩,
               ⟨projectName ++ "/tests/ui/test_login.py", generatePythonLoginTest config⟩] else [])
        ++ (if config.includeAPI then
              [⟨projectName ++ "/tests/api/__init__.py", generatePythonInit⟩,
               ⟨projectName ++ "/tests/api/test_users.py", generatePythonUsersApiTest⟩,
               ⟨projectName ++ "/tests/api/test_posts.py", generatePythonPostsApiTest⟩] else [])
      else [])
  ++ (if config.includeCI then
        [⟨projectName ++ "/.github/workflows/tests.yml", generateGitHubWorkflow config⟩] else [])
  ++ (if config.includeDocker then
        [⟨projectName ++ "/Dockerfile", generateDockerfile config⟩,
         ⟨projectName ++ "/docker-compose.yml", generateDockerCompose config⟩] else [])

/-- A node of the preview tree (TreeNode interface in FolderTree.tsx):
`{name, isFolder, children}`. -/
inductive TreeNode where
  | mk (name : String) (isFolder : Bool) (children : List TreeNode)

/-- The `name` field of a tree node. -/
def TreeNode.name : TreeNode → String
  | .mk n _ _ => n

/-- The `isFolder` field of a tree node. -/
def TreeNode.isFolder : TreeNode → Bool
  | .mk _ f _ => f

/-- The `children` field of a tree node. -/
def TreeNode.children : TreeNode → List TreeNode
  | .mk _ _ c => c

/-- The comparator of `sortNodes` in FolderTree.tsx with its name comparison
instantiated to code-point order (`strLe`): folders before files, then names.
The host runs `a.name.localeCompare(b.name)`, which applies the runtime
locale's collation; that collation is not reproduced by this fixed order (ICU
places for example "package.json" before "README.md").  `nodeLe` only keeps
the construction executable for the statements that do not depend on the
sibling order; the ordering statement itself is proved for an arbitrary total
and transitive name order via `nodeLeBy` below. -/
def nodeLe (a b : TreeNode) : Bool :=
  if a.isFolder && !b.isFolder then true
  else if !a.isFolder && b.isFolder then false
  else strLe a.name b.name

/-- `nodeLe` as a decidable relation for `List.insertionSort`. -/
def nodeLE (a b : TreeNode) : Prop := nodeLe a b = true

instance : DecidableRel nodeLE := fun a b => by unfold nodeLE; infer_instance

mutual

/-- The recursive part of `sortNodes` in FolderTree.tsx applied to one node:
sort the children recursively, then sort this level with the
folders-first/name comparator (`Array.prototype.sort` with a comparator is a
stable sort, modeled by the stable `List.insertionSort`). -/
def sortTree : TreeNode → TreeNode
  | .mk n f cs => .mk n f ((mapSortTree cs).insertionSort nodeLE)

/-- `nodes.map(n => ({...n, children: sortNodes(n.children)}))` of `sortNodes`. -/
def mapSortTree : List TreeNode → List TreeNode
  | [] => []
  | t :: ts => sortTree t :: mapSortTree ts

end

/-- sortNodes from FolderTree.tsx applied to a whole forest. -/
def sortForest (ns : List TreeNode) : List TreeNode :=
  (mapSortTree ns).insertionSort nodeLE

/-- Auxiliary splitter: `String.split('/')` of JS, producing the (possibly
empty) fragments between '/' separators. -/
def splitSlashAux : List Char → List Char → List String
  | [], acc => [String.mk acc.reverse]
  | c :: cs, acc =>
    if c = '/' then String.mk acc.reverse :: splitSlashAux cs []
    else splitSlashAux cs (c :: acc)

/-- `path.split('/')` from buildTree in FolderTree.tsx. -/
def splitSlash (s : String) : List String := splitSlashAux s.data []

/-- `path.endsWith('/')` of JS, modeled on the character list. -/
def endsWithSlash (s : String) : Bool := s.data.getLast? = some '/'

/-- The inner lookup-or-insert loop body of buildTree in FolderTree.tsx:
find the first node named `p` in the current level; if found, descend into its
children with `recurse` (the node keeps its original `isFolder`!); otherwise
push a fresh node `{name := p, isFolder := isF, children := recurse []}` at the
end of the level. -/
def insertHere (p : String) (isF : Bool) (recurse : List TreeNode → List TreeNode) :
    List TreeNode → List TreeNode
  | [] => [.mk p isF (recurse [])]
  | n :: ns =>
    if n.name = p then .mk n.name n.isFolder (recurse n.children) :: ns
    else n :: insertHere p isF recurse ns

/-- The per-path loop of buildTree in FolderTree.tsx: walk the path segments,
where segment `i` is a folder iff it is not the last segment or the path ends
with '/'. -/
def insertParts : List String → Bool → List TreeNode → List TreeNode
  | [], _, cur => cur
  | p :: rest, slash, cur =>
    insertHere p (decide (rest ≠ []) || slash) (insertParts rest slash) cur

/-- buildTree from FolderTree.tsx: insert every path (split on '/', empty
fragments dropped by `.filter(Boolean)`) into the forest, then sort every
level with the folders-first comparator. -/
def buildTree (paths : List String) : List TreeNode :=
  sortForest (paths.foldl
    (fun root path =>
      insertParts ((splitSlash path).filter (fun part => part ≠ "")) (endsWithSlash path) root)
    [])

/-- The character class `[a-z0-9-]` of the slug regexes in types.ts and
StepBasics' handleNameChange. -/
def isSlugChar (c : Char) : Bool :=
  ('a' ≤ c && c ≤ 'z') || ('0' ≤ c && c ≤ '9') || c = '-'

/-- `value.toLowerCase()` modeled with Lean's ASCII `Char.toLower`
(the generated names are ASCII; on characters outside `[A-Z]` both sides leave
non-slug characters non-slug, which is all the normalization observes). -/
def toLowerCase (s : String) : String := String.mk (s.data.map Char.toLower)

/-- `.replace(/[^a-z0-9-]/g, '-')` of handleNameChange: every character
outside `[a-z0-9-]` becomes a hyphen. -/
def replaceDisallowed (s : String) : String :=
  String.mk (s.data.map (fun c => if isSlugChar c then c else '-'))

/-- `.replace(hyphen-run regex, '-')` of handleNameChange on the character list: every
maximal run of hyphens collapses to a single hyphen (adjacent duplicate
hyphens are dropped). -/
def collapseHyphens : List Char → List Char
  | [] => []
  | [c] => [c]
  | a :: b :: cs =>
    if a = '-' ∧ b = '-' then collapseHyphens (b :: cs)
    else a :: collapseHyphens (b :: cs)

/-- The slug computation of handleNameChange in the StepBasics component:
`value.toLowerCase().replace(/[^a-z0-9-]/g, '-').replace(hyphen-run regex, '-')`. -/
def handleNameChangeSlug (value : String) : String :=
  String.mk (collapseHyphens (replaceDisallowed (toLowerCase value)).data)

/-- A zod validation issue: a field path and a message. -/
structure FieldIssue where
  path : List String
  message : String
deriving DecidableEq

/-- The `projectName` string checks of ProjectConfigSchema in types.ts:
`.min(1).max(50).regex(/^[a-z0-9-]+$/)`; like zod, all failing checks are
reported. -/
def projectNameIssues (s : String) : List FieldIssue :=
  (if s.data.length < 1 then [⟨["projectName"], "Project name is required"⟩] else [])
  ++ (if s.data.length > 50 then [⟨["projectName"], "Project name must be less than 50 characters"⟩] else [])
  ++ (if ¬ (s.data ≠ [] ∧ s.data.all isSlugChar) then
        [⟨["projectName"], "Project name must be lowercase with hyphens only"⟩] else [])

/-- The optional `description` check (`.max(200)`). -/
def descriptionIssues : Option String → List FieldIssue
  | none => []
  | some s =>
    if s.data.length > 200 then [⟨["description"], "Description must be less than 200 characters"⟩]
    else []

/-- The optional `author` check (`.max(50)`). -/
def authorIssues : Option String → List FieldIssue
  | none => []
  | some s =>
    if s.data.length > 50 then [⟨["author"], "Author name must be less than 50 characters"⟩]
    else []

/-- The issues of the base object schema of ProjectConfigSchema (before the
`.refine` step; the remaining fields are enums and booleans, already
well-typed here). -/
def baseIssues (c : ProjectConfig) : List FieldIssue :=
  projectNameIssues c.projectName ++ descriptionIssues c.description ++ authorIssues c.author

/-- ProjectConfigSchema.safeParse from types.ts: zod reports the base object
issues if any; only when the base object parses does the `.refine` run, which
rejects a configuration with neither UI nor API coverage, attaching the issue
to the `includeUI` path.  Errors are returned as data, never thrown. -/
def validateProjectConfig (c : ProjectConfig) : Except (List FieldIssue) ProjectConfig :=
  let issues := baseIssues c
  if issues ≠ [] then .error issues
  else if c.includeUI || c.includeAPI then .ok c
  else .error [⟨["includeUI"], "At least one test type (UI or API) must be selected"⟩]

/-- The `updates` object built by handleLanguageChange in StepLanguage.tsx
(fields that are always set, plus the two optionally set framework fields). -/
structure ConfigUpdates where
  language : Language
  buildTool : BuildTool
  testRunner : TestRunner
  reporting : List ReportingOption
  uiFramework : Option UIFramework
  apiFramework : Option APIFramework

/-- handleLanguageChange from StepLanguage.tsx: reset buildTool, testRunner
and reporting to the new language's first listed valid option; reset
uiFramework (resp. apiFramework) similarly only when includeUI
(resp. includeAPI) is set. -/
def handleLanguageChange (config : ProjectConfig) (newLanguage : Language) : ConfigUpdates :=
  let newOptions := validCombinations newLanguage
  { language := newLanguage
    buildTool := newOptions.buildTools.headI
    testRunner := newOptions.testRunners.headI
    reporting := [newOptions.reporting.headI]
    uiFramework := if config.includeUI then some newOptions.uiFrameworks.headI else none
    apiFramework := if config.includeAPI then some newOptions.apiFrameworks.headI else none }

/- ------------------------------------------------------------------
   Analysis definitions (used to state and prove the properties below).
   ------------------------------------------------------------------ -/

/-- The always-emitted root suffixes of the planner (paths are stated relative
to the project name, each suffix starting with '/'). -/
def rootSuffixes : List String := ["/", "/README.md", "/.env.example"]

/-- Suffix emitted when initGit is set. -/
def gitignoreSuffixes : List String := ["/.gitignore"]

/-- TypeScript skeleton suffixes always emitted before the UI block. -/
def tsBase1Suffixes : List String :=
  ["/package.json", "/tsconfig.json", "/playwright.config.ts",
   "/src/", "/src/utils/", "/src/utils/config.ts", "/src/utils/helpers.ts"]

/-- TypeScript UI source suffixes. -/
def tsUiSrcSuffixes : List String :=
  ["/src/pages/", "/src/pages/BasePage.ts", "/src/pages/LoginPage.ts",
   "/src/fixtures/", "/src/fixtures/base.fixture.ts"]

/-- TypeScript tests directory suffix. -/
def tsTestsSuffixes : List String := ["/tests/"]

/-- TypeScript UI test suffixes. -/
def tsUiTestsSuffixes : List String :=
  ["/tests/ui/", "/tests/ui/login.spec.ts", "/tests/ui/home.spec.ts"]

/-- TypeScript API test suffixes. -/
def tsApiTestsSuffixes : List String :=
  ["/tests/api/", "/tests/api/users.spec.ts", "/tests/api/health.spec.ts"]

/-- TypeScript config and scripts suffixes. -/
def tsTailSuffixes : List String :=
  ["/config/", "/config/dev.json", "/config/stage.json", "/config/prod.json",
   "/scripts/", "/scripts/run-tests.sh"]

/-- Java base skeleton suffixes (after the manifest files). -/
def javaBaseSuffixes : List String :=
  ["/src/", "/src/test/", "/src/test/java/", "/src/test/java/com/",
   "/src/test/java/com/automation/", "/src/test/java/com/automation/base/",
   "/src/test/java/com/automation/base/BaseTest.java",
   "/src/test/java/com/automation/utils/",
   "/src/test/java/com/automation/utils/ConfigReader.java",
   "/src/test/java/com/automation/utils/TestUtils.java"]

/-- Java UI suffixes. -/
def javaUiSuffixes : List String :=
  ["/src/test/java/com/automation/utils/WebDriverFactory.java",
   "/src/test/java/com/automation/pages/",
   "/src/test/java/com/automation/pages/BasePage.java",
   "/src/test/java/com/automation/pages/LoginPage.java",
   "/src/test/java/com/automation/pages/HomePage.java",
   "/src/test/java/com/automation/tests/",
   "/src/test/java/com/automation/tests/LoginTest.java"]

/-- Java API suffixes. -/
def javaApiSuffixes : List String :=
  ["/src/test/java/com/automation/api/",
   "/src/test/java/com/automation/api/BaseApiClient.java",
   "/src/test/java/com/automation/api/UsersApiTest.java",
   "/src/test/java/com/automation/api/PostsApiTest.java"]

/-- Java resources suffixes. -/
def javaResSuffixes : List String :=
  ["/src/test/resources/", "/src/test/resources/config.properties",
   "/src/test/resources/log4j2.xml"]

/-- Python base skeleton suffixes (after requirements/pyproject). -/
def pyBaseSuffixes : List String :=
  ["/pytest.ini", "/conftest.py", "/src/", "/src/__init__.py",
   "/src/utils/", "/src/utils/__init__.py", "/src/utils/config.py",
   "/src/utils/api_client.py"]

/-- Python UI source suffixes. -/
def pyUiSrcSuffixes : List String :=
  ["/src/pages/", "/src/pages/__init__.py", "/src/pages/base_page.py",
   "/src/pages/login_page.py"]

/-- Python tests directory suffixes. -/
def pyTestsSuffixes : List String := ["/tests/", "/tests/__init__.py"]

/-- Python UI test suffixes. -/
def pyUiTestsSuffixes : List String :=
  ["/tests/ui/", "/tests/ui/__init__.py", "/tests/ui/test_login.py"]

/-- Python API test suffixes. -/
def pyApiTestsSuffixes : List String :=
  ["/tests/api/", "/tests/api/__init__.py", "/tests/api/test_users.py",
   "/tests/api/test_posts.py"]

/-- CI workflow suffixes. -/
def ciSuffixes : List String :=
  ["/.github/", "/.github/workflows/", "/.github/workflows/tests.yml"]

/-- Docker suffixes. -/
def dockerSuffixes : List String := ["/Dockerfile", "/docker-compose.yml"]

/-- The planner's path list relative to the project name (the same structure
as `generateFolderTree` before sorting, with the `projectName` prefix factored
out). -/
def treeSuffixes (config : ProjectConfig) : List String :=
  rootSuffixes
  ++ (if config.initGit then gitignoreSuffixes else [])
  ++ (if config.language = Language.typescript then
        tsBase1Suffixes
        ++ (if config.includeUI then tsUiSrcSuffixes else [])
        ++ tsTestsSuffixes
        ++ (if config.includeUI then tsUiTestsSuffixes else [])
        ++ (if config.includeAPI then tsApiTestsSuffixes else [])
        ++ tsTailSuffixes
      else [])
  ++ (if config.language = Language.java then
        (if config.buildTool = BuildTool.maven then ["/pom.xml"]
         else ["/build.gradle", "/settings.gradle"])
        ++ javaBaseSuffixes
        ++ (if config.includeUI then javaUiSuffixes else [])
        ++ (if config.includeAPI then javaApiSuffixes else [])
        ++ javaResSuffixes
      else [])
  ++ (if config.language = Language.python then
        ["/requirements.txt"]
        ++ (if config.buildTool = BuildTool.poetry then ["/pyproject.toml"] else [])
        ++ pyBaseSuffixes
        ++ (if config.includeUI then pyUiSrcSuffixes else [])
        ++ pyTestsSuffixes
        ++ (if config.includeUI then pyUiTestsSuffixes else [])
        ++ (if config.includeAPI then pyApiTestsSuffixes else [])
      else [])
  ++ (if config.includeCI then ciSuffixes else [])
  ++ (if config.includeDocker then dockerSuffixes else [])

/-- A superset (as a sublist) of every suffix list the planner can produce for
a given language, used to check distinctness once per language. -/
def fullSuffixes : Language → List String
  | .typescript =>
    rootSuffixes ++ gitignoreSuffixes ++ tsBase1Suffixes ++ tsUiSrcSuffixes
    ++ tsTestsSuffixes ++ tsUiTestsSuffixes ++ tsApiTestsSuffixes ++ tsTailSuffixes
    ++ ciSuffixes ++ dockerSuffixes
  | .java =>
    rootSuffixes ++ gitignoreSuffixes
    ++ ["/pom.xml", "/build.gradle", "/settings.gradle"]
    ++ javaBaseSuffixes ++ javaUiSuffixes ++ javaApiSuffixes ++ javaResSuffixes
    ++ ciSuffixes ++ dockerSuffixes
  | .python =>
    rootSuffixes ++ gitignoreSuffixes
    ++ ["/requirements.txt"] ++ ["/pyproject.toml"]
    ++ pyBaseSuffixes ++ pyUiSrcSuffixes ++ pyTestsSuffixes ++ pyUiTestsSuffixes
    ++ pyApiTestsSuffixes
    ++ ciSuffixes ++ dockerSuffixes

/-- All proper and improper prefixes of `s` that are nonempty and end in '/',
i.e. the directory-marker ancestors determined by `s` (including `s` itself if
it is a directory marker). -/
def ancClosed (P S : List String) : Prop :=
  ∀ s ∈ P, ∀ t ∈ s.data.inits, t ≠ [] → t.getLast? = some '/' → String.mk t ∈ S

instance (P S : List String) : Decidable (ancClosed P S) := by
  unfold ancClosed; infer_instance

mutual

/-- All (position, isFolder) pairs of a tree, positions given as the list of
node names from the root. -/
def flatTree : TreeNode → List (List String × Bool)
  | .mk n f cs => ([n], f) :: (flatForest cs).map (fun q => (n :: q.1, q.2))

/-- All (position, isFolder) pairs of a forest. -/
def flatForest : List TreeNode → List (List String × Bool)
  | [] => []
  | t :: ts => flatTree t ++ flatForest ts

end

/-- The path segments used by buildTree for one path string. -/
def pathParts (path : String) : List String :=
  (splitSlash path).filter (fun part => part ≠ "")

/-- The comparator of `sortNodes` abstracted over the name comparison `lc`
(the order the host's `localeCompare` realizes): folders before files, then
`lc` on the names. -/
def nodeLeBy (lc : String → String → Bool) (a b : TreeNode) : Bool :=
  if a.isFolder && !b.isFolder then true
  else if !a.isFolder && b.isFolder then false
  else lc a.name b.name

/-- `nodeLeBy lc` as a relation. -/
def nodeLEBy (lc : String → String → Bool) (a b : TreeNode) : Prop :=
  nodeLeBy lc a b = true

instance (lc : String → String → Bool) : DecidableRel (nodeLEBy lc) := fun a b => by
  unfold nodeLEBy; infer_instance

mutual

/-- `sortNodes` applied to one node, with the name comparison abstracted. -/
def sortTreeBy (lc : String → String → Bool) : TreeNode → TreeNode
  | .mk n f cs => .mk n f ((mapSortTreeBy lc cs).insertionSort (nodeLEBy lc))

/-- The children map of `sortNodes`, with the name comparison abstracted. -/
def mapSortTreeBy (lc : String → String → Bool) : List TreeNode → List TreeNode
  | [] => []
  | t :: ts => sortTreeBy lc t :: mapSortTreeBy lc ts

end

/-- `sortNodes` on a forest, with the name comparison abstracted. -/
def sortForestBy (lc : String → String → Bool) (ns : List TreeNode) : List TreeNode :=
  (mapSortTreeBy lc ns).insertionSort (nodeLEBy lc)

/-- buildTree with the comparator's name comparison abstracted: the insertion
fold is the comparator-free part of the source, only the final `sortNodes`
pass consults `lc`. -/
def buildTreeBy (lc : String → String → Bool) (paths : List String) : List TreeNode :=
  sortForestBy lc (paths.foldl
    (fun root path =>
      insertParts ((splitSlash path).filter (fun part => part ≠ "")) (endsWithSlash path) root)
    [])

/-- A forest is well sorted for the name order `lc` when every level is
sorted by the folders-first comparator over `lc`, recursively. -/
inductive WellSortedBy (lc : String → String → Bool) : TreeNode → Prop where
  | intro (n : String) (f : Bool) (cs : List TreeNode)
      (hpair : List.Sorted (nodeLEBy lc) cs)
      (hrec : ∀ c ∈ cs, WellSortedBy lc c) : WellSortedBy lc (.mk n f cs)

/-- Substring containment at the level of character lists. -/
def strContains (needle hay : String) : Prop := needle.data <:+: hay.data

/-- The suffixes the planner always emits for a TypeScript configuration
(used as the ancestor-lookup base when checking the no-orphans property). -/
def tsAlwaysSuffixes : List String :=
  rootSuffixes ++ tsBase1Suffixes ++ tsTestsSuffixes ++ tsTailSuffixes

/-- The suffixes the planner always emits for a Java configuration. -/
def javaAlwaysSuffixes : List String :=
  rootSuffixes ++ javaBaseSuffixes ++ javaResSuffixes

/-- The suffixes the planner always emits for a Python configuration. -/
def pyAlwaysSuffixes : List String :=
  rootSuffixes ++ pyBaseSuffixes ++ pyTestsSuffixes

/-- A concrete valid Java + Gradle configuration (every chosen option is in
the java row of validCombinations). -/
def javaGradleConfig : ProjectConfig :=
  { projectName := "demo"
    description := none
    author := none
    initGit := true
    includeUI := true
    includeAPI := true
    language := Language.java
    buildTool := BuildTool.gradle
    uiFramework := some UIFramework.selenium
    apiFramework := some APIFramework.restAssured
    testRunner := TestRunner.junit
    reporting := [ReportingOption.allure, ReportingOption.junitXml]
    includeEnvConfig := true
    includeCI := false
    includeDocker := false }

/-- A raw configuration with both coverage flags off (used to exercise the
validation gate). -/
def noCoverageConfig : ProjectConfig :=
  { projectName := "demo"
    description := none
    author := none
    initGit := true
    includeUI := false
    includeAPI := false
    language := Language.typescript
    buildTool := BuildTool.npm
    uiFramework := none
    apiFramework := none
    testRunner := TestRunner.playwrightTest
    reporting := [ReportingOption.html]
    includeEnvConfig := true
    includeCI := false
    includeDocker := false }

/-- The scenario configuration of the specification (Python + pip +
playwright + requests + pytest). -/
def pyDemoConfig : ProjectConfig :=
  { projectName := "demo"
    description := none
    author := none
    initGit := true
    includeUI := true
    includeAPI := true
    language := Language.python
    buildTool := BuildTool.pip
    uiFramework := some UIFramework.playwright
    apiFramework := some APIFramework.requests
    testRunner := TestRunner.pytest
    reporting := [ReportingOption.pytestHtml]
    includeEnvConfig := true
    includeCI := true
    includeDocker := true }

/-- Whether a character list contains two adjacent hyphens (executable check
used to express "no '--' run" in the slug idempotence property). -/
def hasDoubleHyphen : List Char → Bool
  | a :: b :: cs => (a = '-' && b = '-') || hasDoubleHyphen (b :: cs)
  | _ => false

instance (t h : String) : Decidable (strContains t h) := by
  unfold strContains; infer_instance

/-- The planner suffix list for a TypeScript configuration, abstracted over
the boolean feature guards. -/
def tsShape (ig ui api ci dk : Bool) : List String :=
  rootSuffixes
  ++ ((if ig then gitignoreSuffixes else [])
  ++ (tsBase1Suffixes
  ++ ((if ui then tsUiSrcSuffixes else [])
  ++ (tsTestsSuffixes
  ++ ((if ui then tsUiTestsSuffixes else [])
  ++ ((if api then tsApiTestsSuffixes else [])
  ++ (tsTailSuffixes
  ++ ((if ci then ciSuffixes else [])
  ++ (if dk then dockerSuffixes else [])))))))))

/-- The planner suffix list for a Java configuration, abstracted over the
boolean feature guards and the manifest block chosen by the build tool. -/
def javaShape (ig ui api ci dk : Bool) (mani : List String) : List String :=
  rootSuffixes
  ++ ((if ig then gitignoreSuffixes else [])
  ++ (mani
  ++ (javaBaseSuffixes
  ++ ((if ui then javaUiSuffixes else [])
  ++ ((if api then javaApiSuffixes else [])
  ++ (javaResSuffixes
  ++ ((if ci then ciSuffixes else [])
  ++ (if dk then dockerSuffixes else []))))))))

/-- The planner suffix list for a Python configuration, abstracted over the
boolean feature guards and the optional pyproject block chosen by the build
tool. -/
def pyShape (ig ui api ci dk : Bool) (popt : List String) : List String :=
  rootSuffixes
  ++ ((if ig then gitignoreSuffixes else [])
  ++ (["/requirements.txt"]
  ++ (popt
  ++ (pyBaseSuffixes
  ++ ((if ui then pyUiSrcSuffixes else [])
  ++ (pyTestsSuffixes
  ++ ((if ui then pyUiTestsSuffixes else [])
  ++ ((if api then pyApiTestsSuffixes else [])
  ++ ((if ci then ciSuffixes else [])
  ++ (if dk then dockerSuffixes else []))))))))))

/- ==================================================================
   Proof development.
   ================================================================== -/

lemma charLe_iff {a b : Char} : charLe a b = true ↔ a ≤ b := by
  rw [charLe, decide_eq_true_eq]
  exact Iff.rfl

lemma charListLe_total : ∀ as bs : List Char, charListLe as bs = true ∨ charListLe bs as = true
  | [], bs => Or.inl rfl
  | a :: as, [] => Or.inr rfl
  | a :: as, b :: bs => by
    by_cases hab : a = b
    · subst hab
      simpa [charListLe] using charListLe_total as bs
    · rcases le_total a b with h | h
      · exact Or.inl (by simp [charListLe, hab, charLe_iff, h])
      · exact Or.inr (by simp [charListLe, Ne.symm hab, charLe_iff, h])

lemma charListLe_trans :
    ∀ as bs cs : List Char,
      charListLe as bs = true → charListLe bs cs = true → charListLe as cs = true
  | [], _, _, _, _ => rfl
  | a :: as, [], cs, h1, _ => by simp [charListLe] at h1
  | a :: as, b :: bs, [], _, h2 => by simp [charListLe] at h2
  | a :: as, b :: bs, c :: cs, h1, h2 => by
    by_cases hab : a = b <;> by_cases hbc : b = c
    · subst hab; subst hbc
      simp only [charListLe, if_pos rfl] at h1 h2 ⊢
      exact charListLe_trans as bs cs h1 h2
    · subst hab
      simpa [charListLe, hbc] using h2
    · subst hbc
      simpa [charListLe, hab] using h1
    · rw [charListLe, if_neg hab, charLe_iff] at h1
      rw [charListLe, if_neg hbc, charLe_iff] at h2
      have hac : a ≤ c := le_trans h1 h2
      by_cases h : a = c
      · subst h
        exact absurd (le_antisymm h1 h2) hab
      · simp [charListLe, h, charLe_iff, hac]

instance : IsTrans String strLE :=
  ⟨fun a b c h1 h2 => charListLe_trans a.data b.data c.data h1 h2⟩

instance : IsTotal String strLE :=
  ⟨fun a b => charListLe_total a.data b.data⟩

/-- C10: the includeEnvConfig field has no influence on generation output: two
configurations that differ only in includeEnvConfig produce identical path
lists from generateFolderTree and identical (path, content) lists from
generateFiles. -/
theorem includeEnvConfig_no_influence (c : ProjectConfig) (b : Bool) :
    generateFolderTree { c with includeEnvConfig := b } = generateFolderTree c ∧
    generateFiles { c with includeEnvConfig := b } = generateFiles c :=
  ⟨rfl, rfl⟩

/-- C8: handleLanguageChange sets buildTool, testRunner and reporting to the
first listed valid option of the new language, sets uiFramework
(resp. apiFramework) to the new language's first valid option exactly when
includeUI (resp. includeAPI) is set, and in particular switching to Java
yields maven or gradle, never pnpm. -/
theorem handleLanguageChange_resets_to_first_valid (c : ProjectConfig) (l : Language) :
    (validCombinations l).buildTools.head? = some (handleLanguageChange c l).buildTool
  ∧ (validCombinations l).testRunners.head? = some (handleLanguageChange c l).testRunner
  ∧ (handleLanguageChange c l).reporting = (validCombinations l).reporting.take 1
  ∧ (handleLanguageChange c l).uiFramework
      = (if c.includeUI then (validCombinations l).uiFrameworks.head? else none)
  ∧ (handleLanguageChange c l).apiFramework
      = (if c.includeAPI then (validCombinations l).apiFrameworks.head? else none)
  ∧ (l = Language.java →
      ((handleLanguageChange c l).buildTool = BuildTool.maven ∨
       (handleLanguageChange c l).buildTool = BuildTool.gradle)
      ∧ (handleLanguageChange c l).buildTool ≠ BuildTool.pnpm) := by
  cases l <;>
  · refine ⟨rfl, rfl, rfl, ?_, ?_, ?_⟩
    · cases hu : c.includeUI <;> simp [handleLanguageChange, validCombinations, hu]
    · cases ha : c.includeAPI <;> simp [handleLanguageChange, validCombinations, ha]
    · intro h
      first
      | exact absurd h (by decide)
      | exact ⟨Or.inl rfl, by simp [handleLanguageChange, validCombinations]⟩

/-- C1 (divergence at the failing input): for the valid Java + Gradle
configuration, the Path Planner lists build.gradle (a non-directory path) but
the Content Generator produces no content for it, producing pom.xml instead,
which the Path Planner does not list: the two components diverge. -/
theorem generateFiles_generateFolderTree_divergence_java_gradle :
    ("demo/build.gradle" ∈ generateFolderTree javaGradleConfig
      ∧ endsWithSlash "demo/build.gradle" = false
      ∧ "demo/build.gradle" ∉ (generateFiles javaGradleConfig).map FileEntry.path)
  ∧ ("demo/pom.xml" ∈ (generateFiles javaGradleConfig).map FileEntry.path
      ∧ "demo/pom.xml" ∉ generateFolderTree javaGradleConfig) := by
  decide

/-- C4 (counterexample): the two input lists contain the same paths in
different orders, yet buildTree returns different trees — the node "a" is a
file in one and a folder in the other, because the first processed occurrence
fixes the isFolder flag. -/
theorem buildTree_order_dependent_counterexample :
    (["a", "a/b.txt"] : List String).Perm ["a/b.txt", "a"] ∧
    buildTree ["a", "a/b.txt"] ≠ buildTree ["a/b.txt", "a"] :=
  ⟨by decide, fun h => absurd (congrArg flatForest h) (by decide)⟩

/-- C5 (counterexample): in buildTree ["docs", "docs/guide.md"] the segment
"docs" occurs as a non-final component of the second path, yet its node has
isFolder = false, because the first path inserted it as a file first. -/
theorem buildTree_file_shadows_directory_counterexample :
    flatForest (buildTree ["docs", "docs/guide.md"])
      = [(["docs"], false), (["docs", "guide.md"], false)] := by
  decide

/-- C7: a configuration with includeUI = false and includeAPI = false never
passes validation; the result is a structured error value (never an
exception), and whenever the base object checks pass the error is exactly the
refinement issue attached to the includeUI field. -/
theorem validation_rejects_no_coverage (c : ProjectConfig)
    (hui : c.includeUI = false) (hapi : c.includeAPI = false) :
    (∀ r, validateProjectConfig c ≠ .ok r) ∧
    (baseIssues c = [] →
      validateProjectConfig c
        = .error [⟨["includeUI"], "At least one test type (UI or API) must be selected"⟩]) := by
  unfold validateProjectConfig
  constructor
  · intro r
    by_cases h : baseIssues c = []
    · simp [h, hui, hapi]
    · simp [h]
  · intro h
    simp [h, hui, hapi]

/-- C7 witness: the validation gate at a concrete configuration. -/
theorem validation_rejects_no_coverage_witness :
    noCoverageConfig.includeUI = false ∧ noCoverageConfig.includeAPI = false ∧
    ((∀ r, validateProjectConfig noCoverageConfig ≠ .ok r) ∧
     (baseIssues noCoverageConfig = [] →
       validateProjectConfig noCoverageConfig
         = .error [⟨["includeUI"], "At least one test type (UI or API) must be selected"⟩])) :=
  ⟨rfl, rfl, validation_rejects_no_coverage noCoverageConfig rfl rfl⟩

lemma toLower_eq_self_of_slug {c : Char} (h : isSlugChar c = true) : c.toLower = c := by
  unfold isSlugChar at h
  simp only [Bool.or_eq_true, Bool.and_eq_true, decide_eq_true_eq] at h
  simp only [Char.toLower]
  rw [if_neg]
  rintro ⟨h65, h90⟩
  rcases h with (⟨hlo, h1⟩ | ⟨h2, hhi⟩) | hc
  · have h97 : (97 : Nat) ≤ c.toNat := Char.le_def.mp hlo
    omega
  · have h57 : c.toNat ≤ 57 := Char.le_def.mp hhi
    omega
  · subst hc
    exact absurd h65 (by decide)

lemma map_toLower_eq_self {l : List Char} (h : ∀ c ∈ l, isSlugChar c = true) :
    l.map Char.toLower = l := by
  induction l with
  | nil => rfl
  | cons a l ih =>
    simp only [List.map_cons]
    rw [toLower_eq_self_of_slug (h a (by simp)), ih (fun c hc => h c (by simp [hc]))]

lemma map_replace_eq_self {l : List Char} (h : ∀ c ∈ l, isSlugChar c = true) :
    l.map (fun c => if isSlugChar c then c else '-') = l := by
  induction l with
  | nil => rfl
  | cons a l ih =>
    simp only [List.map_cons]
    rw [if_pos (h a (by simp)), ih (fun c hc => h c (by simp [hc]))]

lemma collapseHyphens_eq_self :
    ∀ l : List Char, hasDoubleHyphen l = false → collapseHyphens l = l
  | [], _ => rfl
  | [_], _ => rfl
  | a :: b :: cs, h => by
    unfold hasDoubleHyphen at h
    simp only [Bool.or_eq_false_iff, Bool.and_eq_false_iff, decide_eq_false_iff_not] at h
    unfold collapseHyphens
    rw [if_neg (by rcases h.1 with h1 | h1 <;> simp [h1]),
      collapseHyphens_eq_self (b :: cs) (by simpa using h.2)]

lemma mem_of_mem_collapseHyphens :
    ∀ {l : List Char} {c : Char}, c ∈ collapseHyphens l → c ∈ l
  | [], _, h => h
  | [_], _, h => h
  | a :: b :: cs, c, h => by
    unfold collapseHyphens at h
    split at h
    · exact List.mem_cons_of_mem a (mem_of_mem_collapseHyphens h)
    · rcases List.mem_cons.mp h with h | h
      · exact h ▸ List.mem_cons_self a _
      · exact List.mem_cons_of_mem a (mem_of_mem_collapseHyphens h)

lemma collapseHyphens_ne_nil : ∀ {l : List Char}, l ≠ [] → collapseHyphens l ≠ []
  | [], h, _ => h rfl
  | [c], _, h => by simp [collapseHyphens] at h
  | a :: b :: cs, _, h => by
    unfold collapseHyphens at h
    split at h
    · exact collapseHyphens_ne_nil (by simp) h
    · simp at h

/-- C6: the project-name normalization of handleNameChange is idempotent on
already-normalized names (nonempty strings of lowercase letters, digits and
hyphens with no double hyphen), its output on any input with at least one
allowed character is nonempty and matches the slug character class, and the
example "My Project!!" normalizes to "my-project-". -/
theorem slug_normalization_spec :
    (∀ s : String, s ≠ "" → (∀ c ∈ s.data, isSlugChar c = true) →
       hasDoubleHyphen s.data = false →
       handleNameChangeSlug s = s)
  ∧ (∀ s : String, (∃ c ∈ s.data, isSlugChar c = true) →
       handleNameChangeSlug s ≠ "" ∧ ∀ c ∈ (handleNameChangeSlug s).data, isSlugChar c = true)
  ∧ handleNameChangeSlug "My Project!!" = "my-project-" := by
  refine ⟨?_, ?_, by decide⟩
  · intro s _ hall hchain
    unfold handleNameChangeSlug replaceDisallowed toLowerCase
    simp only [map_toLower_eq_self hall, map_replace_eq_self hall,
      collapseHyphens_eq_self s.data hchain]
  · intro s hex
    have hne : s.data ≠ [] := by
      rcases hex with ⟨c, hc, _⟩
      exact List.ne_nil_of_mem hc
    constructor
    · unfold handleNameChangeSlug
      intro h
      have hdata := congrArg String.data h
      have hmapne : ((replaceDisallowed (toLowerCase s)).data) ≠ [] := by
        unfold replaceDisallowed toLowerCase
        simpa using hne
      exact collapseHyphens_ne_nil hmapne hdata
    · intro c hc
      unfold handleNameChangeSlug at hc
      have hc' := mem_of_mem_collapseHyphens hc
      unfold replaceDisallowed toLowerCase at hc'
      simp only [List.mem_map] at hc'
      rcases hc' with ⟨d, _, hd⟩
      by_cases h : isSlugChar d = true
      · rw [if_pos h] at hd
        exact hd ▸ h
      · rw [if_neg h] at hd
        exact hd ▸ (by decide)

/-- C6 witness: the slug theorem applied at concrete inputs: "my-project" is
already normalized and maps to itself; "My Project!!" has an allowed
character and its normalization is nonempty and slug-only. -/
theorem slug_normalization_spec_witness :
    handleNameChangeSlug "my-project" = "my-project" ∧
    (handleNameChangeSlug "My Project!!" ≠ "" ∧
      ∀ c ∈ (handleNameChangeSlug "My Project!!").data, isSlugChar c = true) :=
  ⟨slug_normalization_spec.1 "my-project" (by decide) (by decide) (by decide),
   slug_normalization_spec.2.1 "My Project!!" ⟨'y', by decide⟩⟩

lemma infix_append_left' {α : Type} (a : List α) {t b : List α} (h : t <:+: b) :
    t <:+: a ++ b := by
  obtain ⟨s, u, hs⟩ := h
  exact ⟨a ++ s, u, by rw [← hs]; simp [List.append_assoc]⟩

lemma infix_append_right' {α : Type} (b : List α) {t a : List α} (h : t <:+: a) :
    t <:+: a ++ b := by
  obtain ⟨s, u, hs⟩ := h
  exact ⟨s, u ++ b, by rw [← hs]; simp [List.append_assoc]⟩

lemma strContains_append_left (a : String) {t b : String} (h : strContains t b) :
    strContains t (a ++ b) := by
  unfold strContains at h ⊢
  rw [String.data_append]
  exact infix_append_left' a.data h

lemma strContains_append_right (b : String) {t a : String} (h : strContains t a) :
    strContains t (a ++ b) := by
  unfold strContains at h ⊢
  rw [String.data_append]
  exact infix_append_right' b.data h

set_option maxRecDepth 8000 in
/-- C9: for every configuration, the generated CI workflow contains a
test-execution step and an artifact-upload step guarded by `if: always()`, so
the upload runs even when tests fail. -/
theorem workflow_has_test_and_unconditional_upload (c : ProjectConfig) :
    strContains "- name: Run tests" (generateGitHubWorkflow c)
  ∧ strContains "- name: Upload test results\n        if: always()" (generateGitHubWorkflow c) := by
  unfold generateGitHubWorkflow
  cases hl : c.language
  case typescript =>
    rw [if_pos rfl]
    constructor
    · exact strContains_append_right _ (strContains_append_right _
        (strContains_append_left _ (by decide)))
    · exact strContains_append_left _ (by decide)
  case java =>
    rw [if_neg (by decide), if_pos rfl]
    constructor
    · exact strContains_append_right _ (strContains_append_right _
        (strContains_append_left _ (by decide)))
    · exact strContains_append_left _ (by decide)
  case python =>
    rw [if_neg (by decide), if_neg (by decide)]
    exact ⟨by decide, by decide⟩

set_option maxHeartbeats 1000000 in
lemma generateFolderTree_eq (c : ProjectConfig) :
    generateFolderTree c
      = ((treeSuffixes c).map (fun s => c.projectName ++ s)).insertionSort strLE := by
  obtain ⟨pn, ds, au, ig, ui, api, lang, bt, uif, apif, tr, rep, env, ci, dk⟩ := c
  simp only [generateFolderTree, treeSuffixes, rootSuffixes, gitignoreSuffixes,
    tsBase1Suffixes, tsUiSrcSuffixes, tsTestsSuffixes, tsUiTestsSuffixes,
    tsApiTestsSuffixes, tsTailSuffixes, javaBaseSuffixes, javaUiSuffixes,
    javaApiSuffixes, javaResSuffixes, pyBaseSuffixes, pyUiSrcSuffixes,
    pyTestsSuffixes, pyUiTestsSuffixes, pyApiTestsSuffixes, ciSuffixes,
    dockerSuffixes, List.map_append, List.map_cons, List.map_nil,
    apply_ite (List.map (fun s : String => pn ++ s)), List.append_assoc]

lemma ite_sublist_right {P : Prop} [Decidable P] (X : List String) :
    List.Sublist (if P then X else []) X := by
  split
  · exact List.Sublist.refl X
  · exact List.nil_sublist X

set_option maxHeartbeats 1000000 in
lemma treeSuffixes_sublist (c : ProjectConfig) :
    List.Sublist (treeSuffixes c) (fullSuffixes c.language) := by
  obtain ⟨pn, ds, au, ig, ui, api, lang, bt, uif, apif, tr, rep, env, ci, dk⟩ := c
  cases lang
  case typescript =>
    simp [treeSuffixes, fullSuffixes, List.append_assoc]
    repeat' refine List.Sublist.append ?_ ?_
    all_goals
      first
      | exact List.Sublist.refl _
      | exact ite_sublist_right _
  case java =>
    simp [treeSuffixes, fullSuffixes, List.append_assoc]
    refine List.Sublist.append (ite_sublist_right _) ?_
    by_cases hbt : bt = BuildTool.maven
    · rw [if_pos hbt]
      refine List.Sublist.cons₂ _ ?_
      refine List.Sublist.cons _ ?_
      refine List.Sublist.cons _ ?_
      try simp only [List.append_eq, List.nil_append]
      repeat' refine List.Sublist.append ?_ ?_
      all_goals
        first
        | exact List.Sublist.refl _
        | exact ite_sublist_right _
    · rw [if_neg hbt]
      refine List.Sublist.cons _ ?_
      refine List.Sublist.cons₂ _ ?_
      refine List.Sublist.cons₂ _ ?_
      try simp only [List.append_eq, List.nil_append]
      repeat' refine List.Sublist.append ?_ ?_
      all_goals
        first
        | exact List.Sublist.refl _
        | exact ite_sublist_right _
  case python =>
    simp [treeSuffixes, fullSuffixes, List.append_assoc]
    refine List.Sublist.append (ite_sublist_right _) ?_
    refine List.Sublist.cons₂ _ ?_
    by_cases hbt : bt = BuildTool.poetry
    · rw [if_pos hbt]
      refine List.Sublist.cons₂ _ ?_
      try simp only [List.append_eq, List.nil_append]
      repeat' refine List.Sublist.append ?_ ?_
      all_goals
        first
        | exact List.Sublist.refl _
        | exact ite_sublist_right _
    · rw [if_neg hbt]
      try simp only [List.append_eq, List.nil_append]
      refine List.Sublist.cons _ ?_
      repeat' refine List.Sublist.append ?_ ?_
      all_goals
        first
        | exact List.Sublist.refl _
        | exact ite_sublist_right _

lemma fullSuffixes_nodup (l : Language) : (fullSuffixes l).Nodup := by
  cases l <;> decide

lemma treeSuffixes_nodup (c : ProjectConfig) : (treeSuffixes c).Nodup :=
  List.Nodup.sublist (treeSuffixes_sublist c) (fullSuffixes_nodup c.language)

lemma string_append_left_cancel {p a b : String} (h : p ++ a = p ++ b) : a = b := by
  apply String.ext
  have hd := congrArg String.data h
  rw [String.data_append, String.data_append] at hd
  exact List.append_cancel_left hd

/-- C2: for every configuration, the path list returned by generateFolderTree
is sorted lexicographically and contains no duplicate entries. -/
theorem planPaths_sorted_nodup (c : ProjectConfig) :
    List.Sorted strLE (generateFolderTree c) ∧ (generateFolderTree c).Nodup := by
  constructor
  · rw [generateFolderTree_eq]
    exact List.sorted_insertionSort strLE _
  · rw [generateFolderTree_eq]
    refine ((List.perm_insertionSort strLE _).nodup_iff).mpr ?_
    exact List.Nodup.map (fun a b hab => string_append_left_cancel hab) (treeSuffixes_nodup c)

lemma treeSuffixes_ts (c : ProjectConfig) (h : c.language = Language.typescript) :
    treeSuffixes c = tsShape c.initGit c.includeUI c.includeAPI c.includeCI c.includeDocker := by
  simp [treeSuffixes, tsShape, h, List.append_assoc]

lemma treeSuffixes_java (c : ProjectConfig) (h : c.language = Language.java) :
    treeSuffixes c
      = javaShape c.initGit c.includeUI c.includeAPI c.includeCI c.includeDocker
          (if c.buildTool = BuildTool.maven then ["/pom.xml"]
           else ["/build.gradle", "/settings.gradle"]) := by
  simp [treeSuffixes, javaShape, h, List.append_assoc]

lemma treeSuffixes_py (c : ProjectConfig) (h : c.language = Language.python) :
    treeSuffixes c
      = pyShape c.initGit c.includeUI c.includeAPI c.includeCI c.includeDocker
          (if c.buildTool = BuildTool.poetry then ["/pyproject.toml"] else []) := by
  simp [treeSuffixes, pyShape, h, List.append_assoc]

lemma anc_tsShape (ig ui api ci dk : Bool) :
    ancClosed (tsShape ig ui api ci dk) (tsShape ig ui api ci dk) := by
  cases ig <;> cases ui <;> cases api <;> cases ci <;> cases dk <;> decide

lemma anc_javaShape (ig ui api ci dk : Bool) (mani : List String)
    (hm : mani = ["/pom.xml"] ∨ mani = ["/build.gradle", "/settings.gradle"]) :
    ancClosed (javaShape ig ui api ci dk mani) (javaShape ig ui api ci dk mani) := by
  rcases hm with rfl | rfl <;>
    cases ig <;> cases ui <;> cases api <;> cases ci <;> cases dk <;> decide

lemma anc_pyShape (ig ui api ci dk : Bool) (popt : List String)
    (hm : popt = ["/pyproject.toml"] ∨ popt = []) :
    ancClosed (pyShape ig ui api ci dk popt) (pyShape ig ui api ci dk popt) := by
  rcases hm with rfl | rfl <;>
    cases ig <;> cases ui <;> cases api <;> cases ci <;> cases dk <;> decide

lemma treeSuffixes_ancClosed (c : ProjectConfig) :
    ancClosed (treeSuffixes c) (treeSuffixes c) := by
  cases hl : c.language
  case typescript =>
    rw [treeSuffixes_ts c hl]
    exact anc_tsShape _ _ _ _ _
  case java =>
    rw [treeSuffixes_java c hl]
    refine anc_javaShape _ _ _ _ _ _ ?_
    by_cases hb : c.buildTool = BuildTool.maven
    · exact Or.inl (if_pos hb)
    · exact Or.inr (if_neg hb)
  case python =>
    rw [treeSuffixes_py c hl]
    refine anc_pyShape _ _ _ _ _ _ ?_
    by_cases hb : c.buildTool = BuildTool.poetry
    · exact Or.inl (if_pos hb)
    · exact Or.inr (if_neg hb)

lemma prefix_append_split {α : Type} (a b t : List α) (h : t <+: a ++ b) :
    t <+: a ∨ ∃ u, u <+: b ∧ t = a ++ u := by
  induction a generalizing t with
  | nil => exact Or.inr ⟨t, h, rfl⟩
  | cons x a ih =>
    cases t with
    | nil => exact Or.inl List.nil_prefix
    | cons y t =>
      rw [List.cons_append] at h
      rcases List.cons_prefix_cons.1 h with ⟨rfl, h2⟩
      rcases ih t h2 with h3 | ⟨u, hu, rfl⟩
      · exact Or.inl (List.cons_prefix_cons.2 ⟨rfl, h3⟩)
      · exact Or.inr ⟨u, hu, rfl⟩

lemma mem_of_getLastQ {α : Type} : ∀ {l : List α} {a : α}, l.getLast? = some a → a ∈ l := by
  intro l
  induction l with
  | nil => intro a h; simp [List.getLast?] at h
  | cons x xs ih =>
    intro a h
    cases xs with
    | nil =>
      simp [List.getLast?] at h
      simp [h]
    | cons y ys =>
      rw [List.getLast?_cons_cons] at h
      exact List.mem_cons_of_mem _ (ih h)

lemma ancClosed_congr {P Q S T : List String} (hP : ∀ x ∈ Q, x ∈ P)
    (hS : ∀ x ∈ S, x ∈ T) (h : ancClosed P S) : ancClosed Q T :=
  fun s hs t ht hne hl => hS _ (h s (hP s hs) t ht hne hl)

lemma ancClosed_map_prefix (pn : String) (hpn : ∀ ch ∈ pn.data, isSlugChar ch = true)
    (L : List String) (h : ancClosed L L) :
    ancClosed (L.map (fun s => pn ++ s)) (L.map (fun s => pn ++ s)) := by
  intro s hs t ht hne hl
  rcases List.mem_map.1 hs with ⟨l, hlL, rfl⟩
  have ht' : t <+: pn.data ++ l.data := by
    have h2 := (List.mem_inits t _).1 ht
    rwa [String.data_append] at h2
  have hslash : ¬ ('/' ∈ pn.data) := by
    intro hc
    have h3 := hpn '/' hc
    simp [isSlugChar] at h3
  rcases prefix_append_split pn.data l.data t ht' with hcase | ⟨u, hu, rfl⟩
  · exact absurd (hcase.sublist.subset (mem_of_getLastQ hl)) hslash
  · rw [List.getLast?_append] at hl
    cases hu0 : u.getLast? with
    | none =>
      rw [hu0] at hl
      have h2 : pn.data.getLast? = some '/' := hl
      exact absurd (mem_of_getLastQ h2) hslash
    | some ch =>
      rw [hu0] at hl
      have h2 : (some ch : Option Char) = some '/' := hl
      have hch : ch = '/' := Option.some.inj h2
      subst hch
      have hune : u ≠ [] := by
        rintro rfl
        simp at hu0
      have hmem : String.mk u ∈ L :=
        h l hlL u ((List.mem_inits u l.data).2 hu) hune hu0
      refine List.mem_map.2 ⟨String.mk u, hmem, ?_⟩
      apply String.ext
      simp [String.data_append]

lemma slug_of_validate_ok (c : ProjectConfig)
    (h : validateProjectConfig c = Except.ok c) :
    ∀ ch ∈ c.projectName.data, isSlugChar ch = true := by
  unfold validateProjectConfig at h
  by_cases hb : baseIssues c ≠ []
  · rw [if_pos hb] at h
    exact absurd h (by simp)
  · push_neg at hb
    have hpn : projectNameIssues c.projectName = [] := by
      have h1 := (List.append_eq_nil.1 hb).1
      exact (List.append_eq_nil.1 h1).1
    unfold projectNameIssues at hpn
    have h3 := (List.append_eq_nil.1 hpn).2
    by_cases hc : ¬ (c.projectName.data ≠ [] ∧ c.projectName.data.all isSlugChar)
    · rw [if_pos hc] at h3
      exact absurd h3 (by simp)
    · rcases not_not.1 hc with ⟨_, hall⟩
      intro ch hch
      have h4 := List.all_eq_true.1 hall ch hch
      simpa using h4

/-- C3: for every configuration accepted by the validator, every path in the
planner output has each of its directory-marker ancestors (every nonempty
prefix ending in a slash) also present in the output; no entry is orphaned. -/
theorem planPaths_no_orphans (c : ProjectConfig)
    (hv : validateProjectConfig c = Except.ok c) :
    ancClosed (generateFolderTree c) (generateFolderTree c) := by
  have hpn := slug_of_validate_ok c hv
  have hmap := ancClosed_map_prefix c.projectName hpn (treeSuffixes c) (treeSuffixes_ancClosed c)
  rw [generateFolderTree_eq]
  exact ancClosed_congr
    (fun x hx => (List.perm_insertionSort strLE _).mem_iff.1 hx)
    (fun x hx => (List.perm_insertionSort strLE _).mem_iff.2 hx)
    hmap

/-- C3 witness: the no-orphans theorem applied to the concrete Python demo
configuration, whose validation hypothesis holds by computation. -/
theorem planPaths_no_orphans_witness :
    validateProjectConfig pyDemoConfig = Except.ok pyDemoConfig ∧
      ancClosed (generateFolderTree pyDemoConfig) (generateFolderTree pyDemoConfig) :=
  ⟨rfl, planPaths_no_orphans pyDemoConfig rfl⟩

lemma nodeLeBy_total (lc : String → String → Bool)
    (htot : ∀ a b, lc a b = true ∨ lc b a = true) :
    ∀ a b, nodeLEBy lc a b ∨ nodeLEBy lc b a := by
  intro a b
  unfold nodeLEBy nodeLeBy
  cases ha : a.isFolder <;> cases hb : b.isFolder <;> simp [ha, hb]
  · exact htot _ _
  · exact htot _ _

lemma nodeLeBy_trans (lc : String → String → Bool)
    (htrans : ∀ a b c, lc a b = true → lc b c = true → lc a c = true) :
    ∀ a b c, nodeLEBy lc a b → nodeLEBy lc b c → nodeLEBy lc a c := by
  intro a b c hab hbc
  unfold nodeLEBy nodeLeBy at hab hbc ⊢
  cases ha : a.isFolder <;> cases hb : b.isFolder <;> cases hc : c.isFolder <;>
      simp [ha, hb, hc] at hab hbc ⊢ <;>
    exact htrans _ _ _ hab hbc

lemma mem_mapSortTreeBy {lc : String → String → Bool} {ts : List TreeNode} {x : TreeNode} :
    x ∈ mapSortTreeBy lc ts ↔ ∃ t ∈ ts, x = sortTreeBy lc t := by
  induction ts with
  | nil => simp [mapSortTreeBy]
  | cons t ts ih => simp [mapSortTreeBy, ih]

lemma wellSortedBy_sortTreeBy (lc : String → String → Bool)
    (htot : ∀ a b, lc a b = true ∨ lc b a = true)
    (htrans : ∀ a b c, lc a b = true → lc b c = true → lc a c = true) :
    ∀ (k : Nat) (t : TreeNode), sizeOf t ≤ k → WellSortedBy lc (sortTreeBy lc t) := by
  haveI : IsTotal TreeNode (nodeLEBy lc) := ⟨nodeLeBy_total lc htot⟩
  haveI : IsTrans TreeNode (nodeLEBy lc) := ⟨nodeLeBy_trans lc htrans⟩
  intro k
  induction k with
  | zero =>
    intro t h
    cases t with
    | mk n f cs =>
      rw [TreeNode.mk.sizeOf_spec] at h
      omega
  | succ k ih =>
    intro t h
    cases t with
    | mk n f cs =>
      rw [TreeNode.mk.sizeOf_spec] at h
      have hs : sortTreeBy lc (TreeNode.mk n f cs)
          = TreeNode.mk n f ((mapSortTreeBy lc cs).insertionSort (nodeLEBy lc)) := rfl
      rw [hs]
      refine WellSortedBy.intro n f _ (List.sorted_insertionSort (nodeLEBy lc) _) ?_
      intro c hc
      have hc2 : c ∈ mapSortTreeBy lc cs :=
        (List.perm_insertionSort (nodeLEBy lc) (mapSortTreeBy lc cs)).mem_iff.1 hc
      rcases mem_mapSortTreeBy.1 hc2 with ⟨d, hd, rfl⟩
      refine ih d ?_
      have h1 := List.sizeOf_lt_of_mem hd
      omega

/-- C4 (amended): for every total and transitive name order `lc` — the order
realized by the host's `localeCompare`, whatever the runtime locale's
collation, is one — the forest built by buildTree is sorted at the top level
by the folders-first, then `lc`-on-names comparator, and every node's subtree
is sorted the same way at every level.  (The set-purity half of the original
claim is refuted by `buildTree_order_dependent_counterexample`: a node's
isFolder flag depends on which path created it first, independently of the
comparator.) -/
theorem buildTree_ordering (paths : List String) (lc : String → String → Bool)
    (htot : ∀ a b, lc a b = true ∨ lc b a = true)
    (htrans : ∀ a b c, lc a b = true → lc b c = true → lc a c = true) :
    List.Sorted (nodeLEBy lc) (buildTreeBy lc paths)
      ∧ ∀ n ∈ buildTreeBy lc paths, WellSortedBy lc n := by
  haveI : IsTotal TreeNode (nodeLEBy lc) := ⟨nodeLeBy_total lc htot⟩
  haveI : IsTrans TreeNode (nodeLEBy lc) := ⟨nodeLeBy_trans lc htrans⟩
  constructor
  · unfold buildTreeBy sortForestBy
    exact List.sorted_insertionSort (nodeLEBy lc) _
  · intro n hn
    unfold buildTreeBy sortForestBy at hn
    have h1 := (List.perm_insertionSort (nodeLEBy lc) _).mem_iff.1 hn
    rcases mem_mapSortTreeBy.1 h1 with ⟨d, hd, rfl⟩
    exact wellSortedBy_sortTreeBy lc htot htrans (sizeOf d) d le_rfl

/-- C4 witness: the ordering theorem applied to a concrete path list with the
code-point name order, whose totality and transitivity hypotheses are
discharged by the `strLE` order instances. -/
theorem buildTree_ordering_witness :
    (∀ a b : String, strLe a b = true ∨ strLe b a = true)
    ∧ (∀ a b c : String, strLe a b = true → strLe b c = true → strLe a c = true)
    ∧ (List.Sorted (nodeLEBy strLe) (buildTreeBy strLe ["p/b.txt", "p/a/", "p/a/x.txt"])
        ∧ ∀ n ∈ buildTreeBy strLe ["p/b.txt", "p/a/", "p/a/x.txt"], WellSortedBy strLe n) :=
  ⟨fun a b => IsTotal.total (r := strLE) a b,
   fun a b c hab hbc => IsTrans.trans (r := strLE) a b c hab hbc,
   buildTree_ordering ["p/b.txt", "p/a/", "p/a/x.txt"] strLe
     (fun a b => IsTotal.total (r := strLE) a b)
     (fun a b c hab hbc => IsTrans.trans (r := strLE) a b c hab hbc)⟩

lemma head_mem_flatTree (t : TreeNode) : ([t.name], t.isFolder) ∈ flatTree t := by
  cases t with
  | mk n f cs => simp [flatTree, TreeNode.name, TreeNode.isFolder]

lemma mem_flatForest_of_mem {F : List TreeNode} {t : TreeNode} {x : List String × Bool}
    (ht : t ∈ F) (hx : x ∈ flatTree t) : x ∈ flatForest F := by
  induction F with
  | nil => cases ht
  | cons s F ih =>
    rw [show flatForest (s :: F) = flatTree s ++ flatForest F from rfl]
    rcases List.mem_cons.1 ht with rfl | ht2
    · exact List.mem_append_left _ hx
    · exact List.mem_append_right _ (ih ht2)

lemma flat_insertHere {p : String} {isF : Bool} {rec : List TreeNode → List TreeNode} :
    ∀ {F : List TreeNode} {x : List String × Bool},
      x ∈ flatForest (insertHere p isF rec F) →
      x ∈ flatForest F ∨ x = ([p], isF)
        ∨ ∃ q b cs, x = (p :: q, b) ∧ (q, b) ∈ flatForest (rec cs)
            ∧ (cs = [] ∨ ∃ f0, TreeNode.mk p f0 cs ∈ F) := by
  intro F
  induction F with
  | nil =>
    intro x hx
    simp only [insertHere, flatForest, flatTree, List.append_nil, List.mem_cons,
      List.mem_map] at hx
    rcases hx with rfl | ⟨q, hq, rfl⟩
    · exact Or.inr (Or.inl rfl)
    · exact Or.inr (Or.inr ⟨q.1, q.2, [], rfl, hq, Or.inl rfl⟩)
  | cons n F ih =>
    intro x hx
    cases n with
    | mk nn nf nc =>
      by_cases hn : nn = p
      · subst hn
        have he : insertHere nn isF rec (TreeNode.mk nn nf nc :: F)
            = TreeNode.mk nn nf (rec nc) :: F := by
          simp [insertHere, TreeNode.name, TreeNode.isFolder, TreeNode.children]
        rw [he] at hx
        rw [show flatForest (TreeNode.mk nn nf (rec nc) :: F)
            = flatTree (TreeNode.mk nn nf (rec nc)) ++ flatForest F from rfl] at hx
        rcases List.mem_append.1 hx with hx1 | hx2
        · rw [show flatTree (TreeNode.mk nn nf (rec nc))
              = ([nn], nf) :: (flatForest (rec nc)).map (fun r => (nn :: r.1, r.2)) from rfl] at hx1
          rcases List.mem_cons.1 hx1 with rfl | hx3
          · left
            exact mem_flatForest_of_mem (List.mem_cons_self _ _) (by simp [flatTree])
          · rcases List.mem_map.1 hx3 with ⟨r, hr, rfl⟩
            exact Or.inr (Or.inr ⟨r.1, r.2, nc, rfl, hr, Or.inr ⟨nf, List.mem_cons_self _ _⟩⟩)
        · left
          rw [show flatForest (TreeNode.mk nn nf nc :: F)
              = flatTree (TreeNode.mk nn nf nc) ++ flatForest F from rfl]
          exact List.mem_append_right _ hx2
      · have he : insertHere p isF rec (TreeNode.mk nn nf nc :: F)
            = TreeNode.mk nn nf nc :: insertHere p isF rec F := by
          simp [insertHere, TreeNode.name, hn]
        rw [he] at hx
        rw [show flatForest (TreeNode.mk nn nf nc :: insertHere p isF rec F)
            = flatTree (TreeNode.mk nn nf nc) ++ flatForest (insertHere p isF rec F) from rfl] at hx
        rcases List.mem_append.1 hx with hx1 | hx2
        · left
          rw [show flatForest (TreeNode.mk nn nf nc :: F)
              = flatTree (TreeNode.mk nn nf nc) ++ flatForest F from rfl]
          exact List.mem_append_left _ hx1
        · rcases ih hx2 with h1 | h2 | ⟨q, b, cs, hxe, hq, hcs⟩
          · left
            rw [show flatForest (TreeNode.mk nn nf nc :: F)
                = flatTree (TreeNode.mk nn nf nc) ++ flatForest F from rfl]
            exact List.mem_append_right _ h1
          · exact Or.inr (Or.inl h2)
          · refine Or.inr (Or.inr ⟨q, b, cs, hxe, hq, ?_⟩)
            rcases hcs with rfl | ⟨f0, hf0⟩
            · exact Or.inl rfl
            · exact Or.inr ⟨f0, List.mem_cons_of_mem _ hf0⟩

lemma flat_insertHere_head (p : String) (isF : Bool) (rec : List TreeNode → List TreeNode) :
    ∀ (F : List TreeNode), ∃ f, ([p], f) ∈ flatForest (insertHere p isF rec F) := by
  intro F
  induction F with
  | nil =>
    refine ⟨isF, ?_⟩
    rw [show insertHere p isF rec [] = [TreeNode.mk p isF (rec [])] from rfl]
    rw [show flatForest [TreeNode.mk p isF (rec [])]
        = flatTree (TreeNode.mk p isF (rec [])) ++ flatForest ([] : List TreeNode) from rfl]
    refine List.mem_append_left _ ?_
    rw [show flatTree (TreeNode.mk p isF (rec []))
        = ([p], isF) :: (flatForest (rec [])).map (fun r => (p :: r.1, r.2)) from rfl]
    exact List.mem_cons_self _ _
  | cons n F ih =>
    cases n with
    | mk nn nf nc =>
      by_cases hn : nn = p
      · subst hn
        refine ⟨nf, ?_⟩
        have he : insertHere nn isF rec (TreeNode.mk nn nf nc :: F)
            = TreeNode.mk nn nf (rec nc) :: F := by
          simp [insertHere, TreeNode.name, TreeNode.isFolder, TreeNode.children]
        rw [he]
        rw [show flatForest (TreeNode.mk nn nf (rec nc) :: F)
            = flatTree (TreeNode.mk nn nf (rec nc)) ++ flatForest F from rfl]
        refine List.mem_append_left _ ?_
        rw [show flatTree (TreeNode.mk nn nf (rec nc))
            = ([nn], nf) :: (flatForest (rec nc)).map (fun r => (nn :: r.1, r.2)) from rfl]
        exact List.mem_cons_self _ _
      · rcases ih with ⟨f, hf⟩
        refine ⟨f, ?_⟩
        have he : insertHere p isF rec (TreeNode.mk nn nf nc :: F)
            = TreeNode.mk nn nf nc :: insertHere p isF rec F := by
          simp [insertHere, TreeNode.name, hn]
        rw [he]
        rw [show flatForest (TreeNode.mk nn nf nc :: insertHere p isF rec F)
            = flatTree (TreeNode.mk nn nf nc) ++ flatForest (insertHere p isF rec F) from rfl]
        exact List.mem_append_right _ hf

lemma flat_insertHere_descend {p : String} {isF : Bool} {rec : List TreeNode → List TreeNode}
    {q : List String} (hrec : ∀ cs, ∃ b, (q, b) ∈ flatForest (rec cs)) :
    ∀ (F : List TreeNode), ∃ b, (p :: q, b) ∈ flatForest (insertHere p isF rec F) := by
  intro F
  induction F with
  | nil =>
    rcases hrec [] with ⟨b, hb⟩
    refine ⟨b, ?_⟩
    rw [show insertHere p isF rec [] = [TreeNode.mk p isF (rec [])] from rfl]
    rw [show flatForest [TreeNode.mk p isF (rec [])]
        = flatTree (TreeNode.mk p isF (rec [])) ++ flatForest ([] : List TreeNode) from rfl]
    refine List.mem_append_left _ ?_
    rw [show flatTree (TreeNode.mk p isF (rec []))
        = ([p], isF) :: (flatForest (rec [])).map (fun r => (p :: r.1, r.2)) from rfl]
    exact List.mem_cons_of_mem _ (List.mem_map.2 ⟨(q, b), hb, rfl⟩)
  | cons n F ih =>
    cases n with
    | mk nn nf nc =>
      by_cases hn : nn = p
      · subst hn
        rcases hrec nc with ⟨b, hb⟩
        refine ⟨b, ?_⟩
        have he : insertHere nn isF rec (TreeNode.mk nn nf nc :: F)
            = TreeNode.mk nn nf (rec nc) :: F := by
          simp [insertHere, TreeNode.name, TreeNode.isFolder, TreeNode.children]
        rw [he]
        rw [show flatForest (TreeNode.mk nn nf (rec nc) :: F)
            = flatTree (TreeNode.mk nn nf (rec nc)) ++ flatForest F from rfl]
        refine List.mem_append_left _ ?_
        rw [show flatTree (TreeNode.mk nn nf (rec nc))
            = ([nn], nf) :: (flatForest (rec nc)).map (fun r => (nn :: r.1, r.2)) from rfl]
        exact List.mem_cons_of_mem _ (List.mem_map.2 ⟨(q, b), hb, rfl⟩)
      · rcases ih with ⟨b, hb⟩
        refine ⟨b, ?_⟩
        have he : insertHere p isF rec (TreeNode.mk nn nf nc :: F)
            = TreeNode.mk nn nf nc :: insertHere p isF rec F := by
          simp [insertHere, TreeNode.name, hn]
        rw [he]
        rw [show flatForest (TreeNode.mk nn nf nc :: insertHere p isF rec F)
            = flatTree (TreeNode.mk nn nf nc) ++ flatForest (insertHere p isF rec F) from rfl]
        exact List.mem_append_right _ hb

lemma flat_insertHere_preserve {p : String} {isF : Bool} {rec : List TreeNode → List TreeNode}
    (hrec : ∀ cs x, x ∈ flatForest cs → x ∈ flatForest (rec cs)) :
    ∀ {F : List TreeNode} {x : List String × Bool},
      x ∈ flatForest F → x ∈ flatForest (insertHere p isF rec F) := by
  intro F
  induction F with
  | nil =>
    intro x hx
    rw [show flatForest ([] : List TreeNode) = [] from rfl] at hx
    exact absurd hx (List.not_mem_nil x)
  | cons n F ih =>
    intro x hx
    cases n with
    | mk nn nf nc =>
      rw [show flatForest (TreeNode.mk nn nf nc :: F)
          = flatTree (TreeNode.mk nn nf nc) ++ flatForest F from rfl] at hx
      by_cases hn : nn = p
      · subst hn
        have he : insertHere nn isF rec (TreeNode.mk nn nf nc :: F)
            = TreeNode.mk nn nf (rec nc) :: F := by
          simp [insertHere, TreeNode.name, TreeNode.isFolder, TreeNode.children]
        rw [he]
        rw [show flatForest (TreeNode.mk nn nf (rec nc) :: F)
            = flatTree (TreeNode.mk nn nf (rec nc)) ++ flatForest F from rfl]
        rcases List.mem_append.1 hx with hx1 | hx2
        · refine List.mem_append_left _ ?_
          rw [show flatTree (TreeNode.mk nn nf nc)
              = ([nn], nf) :: (flatForest nc).map (fun r => (nn :: r.1, r.2)) from rfl] at hx1
          rw [show flatTree (TreeNode.mk nn nf (rec nc))
              = ([nn], nf) :: (flatForest (rec nc)).map (fun r => (nn :: r.1, r.2)) from rfl]
          rcases List.mem_cons.1 hx1 with rfl | hx3
          · exact List.mem_cons_self _ _
          · rcases List.mem_map.1 hx3 with ⟨r, hr, rfl⟩
            exact List.mem_cons_of_mem _ (List.mem_map.2 ⟨r, hrec nc r hr, rfl⟩)
        · exact List.mem_append_right _ hx2
      · have he : insertHere p isF rec (TreeNode.mk nn nf nc :: F)
            = TreeNode.mk nn nf nc :: insertHere p isF rec F := by
          simp [insertHere, TreeNode.name, hn]
        rw [he]
        rw [show flatForest (TreeNode.mk nn nf nc :: insertHere p isF rec F)
            = flatTree (TreeNode.mk nn nf nc) ++ flatForest (insertHere p isF rec F) from rfl]
        rcases List.mem_append.1 hx with hx1 | hx2
        · exact List.mem_append_left _ hx1
        · exact List.mem_append_right _ (ih hx2)

lemma flat_insertParts_preserve :
    ∀ (parts : List String) (slash : Bool) (F : List TreeNode) (x : List String × Bool),
      x ∈ flatForest F → x ∈ flatForest (insertParts parts slash F) := by
  intro parts
  induction parts with
  | nil => intro slash F x hx; exact hx
  | cons p rest ih =>
    intro slash F x hx
    exact flat_insertHere_preserve (fun cs y hy => ih slash cs y hy) hx

lemma flat_insertParts_exists :
    ∀ (parts : List String) (slash : Bool) (F : List TreeNode) (π : List String),
      π ≠ [] → π <+: parts → ∃ b, (π, b) ∈ flatForest (insertParts parts slash F) := by
  intro parts
  induction parts with
  | nil =>
    intro slash F π hne hpre
    exact absurd (List.prefix_nil.1 hpre) hne
  | cons p rest ih =>
    intro slash F π hne hpre
    cases π with
    | nil => exact absurd rfl hne
    | cons a π' =>
      rcases List.cons_prefix_cons.1 hpre with ⟨rfl, hpre'⟩
      cases π' with
      | nil =>
        exact flat_insertHere_head a (decide (rest ≠ []) || slash) (insertParts rest slash) F
      | cons b' π'' =>
        exact flat_insertHere_descend
          (fun cs => ih slash cs (b' :: π'') (by simp) hpre') F

lemma flat_insertParts_false :
    ∀ (parts : List String) (slash : Bool) (F : List TreeNode) (π : List String),
      (π, false) ∈ flatForest (insertParts parts slash F) →
      (π, false) ∈ flatForest F ∨ (π = parts ∧ slash = false) := by
  intro parts
  induction parts with
  | nil => intro slash F π h; exact Or.inl h
  | cons p rest ih =>
    intro slash F π h
    have h' : (π, false)
        ∈ flatForest (insertHere p (decide (rest ≠ []) || slash) (insertParts rest slash) F) := h
    rcases flat_insertHere h' with h1 | h2 | ⟨q, b, cs, hxe, hq, hcs⟩
    · exact Or.inl h1
    · rw [Prod.mk.injEq] at h2
      obtain ⟨hπ, hflag⟩ := h2
      have hrest : rest = [] ∧ slash = false := by
        rcases Bool.or_eq_false_iff.1 hflag.symm with ⟨h3, h4⟩
        refine ⟨?_, h4⟩
        have h5 := of_decide_eq_false h3
        exact not_not.1 h5
      exact Or.inr ⟨by rw [hπ, hrest.1], hrest.2⟩
    · rw [Prod.mk.injEq] at hxe
      obtain ⟨hπ, hb⟩ := hxe
      subst hb
      rcases ih slash cs q hq with h5 | ⟨h6, h7⟩
      · rcases hcs with rfl | ⟨f0, hf0⟩
        · rw [show flatForest ([] : List TreeNode) = [] from rfl] at h5
          exact absurd h5 (List.not_mem_nil _)
        · left
          rw [hπ]
          refine mem_flatForest_of_mem hf0 ?_
          rw [show flatTree (TreeNode.mk p f0 cs)
              = ([p], f0) :: (flatForest cs).map (fun r => (p :: r.1, r.2)) from rfl]
          exact List.mem_cons_of_mem _ (List.mem_map.2 ⟨(q, false), h5, rfl⟩)
      · exact Or.inr ⟨by rw [hπ, h6], h7⟩

lemma flat_foldl_preserve :
    ∀ (ps : List String) (F : List TreeNode) (x : List String × Bool),
      x ∈ flatForest F →
      x ∈ flatForest (ps.foldl
        (fun root path =>
          insertParts ((splitSlash path).filter (fun part => part ≠ "")) (endsWithSlash path) root)
        F) := by
  intro ps
  induction ps with
  | nil => intro F x hx; exact hx
  | cons p ps ih =>
    intro F x hx
    exact ih _ x (flat_insertParts_preserve _ _ F x hx)

lemma flat_foldl_exists :
    ∀ (ps : List String) (F : List TreeNode) (q : String) (π : List String),
      q ∈ ps → π ≠ [] → π <+: pathParts q →
      ∃ b, (π, b) ∈ flatForest (ps.foldl
        (fun root path =>
          insertParts ((splitSlash path).filter (fun part => part ≠ "")) (endsWithSlash path) root)
        F) := by
  intro ps
  induction ps with
  | nil => intro F q π hq; cases hq
  | cons p ps ih =>
    intro F q π hq hne hpre
    rcases List.mem_cons.1 hq with rfl | hq2
    · rcases flat_insertParts_exists (pathParts q) (endsWithSlash q) F π hne hpre with ⟨b, hb⟩
      exact ⟨b, flat_foldl_preserve ps _ _ hb⟩
    · exact ih _ q π hq2 hne hpre

lemma flat_foldl_false :
    ∀ (ps : List String) (F : List TreeNode) (π : List String),
      (π, false) ∈ flatForest (ps.foldl
        (fun root path =>
          insertParts ((splitSlash path).filter (fun part => part ≠ "")) (endsWithSlash path) root)
        F) →
      (π, false) ∈ flatForest F ∨ ∃ p ∈ ps, endsWithSlash p = false ∧ pathParts p = π := by
  intro ps
  induction ps with
  | nil => intro F π h; exact Or.inl h
  | cons p ps ih =>
    intro F π h
    rcases ih _ π h with h1 | ⟨r, hr, hs⟩
    · rcases flat_insertParts_false (pathParts p) (endsWithSlash p) F π h1 with h2 | ⟨h3, h4⟩
      · exact Or.inl h2
      · exact Or.inr ⟨p, List.mem_cons_self _ _, h4, h3.symm⟩
    · exact Or.inr ⟨r, List.mem_cons_of_mem _ hr, hs⟩

lemma mem_flatForest_perm {F G : List TreeNode} (h : F.Perm G) (x : List String × Bool) :
    x ∈ flatForest F ↔ x ∈ flatForest G := by
  induction h with
  | nil => exact Iff.rfl
  | cons t htl ih => simp only [flatForest, List.mem_append, ih]
  | swap a b l =>
    simp only [flatForest, List.mem_append]
    tauto
  | trans h1 h2 ih1 ih2 => exact ih1.trans ih2

lemma mem_map_shift_iff {n : String} {L M : List (List String × Bool)}
    (h : ∀ x, x ∈ L ↔ x ∈ M) (x : List String × Bool) :
    x ∈ L.map (fun r => (n :: r.1, r.2)) ↔ x ∈ M.map (fun r => (n :: r.1, r.2)) := by
  simp only [List.mem_map]
  constructor
  · rintro ⟨r, hr, rfl⟩
    exact ⟨r, (h r).1 hr, rfl⟩
  · rintro ⟨r, hr, rfl⟩
    exact ⟨r, (h r).2 hr, rfl⟩

lemma mem_flat_mapSort_aux : ∀ (k : Nat) (F : List TreeNode), sizeOf F ≤ k →
    ∀ x, (x ∈ flatForest (mapSortTree F) ↔ x ∈ flatForest F) := by
  intro k
  induction k with
  | zero =>
    intro F h x
    cases F with
    | nil => exact Iff.rfl
    | cons t ts =>
      rw [List.cons.sizeOf_spec] at h
      omega
  | succ k ih =>
    intro F h x
    cases F with
    | nil => exact Iff.rfl
    | cons t ts =>
      rw [List.cons.sizeOf_spec] at h
      cases t with
      | mk n f cs =>
        rw [TreeNode.mk.sizeOf_spec] at h
        have e1 : flatForest (mapSortTree (TreeNode.mk n f cs :: ts))
            = (([n], f) :: (flatForest ((mapSortTree cs).insertionSort nodeLE)).map
                (fun r => (n :: r.1, r.2)))
              ++ flatForest (mapSortTree ts) := rfl
        have e2 : flatForest (TreeNode.mk n f cs :: ts)
            = (([n], f) :: (flatForest cs).map (fun r => (n :: r.1, r.2)))
              ++ flatForest ts := rfl
        rw [e1, e2]
        have hcs : ∀ y, y ∈ flatForest ((mapSortTree cs).insertionSort nodeLE)
            ↔ y ∈ flatForest cs := by
          intro y
          exact (mem_flatForest_perm (List.perm_insertionSort nodeLE _) y).trans
            (ih cs (by omega) y)
        have hts := ih ts (by omega)
        simp only [List.mem_append, List.mem_cons]
        constructor
        · rintro ((h1 | h1) | h1)
          · exact Or.inl (Or.inl h1)
          · exact Or.inl (Or.inr ((mem_map_shift_iff hcs x).1 h1))
          · exact Or.inr ((hts x).1 h1)
        · rintro ((h1 | h1) | h1)
          · exact Or.inl (Or.inl h1)
          · exact Or.inl (Or.inr ((mem_map_shift_iff hcs x).2 h1))
          · exact Or.inr ((hts x).2 h1)

lemma mem_flat_buildTree (paths : List String) (x : List String × Bool) :
    x ∈ flatForest (buildTree paths)
      ↔ x ∈ flatForest (paths.foldl
          (fun root path =>
            insertParts ((splitSlash path).filter (fun part => part ≠ "")) (endsWithSlash path) root)
          []) := by
  unfold buildTree sortForest
  exact (mem_flatForest_perm (List.perm_insertionSort nodeLE _) x).trans
    (mem_flat_mapSort_aux (sizeOf (paths.foldl
      (fun root path =>
        insertParts ((splitSlash path).filter (fun part => part ≠ "")) (endsWithSlash path) root)
      [])) _ le_rfl x)

/-- C5 (amended): every nonempty prefix π of the segment list of an input
path is rendered as a folder node of the built tree, provided no input path
without a trailing slash consists of exactly the segments π (such a path
first creates the node as a file and its flag is kept, as the counterexample
shows). -/
theorem buildTree_ancestor_segments_are_folders
    (paths : List String) (q : String) (π : List String)
    (hq : q ∈ paths) (hne : π ≠ []) (hpre : π <+: pathParts q)
    (hnofile : ∀ p ∈ paths, ¬(endsWithSlash p = false ∧ pathParts p = π)) :
    (π, true) ∈ flatForest (buildTree paths)
      ∧ (π, false) ∉ flatForest (buildTree paths) := by
  have hnotfalse : (π, false) ∉ flatForest (buildTree paths) := by
    intro hc
    have hc2 := (mem_flat_buildTree paths (π, false)).1 hc
    rcases flat_foldl_false paths [] π hc2 with h1 | ⟨p, hp, hs, hpp⟩
    · rw [show flatForest ([] : List TreeNode) = [] from rfl] at h1
      exact absurd h1 (List.not_mem_nil _)
    · exact hnofile p hp ⟨hs, hpp⟩
  refine ⟨?_, hnotfalse⟩
  rcases flat_foldl_exists paths [] q π hq hne hpre with ⟨b, hb⟩
  have hb2 := (mem_flat_buildTree paths (π, b)).2 hb
  cases b with
  | true => exact hb2
  | false => exact absurd hb2 hnotfalse

/-- C5 witness: the amended ancestor-folder theorem applied to a concrete
path list, with every hypothesis checked by computation. -/
theorem buildTree_ancestor_segments_are_folders_witness :
    ("p/a/x.txt" ∈ ["p/a/", "p/a/x.txt", "p/b.txt"]
      ∧ (["p", "a"] : List String) ≠ []
      ∧ (["p", "a"] : List String) <+: pathParts "p/a/x.txt"
      ∧ (∀ p ∈ ["p/a/", "p/a/x.txt", "p/b.txt"],
          ¬(endsWithSlash p = false ∧ pathParts p = ["p", "a"])))
    ∧ ((["p", "a"], true) ∈ flatForest (buildTree ["p/a/", "p/a/x.txt", "p/b.txt"])
        ∧ (["p", "a"], false) ∉ flatForest (buildTree ["p/a/", "p/a/x.txt", "p/b.txt"])) :=
  ⟨by decide,
    buildTree_ancestor_segments_are_folders ["p/a/", "p/a/x.txt", "p/b.txt"] "p/a/x.txt"
      ["p", "a"] (by decide) (by decide) (by decide) (by decide)⟩

end SuiteCrafter
